import Mathlib

/-!
# Component rendering engine of the learning-content website

Shallow embedding of `assets/js/components.js`: the identifier allocator
(`generateId`, `generateSectionId`), the nine variant renderers of the
`ComponentRenderers` registry, the dispatcher (`renderComponent`,
`renderComponents`), the deferred code loader (`readCodeFile` and the timer
callback of the code renderer), `toggleAccordion` and the share modal
(`showShareModal`, `closeShareModal`).

JavaScript strings are Lean strings, that is sequences of Unicode characters
(a string with an unpaired surrogate has no counterpart here).  A field that is
absent from a JSON record (`undefined` after destructuring) is `none`.  The
clock, the random source, the timer queue and the console are an explicit
`World` that every effectful function receives and returns; an exception is the
`Except.error` result.
-/

set_option linter.unusedVariables false

namespace TestWebsite

/-! ## Host state -/

/-- A callback registered by the code renderer with `setTimeout(..., 100)`:
it will read `filePath` and write the text into the element `codeId`. -/
structure DeferredLoad where
  delay : Nat
  loaderId : String
  codeId : String
  filePath : String
  deriving DecidableEq, Repr

/-- The part of the browser the engine reads and writes.  `now k` and
`randomSuffix k` are what `Date.now()` and
`Math.random().toString(36).substr(2, 9)` return at the `k`-th call of
`generateId`; `allocated` counts those calls. -/
structure World where
  now : Nat → Nat
  randomSuffix : Nat → String
  allocated : Nat
  timers : List DeferredLoad
  warnings : List String

/-- A value thrown by the JavaScript runtime. -/
inductive JsError where
  | typeError
  deriving DecidableEq, Repr

/-! ## String helpers -/

/-- Template-literal interpolation of a possibly absent string field. -/
def interp : Option String → String
  | none => "undefined"
  | some s => s

/-- JavaScript truthiness of a possibly absent string. -/
def truthy : Option String → Bool
  | none => false
  | some s => s != ""

/-- The characters matched by `\s` in a JavaScript regular expression. -/
def isJsSpace (c : Char) : Bool :=
  let n := c.toNat
  n == 9 || n == 10 || n == 11 || n == 12 || n == 13 || n == 32 || n == 0xA0 ||
  n == 0x1680 || (0x2000 ≤ n && n ≤ 0x200A) || n == 0x2028 || n == 0x2029 ||
  n == 0x202F || n == 0x205F || n == 0x3000 || n == 0xFEFF

/-- The characters of the class `[a-z0-9]`. -/
def isLowerAlnum (c : Char) : Bool :=
  (97 ≤ c.toNat && c.toNat ≤ 122) || (48 ≤ c.toNat && c.toNat ≤ 57)

/-- The characters kept by `.replace(/[^a-z0-9\s-]/g, '')`. -/
def isKept (c : Char) : Bool :=
  isLowerAlnum c || isJsSpace c || c == '-'

/-- Lower-case mapping of one character as `String.prototype.toLowerCase`
applies it: `A`-`Z` map to `a`-`z`, U+0130 maps to `i` followed by U+0307 and
U+212A (Kelvin sign) maps to `k`.  These are all the characters whose Unicode
lower-case mapping contains an ASCII character; every other character keeps its
code point here. -/
def lowerChar (c : Char) : List Char :=
  if 65 ≤ c.toNat ∧ c.toNat ≤ 90 then [Char.ofNat (c.toNat + 32)]
  else if c.toNat = 0x130 then ['i', Char.ofNat 0x307]
  else if c.toNat = 0x212A then ['k']
  else [c]

/-- The method `String.prototype.toLowerCase`, on the characters of a string. -/
def toLowerCase (cs : List Char) : List Char :=
  cs.flatMap lowerChar

/-- The call `.replace(/[^a-z0-9\s-]/g, '')`. -/
def stripInvalid (cs : List Char) : List Char :=
  cs.filter isKept

/-- The call `.replace(/\s+/g, '-')`: each maximal run of whitespace becomes one
hyphen.  `inRun` tells that the previous character belonged to the run being
replaced. -/
def spacesToHyphen (inRun : Bool) : List Char → List Char
  | [] => []
  | c :: cs =>
    if isJsSpace c then
      if inRun then spacesToHyphen true cs else '-' :: spacesToHyphen true cs
    else c :: spacesToHyphen false cs

/-- The call `.replace(re, '-')` with `re` the global pattern `-+`: each maximal
run of hyphens becomes one hyphen. -/
def collapseHyphens (inRun : Bool) : List Char → List Char
  | [] => []
  | c :: cs =>
    if c = '-' then
      if inRun then collapseHyphens true cs else '-' :: collapseHyphens true cs
    else c :: collapseHyphens false cs

/-- The alternative `^-` of `.replace(/^-|-$/g, '')`. -/
def dropLeadingHyphen : List Char → List Char
  | [] => []
  | c :: cs => if c = '-' then cs else c :: cs

/-- The alternative `-$` of `.replace(/^-|-$/g, '')`. -/
def dropTrailingHyphen : List Char → List Char
  | [] => []
  | [c] => if c = '-' then [] else [c]
  | c :: d :: cs => c :: dropTrailingHyphen (d :: cs)

/-- The call `.replace(/^-|-$/g, '')`: one hyphen at the start and one at the
end are removed. -/
def trimHyphens (cs : List Char) : List Char :=
  dropTrailingHyphen (dropLeadingHyphen cs)

/-- The chain of calls that computes `cleanName` in `generateSectionId`. -/
def cleanName (sectionName : String) : String :=
  String.mk
    (trimHyphens
      (collapseHyphens false
        (spacesToHyphen false
          (stripInvalid (toLowerCase sectionName.data)))))

/-! ## Identifier allocator -/

/-- The function `generateId`: `id-${Date.now()}-${random suffix}`. -/
def generateId (w : World) : String × World :=
  ("id-" ++ toString (w.now w.allocated) ++ "-" ++ w.randomSuffix w.allocated,
    { w with allocated := w.allocated + 1 })

/-- The function `getFileName`: the text after the last `/` or `\`. -/
def getFileName (filePath : Option String) : String :=
  if truthy filePath then
    String.mk ((interp filePath).data.foldl
      (fun acc c => if c = '/' ∨ c = '\\' then [] else acc ++ [c]) [])
  else "code.txt"

/-- The function `generateSectionId(sectionName, componentType = '')`. -/
def generateSectionId (sectionName : Option String) (componentType : String)
    (w : World) : String × World :=
  match sectionName with
  | none => generateId w
  | some s =>
    if s = "" then generateId w
    else
      let pre := if componentType = "" then "" else componentType ++ "-"
      (pre ++ cleanName s, w)

/-! ## Data model -/

/-- One entry of `data.commands`. -/
structure Command where
  command : Option String := none
  output : Option String := none
  comment : Option String := none
  deriving DecidableEq, Repr

/-- One entry of `data.cards`. -/
structure Card where
  title : Option String := none
  description : Option String := none
  image : Option String := none
  deriving DecidableEq, Repr

/-- One entry of `data.items`. -/
structure AccordionItem where
  title : Option String := none
  content : Option String := none
  deriving DecidableEq, Repr

/-- The `data` record of a component: the fields the renderers destructure, each
with the type the content files give it.  A field missing from the record is
`none`. -/
structure Data where
  title : Option String := none
  moduleName : Option String := none
  description : Option String := none
  theme : Option String := none
  content : Option String := none
  type : Option String := none
  level : Option String := none
  filePath : Option String := none
  language : Option String := none
  videoId : Option String := none
  shared : Option Bool := none
  allowMultiple : Option Bool := none
  columns : Option Int := none
  commands : Option (List Command) := none
  cards : Option (List Card) := none
  items : Option (List AccordionItem) := none
  headers : Option (List String) := none
  rows : Option (List (List String)) := none
  deriving DecidableEq, Repr

/-- A component record `{type, data, id?}`. -/
structure Component where
  type : String
  data : Data := {}
  id : Option String := none
  deriving DecidableEq, Repr

/-- What a call of `renderComponent` can return: a string, or one of the
non-string values that a method inherited from `Object.prototype` produces.
`object` is an object whose string conversion is `[object Object]` (the data
record or the registry). -/
inductive JsVal where
  | undefined
  | bool (b : Bool)
  | str (s : String)
  | object
  deriving DecidableEq, Repr

/-! ## Property lookup on object literals -/

/-- The property names every object literal inherits from `Object.prototype`. -/
def objectPrototypeKeys : List String :=
  ["constructor", "__defineGetter__", "__defineSetter__", "hasOwnProperty",
   "__lookupGetter__", "__lookupSetter__", "isPrototypeOf", "propertyIsEnumerable",
   "toString", "valueOf", "__proto__", "toLocaleString"]

/-- The result of `table[key]` on an object literal: an own property, a
property inherited from `Object.prototype`, or `undefined`. -/
inductive Lookup (α : Type) where
  | own (v : α)
  | inherited (key : String)
  | missing

/-- The expression `table[key]` for an object literal `table`. -/
def getProp {α : Type} (table : List (String × α)) (key : String) : Lookup α :=
  match table.lookup key with
  | some v => Lookup.own v
  | none => if key ∈ objectPrototypeKeys then Lookup.inherited key else Lookup.missing

/-- String conversion of a value inherited from `Object.prototype`: the source
text of a native function in the layout V8 prints, or `[object Object]` for the
prototype object that `__proto__` yields. -/
def inheritedText (key : String) : String :=
  if key = "__proto__" then "[object Object]"
  else if key = "constructor" then "function Object() \x7b [native code] \x7d"
  else "function " ++ key ++ "() \x7b [native code] \x7d"

/-- The interpolation `${table[key]}` for a table of string constants. -/
def propText (table : List (String × String)) (key : String) : String :=
  match getProp table key with
  | Lookup.own v => v
  | Lookup.inherited k => inheritedText k
  | Lookup.missing => "undefined"

/-- Upper-case mapping of one character: `a`-`z` map to `A`-`Z`; the Unicode
mapping of other characters is not reproduced. -/
def upperChar (c : Char) : Char :=
  if 97 ≤ c.toNat ∧ c.toNat ≤ 122 then Char.ofNat (c.toNat - 32) else c

/-- The method `String.prototype.toUpperCase`. -/
def toUpperCase (s : String) : String :=
  String.mk (s.data.map upperChar)

/-- The function `escapeHtml`: the text is stored as `textContent` of a fresh
element and read back as `innerHTML`, which serialises `&`, `<`, `>` and the
no-break space as character references. -/
def escapeHtml (text : String) : String :=
  String.join (text.data.map fun c =>
    if c = '&' then "&amp;"
    else if c = '<' then "&lt;"
    else if c = '>' then "&gt;"
    else if c.toNat = 0xA0 then "&nbsp;"
    else String.singleton c)

/-! ## Component registry -/

/-- The renderer `ComponentRenderers.moduleHeader`. -/
def ComponentRenderers.moduleHeader (data : Data) (w : World) : Except JsError String × World :=
  let title := data.title
  let moduleName := data.moduleName
  let description := data.description
  let theme := data.theme.getD "orange"
  let (headerId, w1) := generateSectionId title "header" w
  let themeClasses : List (String × String) := [
    ("orange", "bg-gradient-to-br from-orange-500 to-red-600"),
    ("navy", "bg-gradient-to-br from-blue-800 to-indigo-900"),
    ("blue", "bg-gradient-to-br from-blue-600 to-indigo-700"),
    ("white", "bg-gradient-to-br from-gray-50 to-gray-100 text-gray-900 border border-gray-200")]
  let textColor := if theme = "white" then "text-gray-900" else "text-white"
  let badgeColor := if theme = "white" then "bg-gray-900/10 text-gray-700" else "bg-white/20"
  let subtitleColor := if theme = "white" then "text-gray-600" else "text-orange-100"
  (.ok ("
            <section id=\"" ++ headerId ++ "\" class=\"" ++ propText themeClasses theme ++ " " ++ textColor ++ " py-16 px-6 rounded-xl mb-8 shadow-lg\">
                <div class=\"max-w-4xl mx-auto text-center\">
                    <div class=\"inline-block " ++ badgeColor ++ " px-4 py-2 rounded-full text-sm font-medium mb-4\">
                        " ++ interp moduleName ++ "
                    </div>
                    <h1 class=\"text-3xl md:text-5xl font-bold mb-6\">" ++ interp title ++ "</h1>
                    <p class=\"text-lg md:text-xl " ++ subtitleColor ++ " max-w-2xl mx-auto leading-relaxed\">
                        " ++ interp description ++ "
                    </p>
                </div>
            </section>
        "), w1)

/-- The renderer `ComponentRenderers.info`. -/
def ComponentRenderers.info (data : Data) (w : World) : Except JsError String × World :=
  let title := data.title
  let content := data.content
  let type := data.type.getD "default"
  let shared := data.shared.getD false
  let (infoId, w1) := generateSectionId title "info" w
  let typeStyles : List (String × String) := [
    ("default", "bg-gray-50 border-gray-200 text-gray-800 dark:bg-gray-800 dark:border-gray-700 dark:text-gray-200"),
    ("primary", "bg-orange-50 border-orange-200 text-orange-800 dark:bg-orange-900/20 dark:border-orange-800 dark:text-orange-200"),
    ("success", "bg-green-50 border-green-200 text-green-800 dark:bg-green-900/20 dark:border-green-800 dark:text-green-200"),
    ("warning", "bg-yellow-50 border-yellow-200 text-yellow-800 dark:bg-yellow-900/20 dark:border-yellow-800 dark:text-yellow-200"),
    ("error", "bg-red-50 border-red-200 text-red-800 dark:bg-red-900/20 dark:border-red-800 dark:text-red-200"),
    ("navy", "bg-blue-50 border-blue-200 text-blue-800 dark:bg-blue-900/20 dark:border-blue-800 dark:text-blue-200")]
  let icons : List (String × String) := [
    ("default", "fas fa-info-circle"),
    ("primary", "fas fa-lightbulb"),
    ("success", "fas fa-check-circle"),
    ("warning", "fas fa-exclamation-triangle"),
    ("error", "fas fa-times-circle"),
    ("navy", "fas fa-anchor")]
  (.ok ("
            <div id=\"" ++ infoId ++ "\" class=\"border-l-4 p-6 mb-6 " ++ propText typeStyles type ++ " rounded-r-lg shadow-sm\">
                <div class=\"flex items-start justify-between\">
                    <div class=\"flex items-start flex-1\">
                        <i class=\"" ++ propText icons type ++ " text-xl mr-4 mt-1\"></i>
                        <div class=\"flex-1\">
                            <h3 class=\"font-semibold text-lg mb-2\">" ++ interp title ++ "</h3>
                            <div class=\"prose prose-sm max-w-none\">" ++ interp content ++ "</div>
                        </div>
                    </div>
                    " ++ (if shared then "
                        <button onclick=\"shareSection('" ++ infoId ++ "', '" ++ interp title ++ "')\" 
                                class=\"ml-4 p-2 opacity-60 hover:opacity-100 transition-opacity hover:text-orange-600\" 
                                title=\"Share this section\">
                            <i class=\"fas fa-share-alt\"></i>
                        </button>
                    " else "") ++ "
                </div>
            </div>
        "), w1)

/-- The renderer `ComponentRenderers.material`. -/
def ComponentRenderers.material (data : Data) (w : World) : Except JsError String × World :=
  let title := data.title
  let content := data.content
  let level := data.level.getD "h2"
  let shared := data.shared.getD false
  let theme := data.theme.getD "default"
  let (materialId, w1) := generateSectionId title "material" w
  let headingClasses : List (String × String) := [
    ("h1", "text-3xl font-bold mb-6"),
    ("h2", "text-2xl font-bold mb-4"),
    ("h3", "text-xl font-semibold mb-3"),
    ("h4", "text-lg font-semibold mb-2"),
    ("h5", "text-base font-semibold mb-2"),
    ("h6", "text-sm font-semibold mb-2")]
  let themeColors : List (String × String) := [
    ("default", "text-gray-900 dark:text-white"),
    ("orange", "text-orange-700 dark:text-orange-300"),
    ("navy", "text-blue-800 dark:text-blue-300")]
  (.ok ("
            <section id=\"" ++ materialId ++ "\" class=\"mb-8 scroll-mt-20\">
                <div class=\"flex items-center justify-between mb-4\">
                    <" ++ level ++ " class=\"" ++ propText headingClasses level ++ " " ++ propText themeColors theme ++ "\">
                        " ++ interp title ++ "
                    </" ++ level ++ ">
                    " ++ (if shared then "
                        <button onclick=\"shareSection('" ++ materialId ++ "', '" ++ interp title ++ "')\" 
                                class=\"p-2 text-gray-500 hover:text-orange-600 rounded-lg transition-colors\" 
                                title=\"Share this section\">
                            <i class=\"fas fa-share-alt\"></i>
                        </button>
                    " else "") ++ "
                </div>
                <div class=\"prose prose-lg dark:prose-invert max-w-none\">
                    " ++ interp content ++ "
                </div>
            </section>
        "), w1)

/-- The renderer `ComponentRenderers.code`.  The callback given to `setTimeout`
is recorded in `World.timers`. -/
def ComponentRenderers.code (data : Data) (w : World) : Except JsError String × World :=
  let title := data.title
  let description := data.description
  let filePath := data.filePath
  let language := data.language.getD "javascript"
  let shared := data.shared.getD true
  let theme := data.theme.getD "orange"
  if !truthy filePath then
    (.ok ("
                <div class=\"p-4 bg-red-50 border border-red-200 rounded-lg mb-6\">
                    <p class=\"text-red-600\">Error: filePath is required for code component</p>
                </div>
            "), w)
  else
    let (codeId, w1) := generateId w
    let loaderId := "loader-" ++ codeId
    let (containerId, w2) := generateSectionId title "code" w1
    let displayFileName := getFileName filePath
    let themeColors : List (String × String) := [
      ("orange", "hover:text-orange-400"),
      ("navy", "hover:text-blue-400"),
      ("blue", "hover:text-blue-400")]
    let w3 := { w2 with timers := w2.timers ++ [⟨100, loaderId, codeId, interp filePath⟩] }
    (.ok ("
            <div id=\"" ++ containerId ++ "\" class=\"bg-white dark:bg-gray-900 rounded-xl shadow-lg border border-gray-200 dark:border-gray-700 mb-8 overflow-hidden scroll-mt-20\">
                <div class=\"px-6 py-4 border-b border-gray-200 dark:border-gray-700\">
                    <div class=\"flex items-center justify-between\">
                        <div>
                            <h3 class=\"text-xl font-semibold text-gray-900 dark:text-white\">" ++ interp title ++ "</h3>
                            " ++ (if truthy description then "<p class=\"text-gray-600 dark:text-gray-300 mt-1\">" ++ interp description ++ "</p>" else "") ++ "
                        </div>
                        " ++ (if shared then "
                            <button onclick=\"shareSection('" ++ containerId ++ "', '" ++ interp title ++ "')\" 
                                    class=\"p-2 text-gray-500 hover:text-orange-600 rounded-lg transition-colors\" 
                                    title=\"Share this code\">
                                <i class=\"fas fa-share-alt\"></i>
                            </button>
                        " else "") ++ "
                    </div>
                </div>
                
                <div class=\"relative\">
                    <!-- Code Header -->
                    <div class=\"flex items-center justify-between bg-gray-800 text-white px-4 py-3\">
                        <div class=\"flex items-center space-x-3\">
                            <div class=\"flex space-x-1\">
                                <div class=\"w-3 h-3 bg-red-500 rounded-full\"></div>
                                <div class=\"w-3 h-3 bg-yellow-500 rounded-full\"></div>
                                <div class=\"w-3 h-3 bg-green-500 rounded-full\"></div>
                            </div>
                            <span class=\"text-sm font-mono text-gray-300\">" ++ displayFileName ++ "</span>
                        </div>
                        <div class=\"flex items-center space-x-2\">
                            <button onclick=\"downloadCodeFile('" ++ interp filePath ++ "', '" ++ codeId ++ "')\" 
                                    class=\"p-2 hover:bg-gray-700 rounded-lg transition-colors group\" 
                                    title=\"Download File\">
                                <i class=\"fas fa-download text-sm " ++ propText themeColors theme ++ "\"></i>
                            </button>
                            <button onclick=\"copyCodeToClipboard('" ++ codeId ++ "')\" 
                                    class=\"p-2 hover:bg-gray-700 rounded-lg transition-colors group\" 
                                    title=\"Copy Code\">
                                <i class=\"fas fa-copy text-sm group-hover:text-green-400\"></i>
                            </button>
                            <button onclick=\"toggleFullscreen('" ++ codeId ++ "')\" 
                                    class=\"p-2 hover:bg-gray-700 rounded-lg transition-colors group\" 
                                    title=\"Fullscreen\">
                                <i class=\"fas fa-expand text-sm " ++ propText themeColors theme ++ "\"></i>
                            </button>
                        </div>
                    </div>
                    
                    <!-- Loading indicator -->
                    <div id=\"" ++ loaderId ++ "\" class=\"hidden absolute inset-0 bg-gray-100 dark:bg-gray-800 flex items-center justify-center z-10\">
                        <div class=\"flex items-center space-x-2 text-gray-600 dark:text-gray-400\">
                            <div class=\"animate-spin rounded-full h-5 w-5 border-b-2 border-orange-600\"></div>
                            <span>Loading code...</span>
                        </div>
                    </div>
                    
                    <!-- Code Content -->
                    <div class=\"relative\">
                        <pre class=\"!mt-0 !mb-0 overflow-x-auto bg-gray-50 dark:bg-gray-800 p-4\" style=\"max-height: 600px;\"><code id=\"" ++ codeId ++ "\" class=\"language-" ++ language ++ " line-numbers\">Loading...</code></pre>
                    </div>
                </div>
            </div>
        "), w3)

/-- The renderer `ComponentRenderers.command`.  `commands.map` throws a
`TypeError` when `commands` is absent. -/
def ComponentRenderers.command (data : Data) (w : World) : Except JsError String × World :=
  let title := data.title
  let description := data.description
  let type := data.type.getD "terminal"
  let shared := data.shared.getD false
  let theme := data.theme.getD "orange"
  let (commandId, w1) := generateSectionId title "command" w
  let themeColors : List (String × String) := [
    ("orange", "text-orange-700 dark:text-orange-300"),
    ("navy", "text-blue-800 dark:text-blue-300"),
    ("blue", "text-blue-700 dark:text-blue-300")]
  let typeStyles : List (String × String) := [
    ("terminal", "bg-gray-900 text-green-400"),
    ("powershell", "bg-blue-900 text-white"),
    ("cmd", "bg-black text-white")]
  let promptSymbols : List (String × String) := [
    ("terminal", "$"),
    ("powershell", "PS>"),
    ("cmd", "C:\\>")]
  match data.commands with
  | none => (.error JsError.typeError, w1)
  | some commands =>
    (.ok ("
            <section id=\"" ++ commandId ++ "\" class=\"mb-8 scroll-mt-20\">
                <div class=\"flex items-center justify-between mb-4\">
                    <h3 class=\"text-xl font-semibold " ++ propText themeColors theme ++ "\">" ++ interp title ++ "</h3>
                    " ++ (if shared then "
                        <button onclick=\"shareSection('" ++ commandId ++ "', '" ++ interp title ++ "')\" 
                                class=\"p-2 text-gray-500 hover:text-orange-600 rounded-lg transition-colors\" 
                                title=\"Share this command\">
                            <i class=\"fas fa-share-alt\"></i>
                        </button>
                    " else "") ++ "
                </div>
                " ++ (if truthy description then "<p class=\"text-gray-600 dark:text-gray-300 mb-4\">" ++ interp description ++ "</p>" else "") ++ "
                
                <div class=\"bg-white dark:bg-gray-800 rounded-lg shadow-lg border border-gray-200 dark:border-gray-700 overflow-hidden\">
                    <!-- Terminal Header -->
                    <div class=\"flex items-center justify-between bg-gray-200 dark:bg-gray-700 px-4 py-2\">
                        <div class=\"flex items-center space-x-2\">
                            <div class=\"flex space-x-1\">
                                <div class=\"w-3 h-3 bg-red-500 rounded-full\"></div>
                                <div class=\"w-3 h-3 bg-yellow-500 rounded-full\"></div>
                                <div class=\"w-3 h-3 bg-green-500 rounded-full\"></div>
                            </div>
                            <span class=\"text-sm font-medium text-gray-600 dark:text-gray-300\">" ++ toUpperCase type ++ "</span>
                        </div>
                        <button onclick=\"copyCommandsToClipboard('" ++ commandId ++ "')\" 
                                class=\"p-1 text-gray-500 hover:text-orange-600 rounded transition-colors\" 
                                title=\"Copy all commands\">
                            <i class=\"fas fa-copy text-sm\"></i>
                        </button>
                    </div>
                    
                    <!-- Terminal Content -->
                    <div class=\"" ++ propText typeStyles type ++ " p-4 font-mono text-sm overflow-x-auto\">
                        <div id=\"" ++ commandId ++ "-content\">
                            " ++ (String.join (List.map (fun (index, cmd) => let cmdId := commandId ++ "-cmd-" ++ toString index; "
                                    <div class=\"mb-2 group\">
                                        <div class=\"flex items-center\">
                                            <span class=\"text-gray-400 mr-2\">" ++ propText promptSymbols type ++ "</span>
                                            <span class=\"flex-1\">" ++ interp cmd.command ++ "</span>
                                            <button onclick=\"copyToClipboard('" ++ interp cmd.command ++ "')\" 
                                                    class=\"ml-2 opacity-0 group-hover:opacity-100 p-1 hover:bg-gray-700 rounded transition-all\" 
                                                    title=\"Copy command\">
                                                <i class=\"fas fa-copy text-xs\"></i>
                                            </button>
                                        </div>
                                        " ++ (if truthy cmd.output then "
                                            <div class=\"mt-1 ml-6 text-gray-300 whitespace-pre-wrap\">" ++ interp cmd.output ++ "</div>
                                        " else "") ++ "
                                        " ++ (if truthy cmd.comment then "
                                            <div class=\"mt-1 ml-6 text-gray-500 text-xs\"># " ++ interp cmd.comment ++ "</div>
                                        " else "") ++ "
                                    </div>
                                ") (List.enum commands))) ++ "
                        </div>
                    </div>
                </div>
            </section>
        "), w1)

/-- The renderer `ComponentRenderers.cardSection`.  `cards.map` throws a
`TypeError` when `cards` is absent. -/
def ComponentRenderers.cardSection (data : Data) (w : World) : Except JsError String × World :=
  let title := data.title
  let columns := data.columns.getD 2
  let shared := data.shared.getD false
  let theme := data.theme.getD "orange"
  let (sectionId, w1) := generateSectionId title "cards" w
  let gridClass := "grid-cols-1 md:grid-cols-" ++ toString (min columns 3)
  let themeColors : List (String × String) := [
    ("orange", "text-orange-700 dark:text-orange-300"),
    ("navy", "text-blue-800 dark:text-blue-300"),
    ("blue", "text-blue-700 dark:text-blue-300")]
  match data.cards with
  | none => (.error JsError.typeError, w1)
  | some cards =>
    (.ok ("
            <section id=\"" ++ sectionId ++ "\" class=\"mb-8 scroll-mt-20\">
                <div class=\"flex items-center justify-between mb-6\">
                    <h2 class=\"text-2xl font-bold " ++ propText themeColors theme ++ "\">" ++ interp title ++ "</h2>
                    " ++ (if shared then "
                        <button onclick=\"shareSection('" ++ sectionId ++ "', '" ++ interp title ++ "')\" 
                                class=\"p-2 text-gray-500 hover:text-orange-600 rounded-lg transition-colors\" 
                                title=\"Share this section\">
                            <i class=\"fas fa-share-alt\"></i>
                        </button>
                    " else "") ++ "
                </div>
                
                <div class=\"grid " ++ gridClass ++ " gap-6\">
                    " ++ (String.join (List.map (fun card => "
                        <div class=\"bg-white dark:bg-gray-800 rounded-lg shadow-md hover:shadow-lg transition-all duration-300 border border-gray-200 dark:border-gray-700 overflow-hidden hover:border-orange-300 dark:hover:border-orange-600\">
                            " ++ (if truthy card.image then "
                                <img src=\"" ++ interp card.image ++ "\" alt=\"" ++ interp card.title ++ "\" class=\"w-full h-48 object-cover\">
                            " else "") ++ "
                            <div class=\"p-6\">
                                <h3 class=\"text-lg font-semibold mb-3 text-gray-900 dark:text-white\">" ++ interp card.title ++ "</h3>
                                <p class=\"text-gray-600 dark:text-gray-300 leading-relaxed\">" ++ interp card.description ++ "</p>
                            </div>
                        </div>
                    ") cards)) ++ "
                </div>
            </section>
        "), w1)

/-- The renderer `ComponentRenderers.accordionSection`.  `items.map` throws a
`TypeError` when `items` is absent. -/
def ComponentRenderers.accordionSection (data : Data) (w : World) : Except JsError String × World :=
  let title := data.title
  let allowMultiple := data.allowMultiple.getD false
  let shared := data.shared.getD false
  let theme := data.theme.getD "orange"
  let (accordionId, w1) := generateSectionId title "accordion" w
  let themeColors : List (String × String) := [
    ("orange", "text-orange-700 dark:text-orange-300"),
    ("navy", "text-blue-800 dark:text-blue-300"),
    ("blue", "text-blue-700 dark:text-blue-300")]
  match data.items with
  | none => (.error JsError.typeError, w1)
  | some items =>
    (.ok ("
            <section id=\"" ++ accordionId ++ "\" class=\"mb-8 scroll-mt-20\">
                <div class=\"flex items-center justify-between mb-6\">
                    <h2 class=\"text-2xl font-bold " ++ propText themeColors theme ++ "\">" ++ interp title ++ "</h2>
                    " ++ (if shared then "
                        <button onclick=\"shareSection('" ++ accordionId ++ "', '" ++ interp title ++ "')\" 
                                class=\"p-2 text-gray-500 hover:text-orange-600 rounded-lg transition-colors\" 
                                title=\"Share this section\">
                            <i class=\"fas fa-share-alt\"></i>
                        </button>
                    " else "") ++ "
                </div>
                
                <div class=\"space-y-3\" data-accordion=\"" ++ accordionId ++ "\" data-multiple=\"" ++ toString allowMultiple ++ "\">
                    " ++ (String.join (List.map (fun (index, item) => let itemId := accordionId ++ "-item-" ++ toString index; "
                            <div class=\"border border-gray-200 dark:border-gray-700 rounded-lg overflow-hidden hover:border-orange-300 dark:hover:border-orange-600 transition-colors\">
                                <button 
                                    class=\"accordion-toggle w-full px-6 py-4 text-left flex items-center justify-between bg-gray-50 dark:bg-gray-800 hover:bg-orange-50 dark:hover:bg-gray-700 transition-colors\"
                                    data-target=\"" ++ itemId ++ "\"
                                    onclick=\"toggleAccordion('" ++ itemId ++ "', '" ++ accordionId ++ "', " ++ toString allowMultiple ++ ")\"
                                >
                                    <span class=\"font-medium text-gray-900 dark:text-white\">" ++ interp item.title ++ "</span>
                                    <i class=\"fas fa-chevron-down transform transition-transform duration-200 text-orange-500\"></i>
                                </button>
                                <div id=\"" ++ itemId ++ "\" class=\"accordion-content hidden\">
                                    <div class=\"px-6 py-4 border-t border-gray-200 dark:border-gray-700 prose prose-sm dark:prose-invert max-w-none\">
                                        " ++ interp item.content ++ "
                                    </div>
                                </div>
                            </div>
                        ") (List.enum items))) ++ "
                </div>
            </section>
        "), w1)

/-- The renderer `ComponentRenderers.video`. -/
def ComponentRenderers.video (data : Data) (w : World) : Except JsError String × World :=
  let title := data.title
  let description := data.description
  let videoId := data.videoId
  let shared := data.shared.getD true
  let theme := data.theme.getD "orange"
  let (videoContainerId, w1) := generateSectionId title "video" w
  let themeColors : List (String × String) := [
    ("orange", "text-orange-700 dark:text-orange-300"),
    ("navy", "text-blue-800 dark:text-blue-300"),
    ("blue", "text-blue-700 dark:text-blue-300")]
  (.ok ("
            <section id=\"" ++ videoContainerId ++ "\" class=\"mb-8 scroll-mt-20\">
                <div class=\"flex items-center justify-between mb-4\">
                    <h3 class=\"text-xl font-semibold " ++ propText themeColors theme ++ "\">" ++ interp title ++ "</h3>
                    " ++ (if shared then "
                        <button onclick=\"shareSection('" ++ videoContainerId ++ "', '" ++ interp title ++ "')\" 
                                class=\"p-2 text-gray-500 hover:text-orange-600 rounded-lg transition-colors\" 
                                title=\"Share this video\">
                            <i class=\"fas fa-share-alt\"></i>
                        </button>
                    " else "") ++ "
                </div>
                " ++ (if truthy description then "<p class=\"text-gray-600 dark:text-gray-300 mb-4\">" ++ interp description ++ "</p>" else "") ++ "
                
                <div class=\"relative pb-[56.25%] bg-gray-200 dark:bg-gray-800 rounded-lg overflow-hidden shadow-lg border-2 border-transparent hover:border-orange-300 transition-colors\">
                    <iframe 
                        class=\"absolute inset-0 w-full h-full\"
                        src=\"https://www.youtube.com/embed/" ++ interp videoId ++ "?rel=0&modestbranding=1\"
                        title=\"" ++ interp title ++ "\"
                        frameborder=\"0\"
                        allow=\"accelerometer; autoplay; clipboard-write; encrypted-media; gyroscope; picture-in-picture\"
                        allowfullscreen>
                    </iframe>
                </div>
            </section>
        "), w1)

/-- The renderer `ComponentRenderers.table`.  `headers.map` and `rows.map`
throw a `TypeError` when the array is absent. -/
def ComponentRenderers.table (data : Data) (w : World) : Except JsError String × World :=
  let title := data.title
  let shared := data.shared.getD false
  let theme := data.theme.getD "orange"
  let (tableId, w1) := generateSectionId title "table" w
  let themeColors : List (String × String) := [
    ("orange", "text-orange-700 dark:text-orange-300"),
    ("navy", "text-blue-800 dark:text-blue-300"),
    ("blue", "text-blue-700 dark:text-blue-300")]
  match data.headers, data.rows with
  | some headers, some rows =>
    (.ok ("
            <section id=\"" ++ tableId ++ "\" class=\"mb-8 scroll-mt-20\">
                <div class=\"flex items-center justify-between mb-4\">
                    <h3 class=\"text-xl font-semibold " ++ propText themeColors theme ++ "\">" ++ interp title ++ "</h3>
                    " ++ (if shared then "
                        <button onclick=\"shareSection('" ++ tableId ++ "', '" ++ interp title ++ "')\" 
                                class=\"p-2 text-gray-500 hover:text-orange-600 rounded-lg transition-colors\" 
                                title=\"Share this table\">
                            <i class=\"fas fa-share-alt\"></i>
                        </button>
                    " else "") ++ "
                </div>
                
                <div class=\"overflow-x-auto\">
                    <table class=\"min-w-full bg-white dark:bg-gray-800 border border-gray-200 dark:border-gray-700 rounded-lg overflow-hidden shadow-sm\">
                        <thead class=\"bg-orange-50 dark:bg-gray-700\">
                            <tr>
                                " ++ (String.join (List.map (fun header => "
                                    <th class=\"px-6 py-3 text-left font-medium text-orange-700 dark:text-orange-300\">" ++ header ++ "</th>
                                ") headers)) ++ "
                            </tr>
                        </thead>
                        <tbody class=\"divide-y divide-gray-200 dark:divide-gray-700\">
                            " ++ (String.join (List.map (fun row => "
                                <tr class=\"hover:bg-orange-50 dark:hover:bg-gray-700 transition-colors\">
                                    " ++ (String.join (List.map (fun cell => "
                                        <td class=\"px-6 py-4 text-gray-700 dark:text-gray-300\">" ++ cell ++ "</td>
                                    ") row)) ++ "
                                </tr>
                            ") rows)) ++ "
                        </tbody>
                    </table>
                </div>
            </section>
        "), w1)
  | _, _ => (.error JsError.typeError, w1)

/-- The type of a variant renderer. -/
abbrev Renderer := Data → World → Except JsError String × World

/-- The own properties of the object `ComponentRenderers`. -/
def ComponentRenderers.entries : List (String × Renderer) :=
  [("moduleHeader", ComponentRenderers.moduleHeader),
   ("info", ComponentRenderers.info),
   ("material", ComponentRenderers.material),
   ("code", ComponentRenderers.code),
   ("command", ComponentRenderers.command),
   ("cardSection", ComponentRenderers.cardSection),
   ("accordionSection", ComponentRenderers.accordionSection),
   ("video", ComponentRenderers.video),
   ("table", ComponentRenderers.table)]

/-! ## Dispatcher -/

/-- The call `ComponentRenderers[type](data)` when `type` names a property
inherited from `Object.prototype`, with the registry as receiver and the data
record as argument: `constructor` returns the record, `toString` and
`toLocaleString` return `[object Object]`, `valueOf` returns the registry,
`hasOwnProperty`, `isPrototypeOf` and `propertyIsEnumerable` return `false`,
`__lookupGetter__` and `__lookupSetter__` return `undefined`;
`__defineGetter__` and `__defineSetter__` throw because their second argument
is not callable, and `__proto__` is not a function. -/
def callInherited (key : String) : Except JsError JsVal :=
  if key = "constructor" ∨ key = "valueOf" then .ok JsVal.object
  else if key = "toString" ∨ key = "toLocaleString" then .ok (JsVal.str "[object Object]")
  else if key = "hasOwnProperty" ∨ key = "isPrototypeOf" ∨ key = "propertyIsEnumerable" then
    .ok (JsVal.bool false)
  else if key = "__lookupGetter__" ∨ key = "__lookupSetter__" then .ok JsVal.undefined
  else .error JsError.typeError

/-- Template-literal interpolation `${v}` of a returned value. -/
def JsVal.text : JsVal → String
  | JsVal.undefined => "undefined"
  | JsVal.bool b => toString b
  | JsVal.str s => s
  | JsVal.object => "[object Object]"

/-- The markup returned for a type without a renderer. -/
def unknownTypeFragment (type : String) : String :=
  "
            <div class=\"p-4 bg-red-50 border border-red-200 rounded-lg mb-4\">
                <p class=\"text-red-600\">Unknown component type: <strong>" ++ type ++ "</strong></p>
            </div>
        "

/-- The container that `renderComponent` puts around the markup when the
component has an `id`. -/
def wrapWithId (id type renderedHTML : String) : String :=
  "<div id=\"" ++ id ++ "\" class=\"component-container\" data-component-type=\"" ++ type ++ "\">" ++ renderedHTML ++ "</div>"

/-- The function `renderComponent`. -/
def renderComponent (component : Component) (w : World) : Except JsError JsVal × World :=
  let type := component.type
  let data := component.data
  let id := component.id
  match getProp ComponentRenderers.entries type with
  | Lookup.missing =>
    (.ok (JsVal.str (unknownTypeFragment type)),
      { w with warnings := w.warnings ++ ["Unknown component type: " ++ type] })
  | Lookup.own renderer =>
    match renderer data w with
    | (.error e, w1) => (.error e, w1)
    | (.ok renderedHTML, w1) =>
      if truthy id then (.ok (JsVal.str (wrapWithId (interp id) type renderedHTML)), w1)
      else (.ok (JsVal.str renderedHTML), w1)
  | Lookup.inherited key =>
    match callInherited key with
    | .error e => (.error e, w)
    | .ok renderedHTML =>
      if truthy id then (.ok (JsVal.str (wrapWithId (interp id) type renderedHTML.text)), w)
      else (.ok renderedHTML, w)

/-- The call `components.map(component => renderComponent(component))`: the
components are rendered from left to right and the first exception ends the
loop. -/
def mapRender : List Component → World → Except JsError (List JsVal) × World
  | [], w => (.ok [], w)
  | component :: rest, w =>
    match renderComponent component w with
    | (.error e, w1) => (.error e, w1)
    | (.ok v, w1) =>
      match mapRender rest w1 with
      | (.error e, w2) => (.error e, w2)
      | (.ok vs, w2) => (.ok (v :: vs), w2)

/-- The text `Array.prototype.join` takes for one element: `undefined` gives
the empty string, any other value its string conversion. -/
def JsVal.joinText : JsVal → String
  | JsVal.undefined => ""
  | v => v.text

/-- The method `Array.prototype.join(separator)`: the separator is put before
every element but the first. -/
def arrayJoin (separator : String) : List JsVal → String
  | [] => ""
  | v :: vs => vs.foldl (fun acc x => acc ++ separator ++ x.joinText) v.joinText

/-- The function `renderComponents`. -/
def renderComponents (components : List Component) (w : World) : Except JsError String × World :=
  match mapRender components w with
  | (.error e, w1) => (.error e, w1)
  | (.ok vs, w1) => (.ok (arrayJoin "" vs), w1)

/-! ## Deferred code loader -/

/-- The method `String.prototype.startsWith`. -/
def startsWith (s start : String) : Bool :=
  start.data.isPrefixOf s.data

/-- The value of `normalizedPath` at the call `fetch(normalizedPath)` in
`readCodeFile`: a leading `./` is removed, then `/` is put in front unless the
path starts with `/` or with `http`. -/
def readCodeFile.normalizedPath (filePath : String) : String :=
  let normalizedPath :=
    if startsWith filePath "./" then String.mk (filePath.data.drop 2) else filePath
  if !startsWith normalizedPath "/" && !startsWith normalizedPath "http" then
    "/" ++ normalizedPath
  else normalizedPath

/-- What the promise returned by `fetch(path)` settles to: it rejects with an
error carrying a message, or it resolves to a response with a status, a status
text and a body whose reading (`response.text()`) gives the text or rejects
with a message.  `response.ok` holds for the statuses 200 to 299. -/
inductive FetchOutcome where
  | rejected (message : String)
  | response (status : Nat) (statusText : String) (body : Except String String)

/-- The function `readCodeFile`: the value its promise resolves to.  Every
exception of the `try` block is caught and turned into the placeholder text, so
the promise always resolves.  Console output is left out. -/
def readCodeFile (fetch : String → FetchOutcome) (filePath : String) : String :=
  let failure := fun (message : String) =>
    "// Error: Could not load file " ++ getFileName (some filePath) ++ "\n// " ++ message
  match fetch (readCodeFile.normalizedPath filePath) with
  | FetchOutcome.rejected message => failure message
  | FetchOutcome.response status statusText body =>
    if 200 ≤ status ∧ status ≤ 299 then
      match body with
      | .ok text => text
      | .error message => failure message
    else failure ("HTTP " ++ toString status ++ ": " ++ statusText)

/-- An element of the document, with the properties the deferred loader reads
and writes: its `id`, its `textContent` and `style.display`. -/
structure Element where
  id : String
  textContent : String
  display : String
  deriving DecidableEq, Repr

/-- The elements of the document that carry an id, in document order. -/
abbrev Document := List Element

/-- The method `document.getElementById`: the first element with the id. -/
def getElementById (doc : Document) (id : String) : Option Element :=
  doc.find? (fun e => e.id == id)

/-- A change made to the element that `document.getElementById(id)` returns;
nothing happens when there is no such element. -/
def updateById (id : String) (f : Element → Element) : Document → Document
  | [] => []
  | e :: rest => if e.id = id then f e :: rest else e :: updateById id f rest

/-- The elements with an id that the browser builds from the markup of the code
renderer: the container, the loading indicator and the `code` element, whose
text is `Loading...`. -/
def mountedCodeElements (containerId loaderId codeId : String) : Document :=
  [{ id := containerId, textContent := "", display := "" },
   { id := loaderId, textContent := "Loading code...", display := "" },
   { id := codeId, textContent := "Loading...", display := "" }]

/-- The callback that the code renderer hands to `setTimeout`, run to its end:
the loader is shown, the file is read, the loader is hidden and the text is
stored in the element `codeId`; `Prism.highlightElement` is applied to that
element when `Prism` is defined (`prism` is then `some` of its effect). -/
def runDeferredLoad (fetch : String → FetchOutcome) (prism : Option (Element → Element))
    (timer : DeferredLoad) (doc : Document) : Document :=
  let doc1 := updateById timer.loaderId (fun loader => { loader with display := "flex" }) doc
  let codeContent := readCodeFile fetch timer.filePath
  let doc2 := updateById timer.loaderId (fun loader => { loader with display := "none" }) doc1
  updateById timer.codeId
    (fun codeElement =>
      let written := { codeElement with textContent := codeContent }
      match prism with
      | some highlightElement => highlightElement written
      | none => written)
    doc2

/-! ## Accordion widget -/

/-- One panel of an accordion group with the icon of the button that targets
it: `hidden` is the class `hidden` of the content element, `rotated` the class
`rotate-180` of the icon, `maxHeight`, `overflow` and `transition` are inline
styles and `scrollHeight` is the natural height of the content. -/
structure AccordionPanel where
  id : String
  hidden : Bool
  rotated : Bool
  maxHeight : String
  overflow : String
  transition : String
  scrollHeight : Nat
  deriving DecidableEq, Repr

/-- A callback registered by `toggleAccordion` with `setTimeout(..., 300)`. -/
inductive AccordionTimer where
  | clearStyles (itemId : String)
  | hideAndClearStyles (itemId : String)
  deriving DecidableEq, Repr

/-- The part of the document that `toggleAccordion` works on: the element with
the attribute `data-accordion`, its panels in document order and the pending
timers. -/
structure AccordionDom where
  accordionId : String
  panels : List AccordionPanel
  timers : List AccordionTimer
  deriving DecidableEq, Repr

/-- Applies `f` to the first panel with the id `itemId` (the element that
`document.getElementById` and `document.querySelector` return) and `g` to every
other panel. -/
def onFirst (itemId : String) (f g : AccordionPanel → AccordionPanel) :
    List AccordionPanel → List AccordionPanel
  | [] => []
  | p :: rest => if p.id = itemId then f p :: rest.map g else g p :: onFirst itemId f g rest

/-- The body of `allItems.forEach`: a panel other than the target that is not
hidden gets the class `hidden`. -/
def hideUnlessTarget (itemId : String) (otherItem : AccordionPanel) : AccordionPanel :=
  if otherItem.id ≠ itemId ∧ otherItem.hidden = false then { otherItem with hidden := true }
  else otherItem

/-- The body of `allButtons.forEach` for an icon other than the target's: the
class `rotate-180` is removed. -/
def resetIcon (otherIcon : AccordionPanel) : AccordionPanel :=
  { otherIcon with rotated := false }

/-- The branch of `toggleAccordion` for a hidden target, with the final
`icon.classList.toggle`: the class `hidden` is removed and the inline styles of
the opening transition are set. -/
def expandPanel (item : AccordionPanel) : AccordionPanel :=
  { item with
    hidden := false, maxHeight := toString item.scrollHeight ++ "px", overflow := "hidden",
    transition := "max-height 0.3s ease-out", rotated := !item.rotated }

/-- The branch of `toggleAccordion` for a visible target, with the final
`icon.classList.toggle`: the inline styles of the closing transition are set;
the class `hidden` is added by the timer. -/
def startCollapse (item : AccordionPanel) : AccordionPanel :=
  { item with
    maxHeight := "0px", overflow := "hidden", transition := "max-height 0.3s ease-out",
    rotated := !item.rotated }

/-- The block `if (!allowMultiple)` of `toggleAccordion`: the two `forEach`
loops over the panels and over the icons of the group. -/
def collapseSiblings (itemId : String) (panels : List AccordionPanel) : List AccordionPanel :=
  onFirst itemId id resetIcon (panels.map (hideUnlessTarget itemId))

/-- The function `toggleAccordion`.  A missing button or a missing accordion
element makes the property access throw a `TypeError`. -/
def toggleAccordion (itemId accordionId : String) (allowMultiple : Bool)
    (dom : AccordionDom) : Except JsError AccordionDom :=
  match dom.panels.find? (fun p => p.id == itemId) with
  | none => .error JsError.typeError
  | some item =>
    if !allowMultiple && accordionId != dom.accordionId then .error JsError.typeError
    else
      let panels1 := if !allowMultiple then collapseSiblings itemId dom.panels else dom.panels
      if item.hidden then
        .ok { dom with
          panels := onFirst itemId expandPanel id panels1,
          timers := dom.timers ++ [AccordionTimer.clearStyles itemId] }
      else
        .ok { dom with
          panels := onFirst itemId startCollapse id panels1,
          timers := dom.timers ++ [AccordionTimer.hideAndClearStyles itemId] }

/-! ## Share modal -/

/-- A modal element appended to the body by `showShareModal`: `node` tells the
element apart from every other element, `id` is its id attribute and `fadeOut`
the class `animate-fade-out`. -/
structure ModalNode where
  node : Nat
  id : String
  fadeOut : Bool
  deriving DecidableEq, Repr

/-- The state the share modal works on: the modal elements attached to the
body, the `keydown` listeners registered on the document (the function
`handleEscape` of the call that created modal `node`, which closes over
`modalId`), the pending `setTimeout(..., 200)` callbacks (each removes the modal
element `node`) and the number of modal elements created so far.  The markup
inside the modal is left out. -/
structure SharePage where
  modals : List ModalNode
  keydownListeners : List (Nat × String)
  removals : List Nat
  created : Nat
  deriving DecidableEq, Repr

/-- The function `closeShareModal`. -/
def closeShareModal (modalId : String) (page : SharePage) : SharePage :=
  match page.modals.find? (fun m => m.id == modalId) with
  | none => page
  | some modal =>
    { page with
      modals := page.modals.map fun m => if m.node = modal.node then { m with fadeOut := true } else m,
      removals := page.removals ++ [modal.node] }

/-- The function `showShareModal`: the modal is appended to the body and its
`handleEscape` is registered for `keydown` on the document. -/
def showShareModal (page : SharePage) (w : World) : SharePage × World :=
  let (modalId, w1) := generateId w
  ({ page with
      modals := page.modals ++ [{ node := page.created, id := modalId, fadeOut := false }],
      keydownListeners := page.keydownListeners ++ [(page.created, modalId)],
      created := page.created + 1 }, w1)

/-- A click whose target is the modal element `node` itself (the backdrop): the
click listener of the modal calls `closeShareModal(modalId)`. -/
def backdropClick (node : Nat) (page : SharePage) : SharePage :=
  match page.modals.find? (fun m => m.node == node) with
  | none => page
  | some modal => closeShareModal modal.id page

/-- One call of `handleEscape`, the listener created together with modal
`node`: for the key `Escape` it closes the modal and unregisters itself. -/
def handleEscape (listener : Nat × String) (key : String) (page : SharePage) : SharePage :=
  if key = "Escape" then
    let page1 := closeShareModal listener.2 page
    { page1 with keydownListeners := page1.keydownListeners.filter fun l => l.1 != listener.1 }
  else page

/-- A `keydown` event on the document: every listener registered when the event
is dispatched is called, in the order of registration. -/
def keydown (key : String) (page : SharePage) : SharePage :=
  page.keydownListeners.foldl (fun p listener => handleEscape listener key p) page

/-- The callback of `setTimeout(..., 200)` in `closeShareModal`: the modal
element is removed from its parent if it still has one. -/
def removeModal (node : Nat) (page : SharePage) : SharePage :=
  { page with
    modals := page.modals.filter fun m => m.node != node,
    removals := page.removals.erase node }

/-! ## Toasts and file download -/

/-- An element attached to the document that `getElementById` can find, in
document order: `node` is the identity of the element (the object a closure
holds), `id` its id attribute, `className` the class attribute it was created
with, and `offscreen` tells whether the class `translate-x-full` is on its
class list. -/
structure PageNode where
  node : Nat
  id : String
  className : String
  innerHTML : String
  offscreen : Bool
  deriving DecidableEq, Repr

/-- The three callbacks the toast functions hand to `setTimeout`: the one that
slides the toast in (it holds the element), the one that calls
`closeToast(toastId)` (it holds the id), and the one that detaches the element
(it holds the element). -/
inductive ToastCallback where
  | slideIn (node : Nat)
  | autoClose (toastId : String)
  | removeNode (node : Nat)
  deriving DecidableEq, Repr

/-- A pending timer: the time in milliseconds at which it is due and what it
runs. -/
structure ToastTimer where
  due : Nat
  callback : ToastCallback
  deriving DecidableEq, Repr

/-- The page as the toast functions see it: the time in milliseconds, the
attached elements, the pending timers, and the number of elements created so
far (the identity of the next one). -/
structure ToastPage where
  clock : Nat
  elements : List PageNode
  timers : List ToastTimer
  created : Nat
  deriving DecidableEq, Repr

/-- The function `showToast(message, type = 'info')`: the toast element gets a
fresh id, is appended to the body, and two timers are registered, one after
100 ms that slides it in and one after 5000 ms that closes it by id. -/
def showToast (message : String) (type : Option String) (page : ToastPage) (w : World) :
    ToastPage × World :=
  let type := type.getD "info"
  let toast := page.created
  let (toastId, w1) := generateId w
  let typeClasses := [("success", "bg-green-500 text-white"), ("error", "bg-red-500 text-white"),
    ("warning", "bg-yellow-500 text-black"), ("info", "bg-orange-500 text-white")]
  let icons := [("success", "fas fa-check-circle"), ("error", "fas fa-times-circle"),
    ("warning", "fas fa-exclamation-triangle"), ("info", "fas fa-info-circle")]
  let className := "fixed top-4 right-4 " ++ propText typeClasses type ++ " px-6 py-3 rounded-lg shadow-lg z-50 flex items-center space-x-2 transform translate-x-full transition-transform duration-300"
  let innerHTML := "
        <i class=\"" ++ propText icons type ++ "\"></i>
        <span>" ++ message ++ "</span>
        <button onclick=\"closeToast('" ++ toastId ++ "')\" class=\"ml-2 opacity-70 hover:opacity-100\">
            <i class=\"fas fa-times\"></i>
        </button>
    "
  ({ clock := page.clock,
     elements := page.elements ++ [PageNode.mk toast toastId className innerHTML true],
     timers := page.timers ++ [ToastTimer.mk (page.clock + 100) (ToastCallback.slideIn toast),
       ToastTimer.mk (page.clock + 5000) (ToastCallback.autoClose toastId)],
     created := page.created + 1 }, w1)

/-- The function `closeToast(toastId)`: the first attached element with that id
(what `getElementById` returns) gets the class `translate-x-full` and a timer
that detaches it 300 ms later; nothing happens when there is no such element. -/
def closeToast (toastId : String) (page : ToastPage) : ToastPage :=
  match page.elements.find? (fun e => e.id = toastId) with
  | none => page
  | some toast =>
    { page with
      elements := page.elements.map
        (fun e => if e.node = toast.node then { e with offscreen := true } else e),
      timers := page.timers ++
        [ToastTimer.mk (page.clock + 300) (ToastCallback.removeNode toast.node)] }

/-- Running one timer callback. -/
def runCallback : ToastCallback → ToastPage → ToastPage
  | ToastCallback.slideIn toast, page =>
    { page with
      elements := page.elements.map
        (fun e => if e.node = toast then { e with offscreen := false } else e) }
  | ToastCallback.autoClose toastId, page => closeToast toastId page
  | ToastCallback.removeNode toast, page =>
    { page with elements := page.elements.filter (fun e => e.node ≠ toast) }

/-- The passage of one millisecond: the timers that are due are taken off the
queue and run in the order of their registration. -/
def tick (page : ToastPage) : ToastPage :=
  let now := page.clock + 1
  let due := page.timers.filter (fun t => t.due ≤ now)
  let page1 := { page with clock := now, timers := page.timers.filter (fun t => ¬ t.due ≤ now) }
  due.foldl (fun p t => runCallback t.callback p) page1

/-- The passage of `n` milliseconds. -/
def advance : Nat → ToastPage → ToastPage
  | 0, page => page
  | n + 1, page => advance n (tick page)

/-- The anchor element that `downloadCodeFile` creates and clicks. -/
structure DownloadLink where
  href : String
  download : String
  deriving DecidableEq, Repr

/-- The value of `downloadPath` that `downloadCodeFile` assigns to `link.href`:
a leading `./` is removed, then `/` is put in front unless the path starts with
`/` or with `http`. -/
def downloadCodeFile.downloadPath (filePath : String) : String :=
  let downloadPath := filePath
  let downloadPath :=
    if startsWith downloadPath "./" then String.mk (downloadPath.data.drop 2) else downloadPath
  let downloadPath :=
    if !startsWith downloadPath "/" && !startsWith downloadPath "http" then "/" ++ downloadPath
    else downloadPath
  downloadPath

/-- The function `downloadCodeFile(filePath, codeId)`: for a truthy path it
clicks a temporary link (returned here; it is detached again at once) and shows
the toast `Download started!`; otherwise it does nothing. -/
def downloadCodeFile (filePath : Option String) (codeId : String) (page : ToastPage)
    (w : World) : Option DownloadLink × ToastPage × World :=
  if truthy filePath then
    let link := DownloadLink.mk (downloadCodeFile.downloadPath (interp filePath))
      (getFileName filePath)
    let (page1, w1) := showToast "Download started!" (some "success")
      { page with created := page.created + 1 } w
    (some link, page1, w1)
  else (none, page, w)

/-! ## Bookmarks (`assets/js/main.js`) -/

/-- One hexadecimal digit, lower case. -/
def hexDigit (n : Nat) : Char :=
  if n < 10 then Char.ofNat (48 + n) else Char.ofNat (87 + n)

/-- The text `JSON.stringify` writes for one character of a string: the quote
and the backslash are escaped, the control characters below U+0020 get their
short escape or `\u00XX`, every other character stands for itself. -/
def jsonEscapeChar (c : Char) : List Char :=
  if c = '"' then ['\\', '"']
  else if c = '\\' then ['\\', '\\']
  else if c.toNat = 8 then ['\\', 'b']
  else if c.toNat = 9 then ['\\', 't']
  else if c.toNat = 10 then ['\\', 'n']
  else if c.toNat = 12 then ['\\', 'f']
  else if c.toNat = 13 then ['\\', 'r']
  else if c.toNat < 32 then ['\\', 'u', '0', '0', hexDigit (c.toNat / 16), hexDigit (c.toNat % 16)]
  else [c]

/-- The text `JSON.stringify` writes for a string. -/
def jsonString (s : String) : String :=
  "\"" ++ String.mk (s.data.flatMap jsonEscapeChar) ++ "\""

/-- The text `JSON.stringify` writes for an array of strings. -/
def jsonStringify (xs : List String) : String :=
  "[" ++ ",".intercalate (xs.map jsonString) ++ "]"

/-- The method `localStorage.setItem`: the entry of the key gets the value, a
new entry is added when the key has none. -/
def setItem (key value : String) : List (String × String) → List (String × String)
  | [] => [(key, value)]
  | (k, v) :: rest => if k = key then (key, value) :: rest else (k, v) :: setItem key value rest

/-- The method `localStorage.getItem`. -/
def getItem (key : String) (storage : List (String × String)) : Option String :=
  storage.lookup key

/-- The method `Array.prototype.indexOf` on an array of strings, with `none`
for the result -1. -/
def indexOf (x : String) : List String → Option Nat
  | [] => none
  | y :: ys => if y = x then some 0 else (indexOf x ys).map (fun i => i + 1)

/-- The state `toggleBookmark` reads and writes: the array
`AppState.userData.bookmarks`, the local storage, and the icon of the button
that received the click, as the presence of its class `text-yellow-500`
(`none` when there is no such button or icon). -/
structure BookmarkState where
  bookmarks : List String
  localStorage : List (String × String)
  icon : Option Bool
  deriving DecidableEq, Repr

/-- The function `toggleBookmark(moduleId)`: the first occurrence of the id
is spliced out of the array, or the id is pushed when it does not occur; the
array is then written to local storage and the icon of the clicked button is
updated, which throws when there is no such icon. -/
def toggleBookmark (moduleId : String) (st : BookmarkState) : Except JsError Unit × BookmarkState :=
  let index := indexOf moduleId st.bookmarks
  let bookmarks :=
    match index with
    | some i => st.bookmarks.eraseIdx i
    | none => st.bookmarks ++ [moduleId]
  let localStorage := setItem "bookmarks" (jsonStringify bookmarks) st.localStorage
  match st.icon with
  | none => (.error JsError.typeError, { st with bookmarks := bookmarks, localStorage := localStorage })
  | some _ =>
    (.ok (), { bookmarks := bookmarks, localStorage := localStorage, icon := some index.isNone })

/-! ## Reference definitions used by the statements -/

/-- The concatenation that section 4.2 describes: the results of
`renderComponent`, taken from left to right, are appended with nothing between
them; the empty list gives the empty string. -/
def concatRendered : List Component → World → Except JsError String × World
  | [], w => (.ok "", w)
  | component :: rest, w =>
    match renderComponent component w with
    | (.error e, w1) => (.error e, w1)
    | (.ok v, w1) =>
      match concatRendered rest w1 with
      | (.error e, w2) => (.error e, w2)
      | (.ok s, w2) => (.ok (v.joinText ++ s), w2)

/-- A world whose clock reads 1700000000000 and whose random suffix is
`k3x9q2m1z`. -/
def sampleWorld : World :=
  { now := fun _ => 1700000000000, randomSuffix := fun _ => "k3x9q2m1z",
    allocated := 0, timers := [], warnings := [] }

/-- A second world, with another clock, another random suffix and identifiers
already allocated. -/
def laterWorld : World :=
  { now := fun k => 1800000000000 + k, randomSuffix := fun _ => "zzzzzzzzz",
    allocated := 7, timers := [], warnings := ["earlier"] }

/-- A site that serves `const x=1;` at `/src/a.js` and answers every other path
with status 404. -/
def sampleFetch : String → FetchOutcome := fun path =>
  if path = "/src/a.js" then FetchOutcome.response 200 "OK" (.ok "const x=1;")
  else FetchOutcome.response 404 "Not Found" (.ok "")

/-- The markup of a component rendered in `sampleWorld`, or the empty string
when the rendering does not give a string. -/
def sampleMarkup (c : Component) : String :=
  match (renderComponent c sampleWorld).1 with
  | .ok (JsVal.str s) => s
  | _ => ""

/-- The method `String.prototype.includes` on character lists. -/
def includesChars (needle : List Char) : List Char → Bool
  | [] => needle.isEmpty
  | c :: cs => needle.isPrefixOf (c :: cs) || includesChars needle cs

/-- The toast element `k` is among the attached elements `es`, and an attached
element has the id `X` exactly when it is that element. -/
def ToastAttached (X : String) (k : Nat) (es : List PageNode) : Prop :=
  (∃ e ∈ es, e.node = k) ∧ ∀ e ∈ es, (e.id = X ↔ e.node = k)

/-- No attached element is the toast element `k` or has the id `X`. -/
def ToastDetached (X : String) (k : Nat) (es : List PageNode) : Prop :=
  ∀ e ∈ es, e.node ≠ k ∧ e.id ≠ X

/-- While the toast `k` with id `X`, created at time `c0`, is on the page: it
is attached, a pending timer closes the id `X` only at `c0 + 5000`, which is
still to come, and a pending timer detaches `k` only at `c0 + 5300`. -/
def ToastSafe (X : String) (k c0 : Nat) (p : ToastPage) : Prop :=
  ToastAttached X k p.elements ∧
  (∀ t ∈ p.timers, t.callback = ToastCallback.autoClose X →
    t.due = c0 + 5000 ∧ p.clock < c0 + 5000) ∧
  (∀ t ∈ p.timers, t.callback = ToastCallback.removeNode k → t.due = c0 + 5300)

/-- The state of a page between the creation of the toast and its removal:
`ToastSafe`, and before `c0 + 5000` the closing timer is pending, from then on
the detaching one. -/
def ToastLive (X : String) (k c0 : Nat) (p : ToastPage) : Prop :=
  ToastSafe X k c0 p ∧
  (p.clock < c0 + 5000 → ∃ t ∈ p.timers, t.callback = ToastCallback.autoClose X) ∧
  (c0 + 5000 ≤ p.clock → ∃ t ∈ p.timers, t.callback = ToastCallback.removeNode k)

/-- Two neighbouring characters are not both hyphens. -/
def NotBothHyphens (a b : Char) : Prop := ¬ (a = '-' ∧ b = '-')

/-! ## Dispatcher: order of concatenation -/

theorem foldl_join_empty (vs : List JsVal) (acc : String) :
    vs.foldl (fun a x => a ++ "" ++ x.joinText) acc = acc ++ arrayJoin "" vs := by
  induction vs generalizing acc with
  | nil => simp [arrayJoin]
  | cons v vs ih =>
    simp only [List.foldl_cons, arrayJoin]
    rw [ih, ih v.joinText]
    simp [String.append_assoc]

theorem arrayJoin_empty_cons (v : JsVal) (vs : List JsVal) :
    arrayJoin "" (v :: vs) = v.joinText ++ arrayJoin "" vs := by
  simp only [arrayJoin]
  exact foldl_join_empty vs v.joinText

theorem renderComponents_eq_concat_aux (components : List Component) (w : World) :
    renderComponents components w = concatRendered components w := by
  induction components generalizing w with
  | nil => rfl
  | cons c cs ih =>
    have h := ih
    simp only [renderComponents, mapRender, concatRendered] at h ⊢
    rcases hc : renderComponent c w with ⟨r, w1⟩
    cases r with
    | error e => rfl
    | ok v =>
      simp only
      have h1 := h w1
      rcases hm : mapRender cs w1 with ⟨rs, w2⟩
      rw [hm] at h1
      cases rs with
      | error e =>
        simp only at h1 ⊢
        rw [← h1]
      | ok vs =>
        simp only at h1 ⊢
        rw [← h1, arrayJoin_empty_cons]

theorem join_cons (s : String) (l : List String) : String.join (s :: l) = s ++ String.join l := by
  apply String.ext
  simp [String.data_join, String.data_append]

theorem concatRendered_of_pure (markup : Component → String) (components : List Component)
    (w : World)
    (h : ∀ c ∈ components, ∀ w1, renderComponent c w1 = (.ok (JsVal.str (markup c)), w1)) :
    concatRendered components w = (.ok (String.join (components.map markup)), w) := by
  induction components with
  | nil => rfl
  | cons c cs ih =>
    have hc := h c (List.mem_cons_self _ _) w
    have hcs := ih (fun d hd => h d (List.mem_cons_of_mem _ hd))
    simp only [concatRendered, hc, hcs, JsVal.joinText, JsVal.text, List.map_cons, join_cons]

/-- C1: `renderComponents` returns the concatenation, in input order and with no
separator, of the results of `renderComponent`; for the empty list it returns
the empty string; when every component of the list renders to a markup string
that does not depend on the world, the result is `String.join` of these strings
in the order of the list. -/
theorem renderComponents_eq_concatRendered (components : List Component) (w : World) :
    renderComponents components w = concatRendered components w ∧
    renderComponents [] w = (.ok "", w) ∧
    ∀ markup : Component → String,
      (∀ c ∈ components, ∀ w1, renderComponent c w1 = (.ok (JsVal.str (markup c)), w1)) →
      renderComponents components w = (.ok (String.join (components.map markup)), w) := by
  refine ⟨renderComponents_eq_concat_aux components w, rfl, fun markup h => ?_⟩
  rw [renderComponents_eq_concat_aux, concatRendered_of_pure markup components w h]

/-- C1 at a list of a video and an info component: the result is the markup of
the video followed by the markup of the info box. -/
theorem renderComponents_eq_concatRendered_witness :
    renderComponents
      [{ type := "video", data := { title := some "Intro", videoId := some "abc123" } },
       { type := "info", data := { title := some "Note", content := some "text" } }]
      laterWorld =
    (.ok (sampleMarkup
        { type := "video", data := { title := some "Intro", videoId := some "abc123" } } ++
      sampleMarkup { type := "info", data := { title := some "Note", content := some "text" } }),
      laterWorld) := by
  have h := (renderComponents_eq_concatRendered
      [{ type := "video", data := { title := some "Intro", videoId := some "abc123" } },
       { type := "info", data := { title := some "Note", content := some "text" } }]
      laterWorld).2.2 sampleMarkup (by
        intro c hc w1
        simp only [List.mem_cons, List.mem_singleton, List.not_mem_nil, or_false] at hc
        rcases hc with hc | hc <;> (subst hc; rfl))
  rw [h]
  simp [String.join]

/-! ## Text search -/

theorem includesChars_sound (needle hay : List Char) (h : includesChars needle hay = true) :
    needle <:+: hay := by
  induction hay with
  | nil =>
    simp only [includesChars, List.isEmpty_iff] at h
    subst h
    exact List.infix_refl []
  | cons c cs ih =>
    simp only [includesChars, Bool.or_eq_true] at h
    rw [List.infix_cons_iff]
    rcases h with h | h
    · exact Or.inl (List.isPrefixOf_iff_prefix.mp h)
    · exact Or.inr (ih h)

theorem includesChars_complete (needle hay : List Char) (h : needle <:+: hay) :
    includesChars needle hay = true := by
  induction hay with
  | nil =>
    have : needle = [] := List.eq_nil_of_infix_nil h
    subst this
    rfl
  | cons c cs ih =>
    simp only [includesChars, Bool.or_eq_true]
    rw [List.infix_cons_iff] at h
    rcases h with h | h
    · exact Or.inl (List.isPrefixOf_iff_prefix.mpr h)
    · exact Or.inr (ih h)

theorem not_infix_of_includesChars (needle hay : List Char)
    (h : includesChars needle hay = false) : ¬ needle <:+: hay := by
  intro hi
  rw [includesChars_complete needle hay hi] at h
  cases h

/-! ## Dispatcher: unknown types and failing components -/

theorem renderComponent_of_missing (component : Component) (w : World)
    (hown : ComponentRenderers.entries.lookup component.type = none)
    (hproto : component.type ∉ objectPrototypeKeys) :
    renderComponent component w =
      (.ok (JsVal.str (unknownTypeFragment component.type)),
        { w with warnings := w.warnings ++ ["Unknown component type: " ++ component.type] }) := by
  simp only [renderComponent, getProp, hown, hproto, if_false]

theorem unknownTypeFragment_includes (type : String) :
    type.data <:+: (unknownTypeFragment type).data ∧ unknownTypeFragment type ≠ "" := by
  constructor
  · exact ⟨_, _, rfl⟩
  · intro h
    have h1 := congrArg String.length h
    simp only [unknownTypeFragment, String.length_append] at h1
    have h2 : 0 < "</strong></p>
            </div>
        ".length := by decide
    have h3 : ("" : String).length = 0 := rfl
    omega

/-- C2, failing inputs: the type `toString` is not a tag of the registry, yet
`renderComponent` returns the text `[object Object]`, which does not contain the
type; the type `__proto__` is not a tag of the registry either and
`renderComponent` throws a `TypeError`. -/
theorem renderComponent_inherited_type (w : World) :
    (ComponentRenderers.entries.lookup "toString").isNone = true ∧
    renderComponent { type := "toString" } w = (.ok (JsVal.str "[object Object]"), w) ∧
    ¬ ("toString".data <:+: "[object Object]".data) ∧
    (ComponentRenderers.entries.lookup "__proto__").isNone = true ∧
    renderComponent { type := "__proto__" } w = (.error JsError.typeError, w) := by
  refine ⟨rfl, rfl, ?_, rfl, rfl⟩
  decide

/-- C3, failing input: a list whose second component is a table without
`headers` makes `renderComponents` throw, although the first and the third
component render on their own. -/
theorem renderComponents_throws_on_bad_table (w : World) :
    (renderComponents
      [{ type := "video", data := { title := some "Intro", videoId := some "abc123" } },
       { type := "table", data := { title := some "Scores", rows := some [["A", "90"]] } },
       { type := "info", data := { title := some "Note", content := some "text" } }] w).1
      = .error JsError.typeError ∧
    (∃ html, (renderComponents
      [{ type := "video", data := { title := some "Intro", videoId := some "abc123" } }] w).1
      = .ok html) ∧
    (∃ html, (renderComponents
      [{ type := "info", data := { title := some "Note", content := some "text" } }] w).1
      = .ok html) :=
  ⟨rfl, ⟨_, rfl⟩, ⟨_, rfl⟩⟩

/-- C4, failing inputs: the table renderer without `headers` or without `rows`,
the command renderer without `commands`, the card renderer without `cards` and
the accordion renderer without `items` throw a `TypeError`; only the code
renderer answers a missing `filePath` with an error fragment. -/
theorem renderers_throw_on_missing_field (w : World) :
    (ComponentRenderers.table { title := some "T", rows := some [] } w).1
      = .error JsError.typeError ∧
    (ComponentRenderers.table { title := some "T", headers := some ["Name"] } w).1
      = .error JsError.typeError ∧
    (ComponentRenderers.command { title := some "T" } w).1 = .error JsError.typeError ∧
    (ComponentRenderers.cardSection { title := some "T" } w).1 = .error JsError.typeError ∧
    (ComponentRenderers.accordionSection { title := some "T" } w).1
      = .error JsError.typeError ∧
    ∃ html, (ComponentRenderers.code { title := some "T" } w).1 = .ok html ∧
      "Error: filePath is required for code component".data <:+: html.data :=
  ⟨rfl, rfl, rfl, rfl, rfl, _, rfl, includesChars_sound _ _ (by rfl)⟩

set_option maxRecDepth 100000 in
/-- C5, failing inputs: the info renderer inserts the title `<b>x</b>` as markup
and the video renderer inserts the description `<i>d</i>` as markup; the text
that `escapeHtml` would give appears in neither output. -/
theorem renderers_insert_title_unescaped (w : World) :
    (∃ html, (ComponentRenderers.info { title := some "<b>x</b>", content := some "c" } w).1
        = .ok html ∧
      "<h3 class=\"font-semibold text-lg mb-2\"><b>x</b></h3>".data <:+: html.data ∧
      ¬ ((escapeHtml "<b>x</b>").data <:+: html.data)) ∧
    (∃ html, (ComponentRenderers.video
        { title := some "Intro", videoId := some "abc123", description := some "<i>d</i>" } w).1
        = .ok html ∧
      "<p class=\"text-gray-600 dark:text-gray-300 mb-4\"><i>d</i></p>".data <:+: html.data ∧
      ¬ ((escapeHtml "<i>d</i>").data <:+: html.data)) ∧
    escapeHtml "<b>x</b>" = "&lt;b&gt;x&lt;/b&gt;" := by
  exact ⟨⟨_, rfl, includesChars_sound _ _ (by rfl), not_infix_of_includesChars _ _ (by rfl)⟩,
    ⟨_, rfl, includesChars_sound _ _ (by rfl), not_infix_of_includesChars _ _ (by rfl)⟩, by rfl⟩

/-! ## Identifier allocator: shape of the cleaned name -/

theorem generateSectionId_of_nonempty (T P : String) (hT : T ≠ "") (w : World) :
    generateSectionId (some T) P w = ((if P = "" then "" else P ++ "-") ++ cleanName T, w) := by
  simp only [generateSectionId, hT, if_false]

theorem generateSectionId_empty_prefix_data (T : String) (hT : T ≠ "") (w : World) :
    (generateSectionId (some T) "" w).1.data =
      trimHyphens (collapseHyphens false (spacesToHyphen false
        (stripInvalid (toLowerCase T.data)))) := by
  rw [generateSectionId_of_nonempty T "" hT w]
  simp [cleanName, String.data_append]

theorem idChar_of_isKept (c : Char) (hk : isKept c = true) (hs : isJsSpace c = false) :
    ('a' ≤ c ∧ c ≤ 'z') ∨ ('0' ≤ c ∧ c ≤ '9') ∨ c = '-' := by
  simp only [isKept, hs, Bool.or_false, Bool.or_eq_true, isLowerAlnum, Bool.and_eq_true,
    decide_eq_true_eq, beq_iff_eq] at hk
  rcases hk with (⟨h1, h2⟩ | ⟨h1, h2⟩) | h
  · left
    exact ⟨by rw [Char.le_def, UInt32.le_def]; exact h1,
      by rw [Char.le_def, UInt32.le_def]; exact h2⟩
  · right; left
    exact ⟨by rw [Char.le_def, UInt32.le_def]; exact h1,
      by rw [Char.le_def, UInt32.le_def]; exact h2⟩
  · right; right; exact h

theorem mem_spacesToHyphen (l : List Char) (b : Bool) (c : Char)
    (h : c ∈ spacesToHyphen b l) : c = '-' ∨ (c ∈ l ∧ isJsSpace c = false) := by
  induction l generalizing b with
  | nil => simp [spacesToHyphen] at h
  | cons x xs ih =>
    rw [spacesToHyphen] at h
    have lift : (c = '-' ∨ (c ∈ xs ∧ isJsSpace c = false)) →
        c = '-' ∨ (c ∈ x :: xs ∧ isJsSpace c = false) := fun h0 =>
      h0.elim Or.inl (fun h1 => Or.inr ⟨List.mem_cons_of_mem _ h1.1, h1.2⟩)
    split at h
    · split at h
      · exact lift (ih true h)
      · rw [List.mem_cons] at h
        exact h.elim Or.inl (fun h1 => lift (ih true h1))
    · rename_i hx
      rw [List.mem_cons] at h
      rcases h with h | h
      · rw [h]
        exact Or.inr ⟨List.mem_cons_self _ _, by simpa using hx⟩
      · exact lift (ih false h)

theorem mem_collapseHyphens (l : List Char) (b : Bool) (c : Char)
    (h : c ∈ collapseHyphens b l) : c ∈ l := by
  induction l generalizing b with
  | nil => simp [collapseHyphens] at h
  | cons x xs ih =>
    rw [collapseHyphens] at h
    split at h
    · rename_i hx
      split at h
      · exact List.mem_cons_of_mem _ (ih true h)
      · rw [List.mem_cons] at h
        rcases h with h | h
        · rw [h, hx]; exact List.mem_cons_self _ _
        · exact List.mem_cons_of_mem _ (ih true h)
    · rw [List.mem_cons] at h
      rcases h with h | h
      · rw [h]; exact List.mem_cons_self _ _
      · exact List.mem_cons_of_mem _ (ih false h)

theorem dropLeadingHyphen_final (l : List Char) : dropLeadingHyphen l <:+ l := by
  cases l with
  | nil => exact List.suffix_refl _
  | cons x xs =>
    simp only [dropLeadingHyphen]
    split
    · exact List.suffix_cons _ _
    · exact List.suffix_refl _

theorem dropTrailingHyphen_initial (l : List Char) : dropTrailingHyphen l <+: l := by
  induction l using dropTrailingHyphen.induct with
  | case1 => exact List.prefix_refl _
  | case2 => exact List.nil_prefix
  | case3 c hc =>
    simp only [dropTrailingHyphen, hc, if_false]
    exact List.prefix_refl _
  | case4 c d cs ih =>
    simp only [dropTrailingHyphen]
    exact (List.prefix_cons_inj c).mpr ih

theorem mem_trimHyphens (l : List Char) (c : Char) (h : c ∈ trimHyphens l) : c ∈ l :=
  (dropLeadingHyphen_final l).subset ((dropTrailingHyphen_initial _).subset h)

/-- C7: for a non-empty title the identifier computed with an empty type prefix
is the title lower-cased, stripped of the characters outside `[a-z0-9]`,
whitespace and `-`, with every run of whitespace turned into a hyphen, hyphen
runs collapsed and one hyphen trimmed at each end; it consists only of the
characters `a`-`z`, `0`-`9` and `-`. -/
theorem generateSectionId_charset (T : String) (hT : T ≠ "") (w : World) :
    (generateSectionId (some T) "" w).1.data =
      trimHyphens (collapseHyphens false (spacesToHyphen false
        (stripInvalid (toLowerCase T.data)))) ∧
    ∀ c ∈ (generateSectionId (some T) "" w).1.data,
      ('a' ≤ c ∧ c ≤ 'z') ∨ ('0' ≤ c ∧ c ≤ '9') ∨ c = '-' := by
  refine ⟨generateSectionId_empty_prefix_data T hT w, ?_⟩
  intro c hc
  rw [generateSectionId_empty_prefix_data T hT w] at hc
  have h1 := mem_collapseHyphens _ _ _ (mem_trimHyphens _ _ hc)
  rcases mem_spacesToHyphen _ _ _ h1 with h2 | ⟨h2, h3⟩
  · exact Or.inr (Or.inr h2)
  · exact idChar_of_isKept c (List.of_mem_filter h2) h3

theorem collapseHyphens_chain (l : List Char) (b : Bool) :
    List.Chain' NotBothHyphens (collapseHyphens b l) ∧
    (b = true → (collapseHyphens b l).head? ≠ some '-') := by
  induction l generalizing b with
  | nil => simp [collapseHyphens]
  | cons x xs ih =>
    rw [collapseHyphens]
    split
    · split
      · exact ⟨(ih true).1, fun _ => (ih true).2 rfl⟩
      · rename_i hb
        refine ⟨?_, fun h => absurd h hb⟩
        rw [List.chain'_cons']
        refine ⟨?_, (ih true).1⟩
        intro y hy h
        rw [Option.mem_def] at hy
        exact (ih true).2 rfl (by rw [hy, h.2])
    · rename_i hx
      refine ⟨?_, fun _ h => hx (by simpa using h)⟩
      rw [List.chain'_cons']
      exact ⟨fun y _ h => hx h.1, (ih false).1⟩

theorem dropLeadingHyphen_head (l : List Char) (h : List.Chain' NotBothHyphens l) :
    (dropLeadingHyphen l).head? ≠ some '-' := by
  cases l with
  | nil => simp [dropLeadingHyphen]
  | cons x xs =>
    rw [dropLeadingHyphen]
    split
    · rename_i hx
      rw [List.chain'_cons'] at h
      intro h1
      exact h.1 '-' (by rw [Option.mem_def]; exact h1) ⟨hx, rfl⟩
    · rename_i hx
      intro h1
      exact hx (by simpa using h1)

theorem dropTrailingHyphen_eq_nil (l : List Char) (h : dropTrailingHyphen l = []) :
    l = [] ∨ l = ['-'] := by
  induction l using dropTrailingHyphen.induct with
  | case1 => exact Or.inl rfl
  | case2 => exact Or.inr rfl
  | case3 c hc => simp [dropTrailingHyphen, hc] at h
  | case4 c d cs _ => simp [dropTrailingHyphen] at h

theorem dropTrailingHyphen_head (l : List Char) (h : l.head? ≠ some '-') :
    (dropTrailingHyphen l).head? ≠ some '-' := by
  induction l using dropTrailingHyphen.induct with
  | case1 => simp [dropTrailingHyphen]
  | case2 => simp [dropTrailingHyphen]
  | case3 c hc => simp [dropTrailingHyphen, hc]
  | case4 c d cs _ => simpa [dropTrailingHyphen] using h

theorem dropTrailingHyphen_getLast (l : List Char) (h : List.Chain' NotBothHyphens l) :
    (dropTrailingHyphen l).getLast? ≠ some '-' := by
  induction l using dropTrailingHyphen.induct with
  | case1 => simp [dropTrailingHyphen]
  | case2 => simp [dropTrailingHyphen]
  | case3 c hc => simp [dropTrailingHyphen, hc]
  | case4 c d cs ih =>
    rw [List.chain'_cons'] at h
    rw [dropTrailingHyphen]
    cases hX : dropTrailingHyphen (d :: cs) with
    | nil =>
      rcases dropTrailingHyphen_eq_nil _ hX with h0 | h0
      · cases h0
      · have hd : d = '-' := by injection h0
        intro h1
        have hc : c = '-' := by simpa using h1
        exact h.1 d (by simp) ⟨hc, hd⟩
    | cons y ys =>
      rw [List.getLast?_cons_cons]
      rw [← hX]
      exact ih h.2

theorem cleaned_chain (l : List Char) :
    List.Chain' NotBothHyphens (trimHyphens (collapseHyphens false l)) ∧
    (trimHyphens (collapseHyphens false l)).head? ≠ some '-' ∧
    (trimHyphens (collapseHyphens false l)).getLast? ≠ some '-' := by
  have h1 := (collapseHyphens_chain l false).1
  have h2 : List.Chain' NotBothHyphens (dropLeadingHyphen (collapseHyphens false l)) :=
    h1.suffix (dropLeadingHyphen_final _)
  have h3 : List.Chain' NotBothHyphens (trimHyphens (collapseHyphens false l)) :=
    List.Chain'.infix h2 (dropTrailingHyphen_initial _).isInfix
  exact ⟨h3,
    dropTrailingHyphen_head _ (dropLeadingHyphen_head _ h1),
    dropTrailingHyphen_getLast _ h2⟩

/-- C8: for a non-empty title the identifier computed with an empty type prefix
contains no two consecutive hyphens and neither begins nor ends with a hyphen. -/
theorem generateSectionId_hyphens (T : String) (hT : T ≠ "") (w : World) :
    ¬ (['-', '-'] <:+: (generateSectionId (some T) "" w).1.data) ∧
    (generateSectionId (some T) "" w).1.data.head? ≠ some '-' ∧
    (generateSectionId (some T) "" w).1.data.getLast? ≠ some '-' := by
  rw [generateSectionId_empty_prefix_data T hT w]
  obtain ⟨h1, h2, h3⟩ := cleaned_chain (spacesToHyphen false (stripInvalid (toLowerCase T.data)))
  refine ⟨?_, h2, h3⟩
  intro hi
  have h4 := h1.infix hi
  rw [List.chain'_cons'] at h4
  exact h4.1 '-' (by simp) ⟨rfl, rfl⟩

/-- C8 at the title ` - A -- b - `: the identifier is `a-b`. -/
theorem generateSectionId_hyphens_witness :
    " - A -- b - " ≠ "" ∧
    (generateSectionId (some " - A -- b - ") "" sampleWorld).1 = "a-b" ∧
    ¬ (['-', '-'] <:+: (generateSectionId (some " - A -- b - ") "" sampleWorld).1.data) ∧
    (generateSectionId (some " - A -- b - ") "" sampleWorld).1.data.head? ≠ some '-' ∧
    (generateSectionId (some " - A -- b - ") "" sampleWorld).1.data.getLast? ≠ some '-' :=
  ⟨by decide, by rfl, generateSectionId_hyphens " - A -- b - " (by decide) sampleWorld⟩

/-- C7 at the title `Hello,  World!`: the identifier is `hello-world`. -/
theorem generateSectionId_charset_witness :
    "Hello,  World!" ≠ "" ∧
    (generateSectionId (some "Hello,  World!") "" sampleWorld).1 = "hello-world" ∧
    ∀ c ∈ (generateSectionId (some "Hello,  World!") "" sampleWorld).1.data,
      ('a' ≤ c ∧ c ≤ 'z') ∨ ('0' ≤ c ∧ c ≤ '9') ∨ c = '-' :=
  ⟨by decide, by rfl, (generateSectionId_charset "Hello,  World!" (by decide) sampleWorld).2⟩

/-! ## Identifier allocator: use of the clock and the random source -/

/-- C6: for a non-empty title the identifier does not depend on the world (clock,
random source, earlier allocations) and the call leaves the world unchanged, so
two calls with the same title and type prefix return the same identifier. -/
theorem generateSectionId_deterministic (T P : String) (hT : T ≠ "") (w w1 : World) :
    (generateSectionId (some T) P w).1 = (generateSectionId (some T) P w1).1 ∧
    (generateSectionId (some T) P w).2 = w := by
  rw [generateSectionId_of_nonempty T P hT w, generateSectionId_of_nonempty T P hT w1]
  exact ⟨rfl, rfl⟩

/-- C6 at the title `Home` and the prefix `material`, in two different worlds. -/
theorem generateSectionId_deterministic_witness :
    "Home" ≠ "" ∧
    (generateSectionId (some "Home") "material" sampleWorld).1 =
      (generateSectionId (some "Home") "material" laterWorld).1 ∧
    (generateSectionId (some "Home") "material" sampleWorld).2 = sampleWorld :=
  ⟨by decide, generateSectionId_deterministic "Home" "material" (by decide) sampleWorld laterWorld⟩

theorem generateSectionId_fixed (T P : String) (hT : T ≠ "") (w w1 : World) :
    (generateSectionId (some T) P w).1 = (generateSectionId (some T) P w1).1 ∧
    (generateSectionId (some T) P w).2 = w := by
  rw [generateSectionId_of_nonempty T P hT w, generateSectionId_of_nonempty T P hT w1]
  exact ⟨rfl, rfl⟩

/-- C9: `generateSectionId` draws from the clock and the random source exactly
when the title is absent or empty; it then returns what `generateId` returns,
`id-<timestamp>-<random suffix>`, whatever the type prefix; for any other title
the world is unchanged and the identifier is the same in every world. -/
theorem generateSectionId_entropy (title : Option String) (P : String) (w : World) :
    ((generateSectionId title P w).2.allocated = w.allocated + 1 ↔
      (title = none ∨ title = some "")) ∧
    ((title = none ∨ title = some "") →
      generateSectionId title P w = generateId w ∧
      (generateSectionId title P w).1 =
        "id-" ++ toString (w.now w.allocated) ++ "-" ++ w.randomSuffix w.allocated) ∧
    (¬ (title = none ∨ title = some "") →
      (generateSectionId title P w).2 = w ∧
      ∀ w1, (generateSectionId title P w1).1 = (generateSectionId title P w).1) := by
  cases title with
  | none => simp [generateSectionId, generateId]
  | some s =>
    by_cases hs : s = ""
    · subst hs
      simp [generateSectionId, generateId]
    · have hne : ¬ ((some s : Option String) = none ∨ some s = some "") := by simp [hs]
      refine ⟨?_, fun h => absurd h hne, fun _ => ?_⟩
      · rw [generateSectionId_of_nonempty s P hs w]
        simp [hs]
      · exact ⟨(generateSectionId_fixed s P hs w w).2,
          fun w1 => (generateSectionId_fixed s P hs w1 w).1⟩

/-- C9 without a title and with the empty title, in `sampleWorld`: the identifier
is `id-1700000000000-k3x9q2m1z` and one allocation is counted. -/
theorem generateSectionId_entropy_witness :
    (generateSectionId none "info" sampleWorld).1 = "id-1700000000000-k3x9q2m1z" ∧
    (generateSectionId (some "") "table" sampleWorld).1 = "id-1700000000000-k3x9q2m1z" ∧
    (generateSectionId none "info" sampleWorld).2.allocated = sampleWorld.allocated + 1 := by
  have h1 := ((generateSectionId_entropy none "info" sampleWorld).2.1 (Or.inl rfl)).2
  have h2 := ((generateSectionId_entropy (some "") "table" sampleWorld).2.1 (Or.inr rfl)).2
  have h3 := (generateSectionId_entropy none "info" sampleWorld).1.mpr (Or.inl rfl)
  exact ⟨h1.trans (by rfl), h2.trans (by rfl), h3⟩

/-! ## Dispatcher: the optional wrapper -/

/-- C10: for a type that the registry defines a renderer for, `renderComponent`
returns the renderer's markup inside
`<div id="ID" class="component-container" data-component-type="TYPE">` and
`</div>` when the component has a non-empty id, and the renderer's markup
unchanged when the id is absent or empty. -/
theorem renderComponent_wrapper (type : String) (renderer : Renderer) (data : Data)
    (id : Option String) (w w1 : World) (html : String)
    (hreg : ComponentRenderers.entries.lookup type = some renderer)
    (hrender : renderer data w = (.ok html, w1)) :
    (∀ ID, id = some ID → ID ≠ "" →
      renderComponent (Component.mk type data id) w =
        (.ok (JsVal.str ("<div id=\"" ++ ID ++
          "\" class=\"component-container\" data-component-type=\"" ++ type ++ "\">" ++
          html ++ "</div>")), w1)) ∧
    ((id = none ∨ id = some "") →
      renderComponent (Component.mk type data id) w =
        (.ok (JsVal.str html), w1)) := by
  constructor
  · intro ID hid hne
    subst hid
    simp [renderComponent, getProp, hreg, hrender, truthy, hne, wrapWithId, interp]
  · intro hid
    rcases hid with hid | hid <;> subst hid <;>
      simp [renderComponent, getProp, hreg, hrender, truthy]

/-- C10 at a video component with the id `sec-1` and at the same component
without an id. -/
theorem renderComponent_wrapper_witness :
    ∃ html,
      ComponentRenderers.video { title := some "Intro", videoId := some "abc123" } sampleWorld
        = (.ok html, sampleWorld) ∧
      renderComponent
          { type := "video", data := { title := some "Intro", videoId := some "abc123" },
            id := some "sec-1" }
          sampleWorld =
        (.ok (JsVal.str ("<div id=\"sec-1\" class=\"component-container\" " ++
          "data-component-type=\"video\">" ++ html ++ "</div>")), sampleWorld) ∧
      renderComponent
          { type := "video", data := { title := some "Intro", videoId := some "abc123" },
            id := none }
          sampleWorld = (.ok (JsVal.str html), sampleWorld) := by
  refine ⟨_, rfl, ?_, ?_⟩
  · have h := (renderComponent_wrapper "video" ComponentRenderers.video
      { title := some "Intro", videoId := some "abc123" } (some "sec-1") sampleWorld sampleWorld _
      rfl rfl).1 "sec-1" rfl (by decide)
    rw [h]
    rfl
  · exact (renderComponent_wrapper "video" ComponentRenderers.video
      { title := some "Intro", videoId := some "abc123" } none sampleWorld sampleWorld _
      rfl rfl).2 (Or.inl rfl)

/-! ## Markup search in concatenated strings -/

theorem infix_append_left (m s t : String) (h : m.data <:+: s.data) :
    m.data <:+: (s ++ t).data := by
  rw [String.data_append]
  obtain ⟨a, b, hab⟩ := h
  exact ⟨a, b ++ t.data, by rw [← hab]; simp [List.append_assoc]⟩

theorem infix_append_right (m s t : String) (h : m.data <:+: t.data) :
    m.data <:+: (s ++ t).data := by
  rw [String.data_append]
  obtain ⟨a, b, hab⟩ := h
  exact ⟨s.data ++ a, b, by rw [← hab]; simp [List.append_assoc]⟩

theorem suffix_append_right (m s t : String) (h : m.data <:+ t.data) :
    m.data <:+ (s ++ t).data := by
  rw [String.data_append]
  obtain ⟨a, hab⟩ := h
  exact ⟨s.data ++ a, by rw [← hab]; simp [List.append_assoc]⟩

theorem suffix_append_both (m s x : String) (h : m.data <:+ s.data) :
    (m ++ x).data <:+ (s ++ x).data := by
  rw [String.data_append, String.data_append]
  obtain ⟨a, hab⟩ := h
  exact ⟨a, by rw [← hab]; simp [List.append_assoc]⟩

theorem infix_of_suffix_of_start (m b s t : String) (hs : m.data <:+ s.data)
    (ht : b.data <+: t.data) : (m ++ b).data <:+: (s ++ t).data := by
  rw [String.data_append, String.data_append]
  obtain ⟨p, hp⟩ := hs
  obtain ⟨q, hq⟩ := ht
  exact ⟨p, q, by rw [← hp, ← hq]; simp [List.append_assoc]⟩

theorem start_append_left (b s t : String) (h : b.data <+: s.data) :
    b.data <+: (s ++ t).data := by
  rw [String.data_append]
  exact h.trans (List.prefix_append _ _)

/-! ## Card grid -/

set_option maxRecDepth 100000 in
/-- C11, as amended: the card renderer emits the class `md:grid-cols-N` with
`N = min(columns, 3)`, where an absent `columns` counts as 2; so `N` is at most
3 for every integer, at least 1 whenever the requested value is at least 1, and
2 when `columns` is absent. -/
theorem cardSection_grid_columns (data : Data) (cards : List Card) (w : World) :
    ∃ html, (ComponentRenderers.cardSection { data with cards := some cards } w).1 = .ok html ∧
      ("<div class=\"grid grid-cols-1 md:grid-cols-" ++
        toString (min (data.columns.getD 2) 3) ++ " gap-6\">").data <:+: html.data ∧
      min (data.columns.getD 2) 3 ≤ 3 ∧
      (1 ≤ data.columns.getD 2 → 1 ≤ min (data.columns.getD 2) 3) ∧
      (data.columns = none → min (data.columns.getD 2) 3 = 2) := by
  refine ⟨_, rfl, ?_, min_le_right _ _, fun h => le_min h (by decide), fun h => by rw [h]; rfl⟩
  apply infix_append_left
  apply infix_append_left
  show (("<div class=\"grid " ++
      ("grid-cols-1 md:grid-cols-" ++ toString (min (data.columns.getD 2) 3))) ++
      " gap-6\">").data <:+: _
  apply infix_of_suffix_of_start
  · apply suffix_append_both
    apply suffix_append_right
    decide
  · decide

set_option maxRecDepth 100000 in
/-- C11, counterexample: for `columns = 0` the card renderer emits the class
`md:grid-cols-0`, and none of `md:grid-cols-1`, `md:grid-cols-2`,
`md:grid-cols-3`: the emitted count is 0, below 1. -/
theorem cardSection_zero_columns :
    ∃ html, (ComponentRenderers.cardSection
        { title := some "Cards", cards := some [{ title := some "A" }], columns := some 0 }
        sampleWorld).1 = .ok html ∧
      "<div class=\"grid grid-cols-1 md:grid-cols-0 gap-6\">".data <:+: html.data ∧
      ¬ ("md:grid-cols-1".data <:+: html.data) ∧
      ¬ ("md:grid-cols-2".data <:+: html.data) ∧
      ¬ ("md:grid-cols-3".data <:+: html.data) ∧
      ¬ (1 ≤ min ((some (0 : Int)).getD 2) 3) :=
  ⟨_, rfl, includesChars_sound _ _ (by rfl), not_infix_of_includesChars _ _ (by rfl),
    not_infix_of_includesChars _ _ (by rfl), not_infix_of_includesChars _ _ (by rfl),
    by decide⟩

/-- C11, as amended, at `columns = 5`, `columns = 1` and without `columns`. -/
theorem cardSection_grid_columns_witness :
    (∃ html, (ComponentRenderers.cardSection
        { title := some "Cards", columns := some 5, cards := some [] } sampleWorld).1 = .ok html ∧
      "<div class=\"grid grid-cols-1 md:grid-cols-3 gap-6\">".data <:+: html.data) ∧
    (1 : Int) ≤ min ((some (1 : Int)).getD 2) 3 ∧
    min ((none : Option Int).getD 2) 3 = 2 := by
  obtain ⟨html, h1, h2, _, _, _⟩ := cardSection_grid_columns
    { title := some "Cards", columns := some 5 } [] sampleWorld
  obtain ⟨_, _, _, _, h3, _⟩ := cardSection_grid_columns { columns := some 1 } [] sampleWorld
  obtain ⟨_, _, _, _, _, h4⟩ := cardSection_grid_columns { } [] sampleWorld
  exact ⟨⟨html, h1, h2⟩, h3 (by decide), h4 rfl⟩

/-! ## Header palette -/

set_option maxRecDepth 100000 in
/-- C12, failing input: for the theme `purple` the header renderer emits the
class list `undefined text-white ...` and none of the background classes of the
theme `orange`, which it emits when the theme is `orange` or absent. -/
theorem moduleHeader_unknown_theme (w : World) :
    (∃ html, (ComponentRenderers.moduleHeader
        { title := some "T", moduleName := some "M", description := some "D",
          theme := some "purple" } w).1 = .ok html ∧
      "class=\"undefined text-white py-16 px-6 rounded-xl mb-8 shadow-lg\"".data <:+: html.data ∧
      ¬ ("bg-gradient-to-br from-orange-500 to-red-600".data <:+: html.data)) ∧
    (∃ html, (ComponentRenderers.moduleHeader
        { title := some "T", moduleName := some "M", description := some "D",
          theme := some "orange" } w).1 = .ok html ∧
      "class=\"bg-gradient-to-br from-orange-500 to-red-600 text-white py-16".data
        <:+: html.data) ∧
    (∃ html, (ComponentRenderers.moduleHeader
        { title := some "T", moduleName := some "M", description := some "D" } w).1 = .ok html ∧
      "class=\"bg-gradient-to-br from-orange-500 to-red-600 text-white py-16".data
        <:+: html.data) :=
  ⟨⟨_, rfl, includesChars_sound _ _ (by rfl), not_infix_of_includesChars _ _ (by rfl)⟩,
    ⟨_, rfl, includesChars_sound _ _ (by rfl)⟩, ⟨_, rfl, includesChars_sound _ _ (by rfl)⟩⟩

/-! ## Code block without a file path -/

/-- C15: without a `filePath`, or with the empty one, the code renderer returns
the error fragment and leaves the world as it was: no identifier is allocated
and no timer is registered. -/
theorem code_without_filePath (data : Data) (w : World)
    (h : data.filePath = none ∨ data.filePath = some "") :
    ComponentRenderers.code data w =
      (.ok "
                <div class=\"p-4 bg-red-50 border border-red-200 rounded-lg mb-6\">
                    <p class=\"text-red-600\">Error: filePath is required for code component</p>
                </div>
            ", w) ∧
    (ComponentRenderers.code data w).2.timers = w.timers ∧
    (ComponentRenderers.code data w).2.allocated = w.allocated := by
  have h1 : ComponentRenderers.code data w =
      (.ok "
                <div class=\"p-4 bg-red-50 border border-red-200 rounded-lg mb-6\">
                    <p class=\"text-red-600\">Error: filePath is required for code component</p>
                </div>
            ", w) := by
    rcases h with h | h <;> simp [ComponentRenderers.code, h, truthy]
  rw [h1]
  exact ⟨rfl, rfl, rfl⟩

/-- C15 at a record without `filePath` and at one whose `filePath` is empty. -/
theorem code_without_filePath_witness :
    (ComponentRenderers.code { title := some "Example" } laterWorld).2 = laterWorld ∧
    (ComponentRenderers.code { title := some "Example", filePath := some "" } laterWorld).2.timers
      = [] ∧
    ∃ html, (ComponentRenderers.code { title := some "Example" } laterWorld).1 = .ok html ∧
      "Error: filePath is required for code component".data <:+: html.data := by
  have h1 := (code_without_filePath { title := some "Example" } laterWorld (Or.inl rfl)).1
  have h2 := (code_without_filePath { title := some "Example", filePath := some "" } laterWorld
    (Or.inr rfl)).2.1
  refine ⟨by rw [h1], h2, _, by rw [h1], includesChars_sound _ _ (by rfl)⟩

/-! ## Path normalisation of the code loader -/

theorem normalizedPath_of_not_http (p : String)
    (h : startsWith (if startsWith p "./" then String.mk (p.data.drop 2) else p) "http" = false) :
    startsWith (readCodeFile.normalizedPath p) "/" = true := by
  simp only [readCodeFile.normalizedPath, h]
  by_cases h1 : startsWith (if startsWith p "./" then String.mk (p.data.drop 2) else p) "/" = true
  · simp [h1]
  · simp only [h1]
    simp [startsWith, String.data_append]

/-- C16, failing input: the relative path `httpdocs/a.js` is passed to `fetch`
unchanged, without a leading `/`, and so is `./httpdocs/a.js` after the removal
of `./`; other relative paths are rooted. -/
theorem normalizedPath_http_named_directory :
    readCodeFile.normalizedPath "httpdocs/a.js" = "httpdocs/a.js" ∧
    startsWith (readCodeFile.normalizedPath "httpdocs/a.js") "/" = false ∧
    readCodeFile.normalizedPath "./httpdocs/a.js" = "httpdocs/a.js" ∧
    readCodeFile.normalizedPath "src/a.js" = "/src/a.js" ∧
    readCodeFile.normalizedPath "./src/a.js" = "/src/a.js" ∧
    readCodeFile.normalizedPath "../a.js" = "/../a.js" := by
  decide

/-! ## Registry tags -/

theorem unknownTypeFragment_start (t : String) :
    "\n            <div c".data <+: (unknownTypeFragment t).data := by
  unfold unknownTypeFragment
  repeat apply start_append_left
  decide

theorem ne_unknownTypeFragment (html p : String) (t : String) (hp : p.data <+: html.data)
    (hlen : p.data.length = 19) (hne : p.data ≠ "\n            <div c".data) :
    html ≠ unknownTypeFragment t := by
  intro h
  rw [h] at hp
  have h1 := List.prefix_of_prefix_length_le hp (unknownTypeFragment_start t) (by rw [hlen]; decide)
  exact hne (h1.eq_of_length (by rw [hlen]; decide))

theorem wrapWithId_ne_unknownTypeFragment (id type html t : String) :
    wrapWithId id type html ≠ unknownTypeFragment t := by
  intro h
  have h1 : "<".data <+: (wrapWithId id type html).data := by
    unfold wrapWithId
    repeat apply start_append_left
    decide
  have h2 : "\n".data <+: (unknownTypeFragment t).data :=
    List.IsPrefix.trans (by decide) (unknownTypeFragment_start t)
  rw [h] at h1
  have h3 := List.prefix_of_prefix_length_le h1 h2 (by decide)
  exact absurd (h3.eq_of_length (by decide)) (by decide)

theorem ne_unknownTypeFragment_of_start (html t : String)
    (h : "\n            <secti".data <+: html.data ∨ "\n            <div i".data <+: html.data ∨
      "\n                <d".data <+: html.data) :
    html ≠ unknownTypeFragment t := by
  rcases h with h | h | h
  · exact ne_unknownTypeFragment html _ t h (by decide) (by decide)
  · exact ne_unknownTypeFragment html _ t h (by decide) (by decide)
  · exact ne_unknownTypeFragment html _ t h (by decide) (by decide)

theorem moduleHeader_start (data : Data) (w : World) (html : String) (w1 : World)
    (h : ComponentRenderers.moduleHeader data w = (.ok html, w1)) :
    "\n            <secti".data <+: html.data := by
  obtain ⟨good, w2, h1, h2⟩ : ∃ good w2, ComponentRenderers.moduleHeader data w = (.ok good, w2) ∧
      "\n            <secti".data <+: good.data := by
    refine ⟨_, _, rfl, ?_⟩
    repeat apply start_append_left
    decide
  rw [h1] at h
  injection h with h4 h5
  injection h4 with h6
  rw [← h6]
  exact h2

theorem info_start (data : Data) (w : World) (html : String) (w1 : World)
    (h : ComponentRenderers.info data w = (.ok html, w1)) :
    "\n            <div i".data <+: html.data := by
  obtain ⟨good, w2, h1, h2⟩ : ∃ good w2, ComponentRenderers.info data w = (.ok good, w2) ∧
      "\n            <div i".data <+: good.data := by
    refine ⟨_, _, rfl, ?_⟩
    repeat apply start_append_left
    decide
  rw [h1] at h
  injection h with h4 h5
  injection h4 with h6
  rw [← h6]
  exact h2

theorem material_start (data : Data) (w : World) (html : String) (w1 : World)
    (h : ComponentRenderers.material data w = (.ok html, w1)) :
    "\n            <secti".data <+: html.data := by
  obtain ⟨good, w2, h1, h2⟩ : ∃ good w2, ComponentRenderers.material data w = (.ok good, w2) ∧
      "\n            <secti".data <+: good.data := by
    refine ⟨_, _, rfl, ?_⟩
    repeat apply start_append_left
    decide
  rw [h1] at h
  injection h with h4 h5
  injection h4 with h6
  rw [← h6]
  exact h2

theorem video_start (data : Data) (w : World) (html : String) (w1 : World)
    (h : ComponentRenderers.video data w = (.ok html, w1)) :
    "\n            <secti".data <+: html.data := by
  obtain ⟨good, w2, h1, h2⟩ : ∃ good w2, ComponentRenderers.video data w = (.ok good, w2) ∧
      "\n            <secti".data <+: good.data := by
    refine ⟨_, _, rfl, ?_⟩
    repeat apply start_append_left
    decide
  rw [h1] at h
  injection h with h4 h5
  injection h4 with h6
  rw [← h6]
  exact h2

theorem code_start (data : Data) (w : World) (html : String) (w1 : World)
    (h : ComponentRenderers.code data w = (.ok html, w1)) :
    "\n                <d".data <+: html.data ∨ "\n            <div i".data <+: html.data := by
  obtain ⟨bad, good, w2, h1, h2, h3⟩ : ∃ bad good w2,
      ComponentRenderers.code data w =
        (if (!truthy data.filePath) = true then (.ok bad, w) else (.ok good, w2)) ∧
      "\n                <d".data <+: bad.data ∧ "\n            <div i".data <+: good.data := by
    refine ⟨_, _, _, rfl, ?_, ?_⟩
    · decide
    · repeat apply start_append_left
      decide
  rw [h1] at h
  split at h
  · injection h with h4 h5
    injection h4 with h6
    rw [← h6]
    exact Or.inl h2
  · injection h with h4 h5
    injection h4 with h6
    rw [← h6]
    exact Or.inr h3

theorem command_start (data : Data) (w : World) (html : String) (w1 : World)
    (h : ComponentRenderers.command data w = (.ok html, w1)) :
    "\n            <secti".data <+: html.data := by
  cases hc : data.commands with
  | none =>
    have hd : data = { data with commands := none } := by cases data; simp_all
    rw [hd] at h
    have h2 : ComponentRenderers.command { data with commands := none } w =
      (.error JsError.typeError, (generateSectionId data.title "command" w).2) := rfl
    rw [h2] at h
    cases h
  | some commands =>
    have hd : data = { data with commands := some commands } := by cases data; simp_all
    rw [hd] at h
    obtain ⟨html2, w2, h2, h3⟩ : ∃ html2 w2,
        ComponentRenderers.command { data with commands := some commands } w = (.ok html2, w2) ∧
        "\n            <secti".data <+: html2.data := by
      refine ⟨_, _, rfl, ?_⟩
      repeat apply start_append_left
      decide
    rw [h2] at h
    injection h with h4 h5
    injection h4 with h6
    rw [← h6]
    exact h3

theorem cardSection_start (data : Data) (w : World) (html : String) (w1 : World)
    (h : ComponentRenderers.cardSection data w = (.ok html, w1)) :
    "\n            <secti".data <+: html.data := by
  cases hc : data.cards with
  | none =>
    have hd : data = { data with cards := none } := by cases data; simp_all
    rw [hd] at h
    have h2 : ComponentRenderers.cardSection { data with cards := none } w =
      (.error JsError.typeError, (generateSectionId data.title "cards" w).2) := rfl
    rw [h2] at h
    cases h
  | some cards =>
    have hd : data = { data with cards := some cards } := by cases data; simp_all
    rw [hd] at h
    obtain ⟨html2, w2, h2, h3⟩ : ∃ html2 w2,
        ComponentRenderers.cardSection { data with cards := some cards } w = (.ok html2, w2) ∧
        "\n            <secti".data <+: html2.data := by
      refine ⟨_, _, rfl, ?_⟩
      repeat apply start_append_left
      decide
    rw [h2] at h
    injection h with h4 h5
    injection h4 with h6
    rw [← h6]
    exact h3

theorem accordionSection_start (data : Data) (w : World) (html : String) (w1 : World)
    (h : ComponentRenderers.accordionSection data w = (.ok html, w1)) :
    "\n            <secti".data <+: html.data := by
  cases hc : data.items with
  | none =>
    have hd : data = { data with items := none } := by cases data; simp_all
    rw [hd] at h
    have h2 : ComponentRenderers.accordionSection { data with items := none } w =
      (.error JsError.typeError, (generateSectionId data.title "accordion" w).2) := rfl
    rw [h2] at h
    cases h
  | some items =>
    have hd : data = { data with items := some items } := by cases data; simp_all
    rw [hd] at h
    obtain ⟨html2, w2, h2, h3⟩ : ∃ html2 w2,
        ComponentRenderers.accordionSection { data with items := some items } w
          = (.ok html2, w2) ∧
        "\n            <secti".data <+: html2.data := by
      refine ⟨_, _, rfl, ?_⟩
      repeat apply start_append_left
      decide
    rw [h2] at h
    injection h with h4 h5
    injection h4 with h6
    rw [← h6]
    exact h3

theorem table_start (data : Data) (w : World) (html : String) (w1 : World)
    (h : ComponentRenderers.table data w = (.ok html, w1)) :
    "\n            <secti".data <+: html.data := by
  cases hh : data.headers with
  | none =>
    have hd : data = { data with headers := none } := by cases data; simp_all
    rw [hd] at h
    have h2 : ComponentRenderers.table { data with headers := none } w =
      (.error JsError.typeError, (generateSectionId data.title "table" w).2) := rfl
    rw [h2] at h
    cases h
  | some headers =>
    cases hr : data.rows with
    | none =>
      have hd : data = { data with headers := some headers, rows := none } := by
        cases data; simp_all
      rw [hd] at h
      have h2 : ComponentRenderers.table { data with headers := some headers, rows := none } w =
        (.error JsError.typeError, (generateSectionId data.title "table" w).2) := rfl
      rw [h2] at h
      cases h
    | some rows =>
      have hd : data = { data with headers := some headers, rows := some rows } := by
        cases data; simp_all
      rw [hd] at h
      obtain ⟨html2, w2, h2, h3⟩ : ∃ html2 w2,
          ComponentRenderers.table { data with headers := some headers, rows := some rows } w
            = (.ok html2, w2) ∧
          "\n            <secti".data <+: html2.data := by
        refine ⟨_, _, rfl, ?_⟩
        repeat apply start_append_left
        decide
      rw [h2] at h
      injection h with h4 h5
      injection h4 with h6
      rw [← h6]
      exact h3

theorem renderComponent_of_own (type : String) (renderer : Renderer)
    (hreg : ComponentRenderers.entries.lookup type = some renderer) (data : Data)
    (id : Option String) (w : World) :
    renderComponent (Component.mk type data id) w =
      (match renderer data w with
      | (.error e, w1) => (.error e, w1)
      | (.ok renderedHTML, w1) =>
        if truthy id then (.ok (JsVal.str (wrapWithId (interp id) type renderedHTML)), w1)
        else (.ok (JsVal.str renderedHTML), w1)) := by
  simp only [renderComponent, getProp, hreg]

theorem renderComponent_ne_unknown (type : String) (renderer : Renderer)
    (hreg : ComponentRenderers.entries.lookup type = some renderer)
    (hstart : ∀ data w html w1, renderer data w = (.ok html, w1) →
      "\n            <secti".data <+: html.data ∨ "\n            <div i".data <+: html.data ∨
        "\n                <d".data <+: html.data)
    (data : Data) (id : Option String) (w : World) (t : String) :
    (renderComponent (Component.mk type data id) w).1 ≠
      .ok (JsVal.str (unknownTypeFragment t)) := by
  rw [renderComponent_of_own type renderer hreg]
  rcases hr : renderer data w with ⟨r, w1⟩
  cases r with
  | error e =>
    intro h
    cases h
  | ok html =>
    by_cases hid : truthy id = true
    · simp only [hid, if_true]
      intro h
      injection h with h1
      injection h1 with h2
      exact wrapWithId_ne_unknownTypeFragment _ _ _ _ h2
    · simp only [hid]
      intro h
      injection h with h1
      injection h1 with h2
      exact ne_unknownTypeFragment_of_start html t (hstart data w html w1 hr) h2

theorem tag_dispatch (type : String) (renderer : Renderer)
    (hreg : ComponentRenderers.entries.lookup type = some renderer)
    (hstart : ∀ data w html w1, renderer data w = (.ok html, w1) →
      "\n            <secti".data <+: html.data ∨ "\n            <div i".data <+: html.data ∨
        "\n                <d".data <+: html.data) :
    ∃ renderer, ComponentRenderers.entries.lookup type = some renderer ∧
      ∀ data id w,
        renderComponent (Component.mk type data id) w =
          (match renderer data w with
          | (.error e, w1) => (.error e, w1)
          | (.ok renderedHTML, w1) =>
            if truthy id then (.ok (JsVal.str (wrapWithId (interp id) type renderedHTML)), w1)
            else (.ok (JsVal.str renderedHTML), w1)) ∧
        ∀ t, (renderComponent (Component.mk type data id) w).1 ≠
          .ok (JsVal.str (unknownTypeFragment t)) :=
  ⟨renderer, hreg, fun data id w =>
    ⟨renderComponent_of_own type renderer hreg data id w,
      renderComponent_ne_unknown type renderer hreg hstart data id w⟩⟩

/-- C13, counterexample: the registry has no renderer under the tag `header`;
a component of that type gets the `Unknown component type` fragment and a
console warning. -/
theorem renderComponent_header_unknown :
    (ComponentRenderers.entries.lookup "header").isNone = true ∧
    renderComponent
        { type := "header",
          data := { title := some "T", moduleName := some "M", description := some "D" } }
        sampleWorld =
      (.ok (JsVal.str (unknownTypeFragment "header")),
        { sampleWorld with warnings := ["Unknown component type: header"] }) :=
  ⟨rfl, rfl⟩

/-- C13, as amended: the registry has a renderer under each of the nine tags
`moduleHeader`, `info`, `material`, `code`, `command`, `cardSection`,
`accordionSection`, `video`, `table`; for each of them `renderComponent` returns
what that renderer returns (wrapped when the component has an id) and never the
`Unknown component type` fragment. -/
theorem registry_tags (type : String)
    (h : type ∈ ["moduleHeader", "info", "material", "code", "command", "cardSection",
      "accordionSection", "video", "table"]) :
    ∃ renderer, ComponentRenderers.entries.lookup type = some renderer ∧
      ∀ data id w,
        renderComponent (Component.mk type data id) w =
          (match renderer data w with
          | (.error e, w1) => (.error e, w1)
          | (.ok renderedHTML, w1) =>
            if truthy id then (.ok (JsVal.str (wrapWithId (interp id) type renderedHTML)), w1)
            else (.ok (JsVal.str renderedHTML), w1)) ∧
        ∀ t, (renderComponent (Component.mk type data id) w).1 ≠
          .ok (JsVal.str (unknownTypeFragment t)) := by
  simp only [List.mem_cons, List.mem_singleton, List.not_mem_nil, or_false] at h
  rcases h with h | h | h | h | h | h | h | h | h <;> subst h
  · exact tag_dispatch "moduleHeader" ComponentRenderers.moduleHeader rfl
      (fun d w0 html w1 hr => Or.inl (moduleHeader_start d w0 html w1 hr))
  · exact tag_dispatch "info" ComponentRenderers.info rfl
      (fun d w0 html w1 hr => Or.inr (Or.inl (info_start d w0 html w1 hr)))
  · exact tag_dispatch "material" ComponentRenderers.material rfl
      (fun d w0 html w1 hr => Or.inl (material_start d w0 html w1 hr))
  · exact tag_dispatch "code" ComponentRenderers.code rfl
      (fun d w0 html w1 hr => (code_start d w0 html w1 hr).elim
        (fun h1 => Or.inr (Or.inr h1)) (fun h1 => Or.inr (Or.inl h1)))
  · exact tag_dispatch "command" ComponentRenderers.command rfl
      (fun d w0 html w1 hr => Or.inl (command_start d w0 html w1 hr))
  · exact tag_dispatch "cardSection" ComponentRenderers.cardSection rfl
      (fun d w0 html w1 hr => Or.inl (cardSection_start d w0 html w1 hr))
  · exact tag_dispatch "accordionSection" ComponentRenderers.accordionSection rfl
      (fun d w0 html w1 hr => Or.inl (accordionSection_start d w0 html w1 hr))
  · exact tag_dispatch "video" ComponentRenderers.video rfl
      (fun d w0 html w1 hr => Or.inl (video_start d w0 html w1 hr))
  · exact tag_dispatch "table" ComponentRenderers.table rfl
      (fun d w0 html w1 hr => Or.inl (table_start d w0 html w1 hr))

/-- C13, as amended, at the tag `moduleHeader`: the header component is rendered
by a renderer of the registry and is not the `Unknown component type`
fragment. -/
theorem registry_tags_witness :
    "moduleHeader" ∈ ["moduleHeader", "info", "material", "code", "command", "cardSection",
      "accordionSection", "video", "table"] ∧
    (ComponentRenderers.entries.lookup "moduleHeader").isSome = true ∧
    (renderComponent
        { type := "moduleHeader",
          data := { title := some "T", moduleName := some "M", description := some "D" } }
        sampleWorld).1 ≠ .ok (JsVal.str (unknownTypeFragment "moduleHeader")) := by
  obtain ⟨renderer, h1, h2⟩ := registry_tags "moduleHeader" (by decide)
  refine ⟨by decide, by rw [h1]; rfl, ?_⟩
  exact (h2 { title := some "T", moduleName := some "M", description := some "D" } none
    sampleWorld).2 "moduleHeader"

/-! ## Accordion: at most one panel open -/

theorem find_of_nodup (l : List AccordionPanel) (X : AccordionPanel) (hX : X ∈ l)
    (hnd : (l.map (fun p => p.id)).Nodup) :
    l.find? (fun p => p.id == X.id) = some X := by
  induction l with
  | nil => cases hX
  | cons a rest ih =>
    rw [List.map_cons, List.nodup_cons] at hnd
    rw [List.find?_cons]
    rcases List.mem_cons.mp hX with h | h
    · subst h
      simp
    · have hne : a.id ≠ X.id := by
        intro he
        exact hnd.1 (by rw [he]; exact List.mem_map_of_mem _ h)
      have : (a.id == X.id) = false := by simpa using hne
      rw [this]
      exact ih h hnd.2

theorem onFirst_eq_map (itemId : String) (f g : AccordionPanel → AccordionPanel)
    (l : List AccordionPanel) (hnd : (l.map (fun p => p.id)).Nodup) :
    onFirst itemId f g l = l.map (fun p => if p.id = itemId then f p else g p) := by
  induction l with
  | nil => rfl
  | cons a rest ih =>
    rw [List.map_cons, List.nodup_cons] at hnd
    rw [onFirst, List.map_cons]
    by_cases ha : a.id = itemId
    · rw [if_pos ha, if_pos ha]
      congr 1
      apply List.map_congr_left
      intro p hp
      have hne : p.id ≠ itemId := by
        intro he
        exact hnd.1 (by rw [ha, ← he]; exact List.mem_map_of_mem _ hp)
      rw [if_neg hne]
    · rw [if_neg ha, if_neg ha, ih hnd.2]

theorem onFirst_ids (itemId : String) (f g : AccordionPanel → AccordionPanel)
    (hf : ∀ p, (f p).id = p.id) (hg : ∀ p, (g p).id = p.id) (l : List AccordionPanel) :
    (onFirst itemId f g l).map (fun p => p.id) = l.map (fun p => p.id) := by
  induction l with
  | nil => rfl
  | cons a rest ih =>
    rw [onFirst]
    split
    · simp [hf, hg]
    · simp [hg, ih]

theorem hideUnlessTarget_id (itemId : String) (p : AccordionPanel) :
    (hideUnlessTarget itemId p).id = p.id := by
  unfold hideUnlessTarget
  split <;> rfl

theorem collapseSiblings_ids (itemId : String) (l : List AccordionPanel) :
    (collapseSiblings itemId l).map (fun p => p.id) = l.map (fun p => p.id) := by
  unfold collapseSiblings
  rw [onFirst_ids itemId id resetIcon (fun _ => rfl) (fun _ => rfl), List.map_map]
  apply List.map_congr_left
  intro p _
  exact hideUnlessTarget_id itemId p

theorem collapseSiblings_hidden (itemId : String) (l : List AccordionPanel) :
    ∀ p ∈ collapseSiblings itemId l, p.id ≠ itemId → p.hidden = true := by
  intro p hp hne
  have key : ∀ l2 : List AccordionPanel, (∀ q ∈ l2, q.id ≠ itemId → q.hidden = true) →
      ∀ q ∈ onFirst itemId id resetIcon l2, q.id ≠ itemId → q.hidden = true := by
    intro l2
    induction l2 with
    | nil => intro _ q hq; cases hq
    | cons a rest ih =>
      intro h q hq hqne
      rw [onFirst] at hq
      split at hq
      · rcases List.mem_cons.mp hq with h1 | h1
        · subst h1
          exact h _ (List.mem_cons_self _ _) hqne
        · obtain ⟨q0, hq0, rfl⟩ := List.mem_map.mp h1
          exact h q0 (List.mem_cons_of_mem _ hq0) hqne
      · rcases List.mem_cons.mp hq with h1 | h1
        · subst h1
          exact h a (List.mem_cons_self _ _) hqne
        · exact ih (fun q0 hq0 => h q0 (List.mem_cons_of_mem _ hq0)) q h1 hqne
  refine key _ ?_ p hp hne
  intro q hq hqne
  obtain ⟨q0, _, rfl⟩ := List.mem_map.mp hq
  rw [hideUnlessTarget_id] at hqne
  unfold hideUnlessTarget
  by_cases hh : q0.hidden = false
  · rw [if_pos ⟨hqne, hh⟩]
  · rw [if_neg (fun h => hh h.2)]
    simpa using hh

theorem count_open_le_one (l : List AccordionPanel) (itemId : String)
    (hnd : (l.map (fun p => p.id)).Nodup)
    (hopen : ∀ p ∈ l, p.hidden = false ↔ p.id = itemId) :
    (l.filter (fun p => !p.hidden)).length ≤ 1 := by
  have h1 : l.filter (fun p => !p.hidden) = l.filter (fun p => p.id == itemId) := by
    apply List.filter_congr
    intro p hp
    have := hopen p hp
    by_cases hh : p.hidden = false
    · have hid := this.mp hh
      simp [hh, hid]
    · have hid : p.id ≠ itemId := fun he => hh (this.mpr he)
      have hh2 : p.hidden = true := by simpa using hh
      simp [hh2, hid]
  rw [h1, ← List.countP_eq_length_filter]
  have h2 : List.countP (fun p => p.id == itemId) l = List.count itemId (l.map (fun p => p.id)) := by
    rw [List.count, List.countP_map]
    rfl
  rw [h2]
  exact List.nodup_iff_count_le_one.mp hnd itemId

/-- C14: in a group whose panel ids are pairwise different, toggling a collapsed
panel `X` with `allowMultiple = false` returns a group in which a panel lacks
the class `hidden` exactly when it is `X`, so at most one panel is expanded; the
panels are the same as before, in the same order. -/
theorem toggleAccordion_single_open (dom : AccordionDom) (X : AccordionPanel)
    (hX : X ∈ dom.panels) (hcollapsed : X.hidden = true)
    (hids : (dom.panels.map (fun p => p.id)).Nodup) :
    ∃ dom1, toggleAccordion X.id dom.accordionId false dom = .ok dom1 ∧
      (∀ p ∈ dom1.panels, p.hidden = false ↔ p.id = X.id) ∧
      (∃ p ∈ dom1.panels, p.id = X.id) ∧
      (dom1.panels.filter (fun p => !p.hidden)).length ≤ 1 ∧
      dom1.panels.map (fun p => p.id) = dom.panels.map (fun p => p.id) := by
  have hfind := find_of_nodup dom.panels X hX hids
  have hres : toggleAccordion X.id dom.accordionId false dom =
      .ok { dom with
        panels := onFirst X.id expandPanel id (collapseSiblings X.id dom.panels),
        timers := dom.timers ++ [AccordionTimer.clearStyles X.id] } := by
    simp [toggleAccordion, hfind, hcollapsed]
  have hids1 := collapseSiblings_ids X.id dom.panels
  have hids2 : (onFirst X.id expandPanel id (collapseSiblings X.id dom.panels)).map
      (fun p => p.id) = dom.panels.map (fun p => p.id) := by
    rw [onFirst_ids X.id expandPanel id (fun _ => rfl) (fun _ => rfl), hids1]
  have hnd1 : ((collapseSiblings X.id dom.panels).map (fun p => p.id)).Nodup := by
    rw [hids1]; exact hids
  have hopen : ∀ p ∈ onFirst X.id expandPanel id (collapseSiblings X.id dom.panels),
      p.hidden = false ↔ p.id = X.id := by
    intro p hp
    rw [onFirst_eq_map _ _ _ _ hnd1] at hp
    obtain ⟨q, hq, rfl⟩ := List.mem_map.mp hp
    by_cases hid : q.id = X.id
    · simp [hid, expandPanel]
    · have hh := collapseSiblings_hidden X.id dom.panels q hq hid
      simp [hid, hh]
  refine ⟨_, hres, hopen, ?_, count_open_le_one _ X.id (by rw [hids2]; exact hids) hopen, hids2⟩
  have hmem : X.id ∈ dom.panels.map (fun p => p.id) := List.mem_map_of_mem _ hX
  rw [← hids2] at hmem
  obtain ⟨p, hp, hpid⟩ := List.mem_map.mp hmem
  exact ⟨p, hp, hpid⟩

/-- C14 at a group of three panels of which the second is open: toggling the
third panel closes the second and opens the third. -/
theorem toggleAccordion_single_open_witness :
    ∃ dom1,
      toggleAccordion "accordion-faq-item-2" "accordion-faq" false
        { accordionId := "accordion-faq",
          panels := [⟨"accordion-faq-item-0", true, false, "", "", "", 40⟩,
            ⟨"accordion-faq-item-1", false, true, "", "", "", 55⟩,
            ⟨"accordion-faq-item-2", true, false, "", "", "", 70⟩],
          timers := [] } = .ok dom1 ∧
      dom1.panels.map (fun p => (p.id, p.hidden)) =
        [("accordion-faq-item-0", true), ("accordion-faq-item-1", true),
          ("accordion-faq-item-2", false)] ∧
      (dom1.panels.filter (fun p => !p.hidden)).length ≤ 1 := by
  obtain ⟨dom1, h1, _, _, h3, _⟩ := toggleAccordion_single_open
    { accordionId := "accordion-faq",
      panels := [⟨"accordion-faq-item-0", true, false, "", "", "", 40⟩,
        ⟨"accordion-faq-item-1", false, true, "", "", "", 55⟩,
        ⟨"accordion-faq-item-2", true, false, "", "", "", 70⟩],
      timers := [] }
    ⟨"accordion-faq-item-2", true, false, "", "", "", 70⟩ (by decide) rfl (by decide)
  refine ⟨dom1, h1, ?_, h3⟩
  have h4 : toggleAccordion "accordion-faq-item-2" "accordion-faq" false
      { accordionId := "accordion-faq",
        panels := [⟨"accordion-faq-item-0", true, false, "", "", "", 40⟩,
          ⟨"accordion-faq-item-1", false, true, "", "", "", 55⟩,
          ⟨"accordion-faq-item-2", true, false, "", "", "", 70⟩],
        timers := [] } = .ok
      { accordionId := "accordion-faq",
        panels := [⟨"accordion-faq-item-0", true, false, "", "", "", 40⟩,
          ⟨"accordion-faq-item-1", true, false, "", "", "", 55⟩,
          ⟨"accordion-faq-item-2", false, true, "70px", "hidden", "max-height 0.3s ease-out",
            70⟩],
        timers := [AccordionTimer.clearStyles "accordion-faq-item-2"] } := by rfl
  rw [h4] at h1
  injection h1 with h5
  rw [← h5]
  rfl

/-! ## Deferred code loader -/

theorem getElementById_updateById_isSome (a b : String) (f : Element → Element)
    (hf : ∀ e, (f e).id = e.id) (doc : Document) :
    (getElementById (updateById a f doc) b).isSome = (getElementById doc b).isSome := by
  induction doc with
  | nil => rfl
  | cons e rest ih =>
    unfold getElementById at ih ⊢
    rw [updateById]
    split
    · rw [List.find?_cons, List.find?_cons, hf e]
      cases (e.id == b) <;> rfl
    · rw [List.find?_cons, List.find?_cons]
      cases (e.id == b)
      · exact ih
      · rfl

theorem getElementById_updateById_same (b : String) (g : Element → Element)
    (hg : ∀ e, (g e).id = e.id) (doc : Document) :
    getElementById (updateById b g doc) b = (getElementById doc b).map g := by
  induction doc with
  | nil => rfl
  | cons e rest ih =>
    unfold getElementById at ih ⊢
    rw [updateById]
    by_cases he : e.id = b
    · rw [if_pos he, List.find?_cons, List.find?_cons, hg e]
      simp [he]
    · rw [if_neg he, List.find?_cons, List.find?_cons]
      have : (e.id == b) = false := by simpa using he
      rw [this]
      exact ih

theorem runDeferredLoad_text (fetch : String → FetchOutcome) (prism : Option (Element → Element))
    (timer : DeferredLoad) (doc : Document) (codeElement : Element)
    (hdoc : getElementById doc timer.codeId = some codeElement)
    (hprism : ∀ h, prism = some h → ∀ e, (h e).id = e.id ∧ (h e).textContent = e.textContent) :
    (getElementById (runDeferredLoad fetch prism timer doc) timer.codeId).map
      (fun e => e.textContent) = some (readCodeFile fetch timer.filePath) := by
  unfold runDeferredLoad
  simp only []
  have hg : ∀ e : Element, ((fun codeElement : Element =>
      match prism with
      | some highlightElement =>
        highlightElement { codeElement with textContent := readCodeFile fetch timer.filePath }
      | none => { codeElement with textContent := readCodeFile fetch timer.filePath }) e).id
      = e.id := by
    intro e
    cases hp : prism with
    | none => rfl
    | some h => exact (hprism h hp _).1
  rw [getElementById_updateById_same _ _ hg]
  have h1 : (getElementById
      (updateById timer.loaderId (fun loader => { loader with display := "none" })
        (updateById timer.loaderId (fun loader => { loader with display := "flex" }) doc))
      timer.codeId).isSome = true := by
    rw [getElementById_updateById_isSome timer.loaderId timer.codeId
        (fun loader => { loader with display := "none" }) (fun _ => rfl),
      getElementById_updateById_isSome timer.loaderId timer.codeId
        (fun loader => { loader with display := "flex" }) (fun _ => rfl), hdoc]
    rfl
  obtain ⟨e2, he2⟩ := Option.isSome_iff_exists.mp h1
  rw [he2]
  cases hp : prism with
  | none => rfl
  | some h =>
    simp only [Option.map_some']
    rw [(hprism h hp _).2]

theorem generateSectionId_timers (title : Option String) (P : String) (w : World) :
    (generateSectionId title P w).2.timers = w.timers := by
  cases title with
  | none => rfl
  | some s =>
    unfold generateSectionId
    simp only []
    split <;> rfl

set_option maxRecDepth 100000 in
theorem code_markup (data : Data) (w : World) (hpath : truthy data.filePath = true) :
    ∃ html w1, ComponentRenderers.code data w = (.ok html, w1) ∧
      w1.timers = w.timers ++
        [⟨100, "loader-" ++ (generateId w).1, (generateId w).1, interp data.filePath⟩] ∧
      ("<code id=\"" ++ (generateId w).1 ++ "\" class=\"language-" ++
        data.language.getD "javascript" ++ " line-numbers\">Loading...</code>").data
        <:+: html.data := by
  obtain ⟨bad, good, w2, h1, h2, h3⟩ : ∃ bad good w2,
      ComponentRenderers.code data w =
        (if (!truthy data.filePath) = true then (.ok bad, w) else (.ok good, w2)) ∧
      w2.timers = (generateSectionId data.title "code" (generateId w).2).2.timers ++
        [⟨100, "loader-" ++ (generateId w).1, (generateId w).1, interp data.filePath⟩] ∧
      ("<code id=\"" ++ (generateId w).1 ++ "\" class=\"language-" ++
        data.language.getD "javascript" ++ " line-numbers\">Loading...</code>").data
        <:+: good.data := by
    refine ⟨_, _, _, rfl, rfl, ?_⟩
    apply infix_of_suffix_of_start
    · apply suffix_append_both
      apply suffix_append_both
      apply suffix_append_both
      apply suffix_append_right
      decide
    · decide
  refine ⟨good, w2, ?_, ?_, h3⟩
  · rw [h1, hpath]
    rfl
  · rw [h2, generateSectionId_timers]
    rfl

/-- C17: for a code component with a non-empty `filePath` the markup contains the
`code` element with the text `Loading...` and one timer of 100 ms is registered;
when that timer runs in a document that has the `code` element, the fetch of the
normalised path answers with a success status and the body `B`, and the
highlighter (if any) keeps the id and the text of the element, the text of the
`code` element is `B`. -/
theorem code_deferred_load (data : Data) (w : World) (hpath : truthy data.filePath = true) :
    ∃ html w1 timer, ComponentRenderers.code data w = (.ok html, w1) ∧
      w1.timers = w.timers ++ [timer] ∧
      timer = ⟨100, "loader-" ++ (generateId w).1, (generateId w).1, interp data.filePath⟩ ∧
      ("<code id=\"" ++ timer.codeId ++ "\" class=\"language-" ++
        data.language.getD "javascript" ++ " line-numbers\">Loading...</code>").data
        <:+: html.data ∧
      ∀ (fetch : String → FetchOutcome) (prism : Option (Element → Element)) (doc : Document)
        (codeElement : Element) (status : Nat) (statusText B : String),
        getElementById doc timer.codeId = some codeElement →
        fetch (readCodeFile.normalizedPath timer.filePath)
          = FetchOutcome.response status statusText (.ok B) →
        200 ≤ status → status ≤ 299 →
        (∀ h, prism = some h → ∀ e, (h e).id = e.id ∧ (h e).textContent = e.textContent) →
        (getElementById (runDeferredLoad fetch prism timer doc) timer.codeId).map
          (fun e => e.textContent) = some B := by
  obtain ⟨html, w1, h1, h2, h3⟩ := code_markup data w hpath
  refine ⟨html, w1, _, h1, h2, rfl, h3, ?_⟩
  intro fetch prism doc codeElement status statusText B hdoc hfetch hlo hhi hprism
  rw [runDeferredLoad_text fetch prism _ doc codeElement hdoc hprism]
  simp only [readCodeFile, hfetch, hlo, hhi, and_self, if_true]

set_option maxRecDepth 100000 in
/-- C17 at the component `{filePath: "./src/a.js"}` rendered in `laterWorld`: the
markup has the `code` element with `Loading...`, and after the deferred load
from a site that serves `const x=1;` the text of that element is `const x=1;`. -/
theorem code_deferred_load_witness :
    ∃ html w1, ComponentRenderers.code { filePath := some "./src/a.js" } laterWorld
        = (.ok html, w1) ∧
      w1.timers = [⟨100, "loader-id-1800000000007-zzzzzzzzz", "id-1800000000007-zzzzzzzzz",
        "./src/a.js"⟩] ∧
      ("<code id=\"id-1800000000007-zzzzzzzzz\" class=\"language-javascript line-numbers\">" ++
        "Loading...</code>").data <:+: html.data ∧
      (getElementById
        (runDeferredLoad sampleFetch none
          ⟨100, "loader-id-1800000000007-zzzzzzzzz", "id-1800000000007-zzzzzzzzz", "./src/a.js"⟩
          (mountedCodeElements "id-1800000000008-zzzzzzzzz" "loader-id-1800000000007-zzzzzzzzz"
            "id-1800000000007-zzzzzzzzz"))
        "id-1800000000007-zzzzzzzzz").map (fun e => e.textContent) = some "const x=1;" := by
  obtain ⟨html, w1, timer, h1, h2, h3, h4, h5⟩ :=
    code_deferred_load { filePath := some "./src/a.js" } laterWorld rfl
  subst h3
  refine ⟨html, w1, h1, h2, h4, ?_⟩
  exact h5 sampleFetch none
    (mountedCodeElements "id-1800000000008-zzzzzzzzz" "loader-id-1800000000007-zzzzzzzzz"
      "id-1800000000007-zzzzzzzzz")
    ⟨"id-1800000000007-zzzzzzzzz", "Loading...", ""⟩ 200 "OK" "const x=1;" rfl rfl
    (by decide) (by decide) (fun h hp => by cases hp)

/-- C18: `readCodeFile` always resolves.  When the fetch rejects with a message
it resolves to `// Error: Could not load file <name>`, a newline and
`// <message>`; when the response has a status outside 200..299 the message is
`HTTP <status>: <statusText>`; when the body of a success response cannot be
read the message is the one of that failure; and the deferred loader stores the text that
`readCodeFile` resolves to, the placeholder included, in the `code` element. -/
theorem readCodeFile_failure (fetch : String → FetchOutcome) (p : String) :
    (∀ message, fetch (readCodeFile.normalizedPath p) = FetchOutcome.rejected message →
      readCodeFile fetch p =
        "// Error: Could not load file " ++ getFileName (some p) ++ "\n// " ++ message) ∧
    (∀ status statusText body,
      fetch (readCodeFile.normalizedPath p) = FetchOutcome.response status statusText body →
      ¬ (200 ≤ status ∧ status ≤ 299) →
      readCodeFile fetch p =
        "// Error: Could not load file " ++ getFileName (some p) ++ "\n// " ++
          ("HTTP " ++ toString status ++ ": " ++ statusText)) ∧
    (∀ status statusText message,
      fetch (readCodeFile.normalizedPath p)
        = FetchOutcome.response status statusText (.error message) →
      readCodeFile fetch p =
        "// Error: Could not load file " ++ getFileName (some p) ++ "\n// " ++
          (if 200 ≤ status ∧ status ≤ 299 then message
            else "HTTP " ++ toString status ++ ": " ++ statusText)) ∧
    (∀ (prism : Option (Element → Element)) (timer : DeferredLoad) (doc : Document)
      (codeElement : Element),
      timer.filePath = p →
      getElementById doc timer.codeId = some codeElement →
      (∀ h, prism = some h → ∀ e, (h e).id = e.id ∧ (h e).textContent = e.textContent) →
      (getElementById (runDeferredLoad fetch prism timer doc) timer.codeId).map
        (fun e => e.textContent) = some (readCodeFile fetch p)) := by
  refine ⟨?_, ?_, ?_, ?_⟩
  · intro message h
    simp only [readCodeFile, h]
  · intro status statusText body h hbad
    simp only [readCodeFile, h, hbad, if_false]
  · intro status statusText message h
    simp only [readCodeFile, h]
    split <;> rfl
  · intro prism timer doc codeElement hp hdoc hprism
    rw [← hp]
    exact runDeferredLoad_text fetch prism timer doc codeElement hdoc hprism

/-- C18 at the path `./lib/missing.js` on a site that answers 404, and at a fetch
that rejects with `Failed to fetch`. -/
theorem readCodeFile_failure_witness :
    readCodeFile sampleFetch "./lib/missing.js" =
      "// Error: Could not load file missing.js\n// HTTP 404: Not Found" ∧
    readCodeFile (fun _ => FetchOutcome.rejected "Failed to fetch") "./lib/missing.js" =
      "// Error: Could not load file missing.js\n// Failed to fetch" ∧
    (getElementById
      (runDeferredLoad sampleFetch none ⟨100, "loader-c1", "c1", "./lib/missing.js"⟩
        (mountedCodeElements "code-example" "loader-c1" "c1")) "c1").map
      (fun e => e.textContent) =
        some "// Error: Could not load file missing.js\n// HTTP 404: Not Found" := by
  have h := readCodeFile_failure sampleFetch "./lib/missing.js"
  have h0 := readCodeFile_failure (fun _ => FetchOutcome.rejected "Failed to fetch")
    "./lib/missing.js"
  have h1 := h.2.1 404 "Not Found" (.ok "") rfl (by decide)
  have h2 := h0.1 "Failed to fetch" rfl
  have h3 := h.2.2.2 none ⟨100, "loader-c1", "c1", "./lib/missing.js"⟩
    (mountedCodeElements "code-example" "loader-c1" "c1") ⟨"c1", "Loading...", ""⟩ rfl rfl
    (fun h hp => by cases hp)
  refine ⟨h1.trans (by decide), h2.trans (by decide), h3.trans ?_⟩
  rw [h1]
  decide

/-! ## Table cells -/

/-- C19: the markup of the table renderer is an opening that does not depend on
`headers` and `rows`, then one `th` element per header in order, then one `tr`
element per row in order, each holding one `td` element per cell of that row in
order, whatever the lengths of the rows, then the closing tags. -/
theorem table_cells (data : Data) (w : World) :
    ∃ opening : String, ∃ w1 : World, ∀ (headers : List String) (rows : List (List String)),
      ComponentRenderers.table { data with headers := some headers, rows := some rows } w =
        (.ok (opening ++ String.join (headers.map fun header => "
                                    <th class=\"px-6 py-3 text-left font-medium text-orange-700 dark:text-orange-300\">" ++ header ++ "</th>
                                ") ++ "
                            </tr>
                        </thead>
                        <tbody class=\"divide-y divide-gray-200 dark:divide-gray-700\">
                            " ++ String.join (rows.map fun row => "
                                <tr class=\"hover:bg-orange-50 dark:hover:bg-gray-700 transition-colors\">
                                    " ++ String.join (row.map fun cell => "
                                        <td class=\"px-6 py-4 text-gray-700 dark:text-gray-300\">" ++ cell ++ "</td>
                                    ") ++ "
                                </tr>
                            ") ++ "
                        </tbody>
                    </table>
                </div>
            </section>
        "), w1) := by
  refine ⟨
    (let title := data.title
     let shared := data.shared.getD false
     let theme := data.theme.getD "orange"
     let tableId := (generateSectionId title "table" w).1
     let themeColors : List (String × String) := [
       ("orange", "text-orange-700 dark:text-orange-300"),
       ("navy", "text-blue-800 dark:text-blue-300"),
       ("blue", "text-blue-700 dark:text-blue-300")]
     "
            <section id=\"" ++ tableId ++ "\" class=\"mb-8 scroll-mt-20\">
                <div class=\"flex items-center justify-between mb-4\">
                    <h3 class=\"text-xl font-semibold " ++ propText themeColors theme ++ "\">" ++ interp title ++ "</h3>
                    " ++ (if shared then "
                        <button onclick=\"shareSection('" ++ tableId ++ "', '" ++ interp title ++ "')\" 
                                class=\"p-2 text-gray-500 hover:text-orange-600 rounded-lg transition-colors\" 
                                title=\"Share this table\">
                            <i class=\"fas fa-share-alt\"></i>
                        </button>
                    " else "") ++ "
                </div>
                
                <div class=\"overflow-x-auto\">
                    <table class=\"min-w-full bg-white dark:bg-gray-800 border border-gray-200 dark:border-gray-700 rounded-lg overflow-hidden shadow-sm\">
                        <thead class=\"bg-orange-50 dark:bg-gray-700\">
                            <tr>
                                "),
    (generateSectionId data.title "table" w).2, fun headers rows => ?_⟩
  rfl

set_option maxRecDepth 100000 in
/-- The table `Scores` with the headers `Name`, `Score` and the rows `A, 90` and
`B` (a short row): the header cells and the body rows appear in the given order,
the short row with its single cell. -/
theorem table_scores_scenario :
    ∃ html, (ComponentRenderers.table
        { title := some "Scores", headers := some ["Name", "Score"],
          rows := some [["A", "90"], ["B"]] } sampleWorld).1 = .ok html ∧
      includesChars (">Name</th>
                                
                                    <th class=\"px-6 py-3 text-left font-medium text-orange-700 dark:text-orange-300\">Score</th>").data
        html.data = true ∧
      includesChars (">A</td>
                                    
                                        <td class=\"px-6 py-4 text-gray-700 dark:text-gray-300\">90</td>
                                    
                                </tr>
                            
                                <tr class=\"hover:bg-orange-50 dark:hover:bg-gray-700 transition-colors\">
                                    
                                        <td class=\"px-6 py-4 text-gray-700 dark:text-gray-300\">B</td>
                                    
                                </tr>").data html.data = true := by
  exact ⟨_, rfl, by rfl, by rfl⟩

/-! ## Share modal: the keydown listener -/

/-- C20, failing input: a modal is shown and closed with the close button (or by
a click on the backdrop), then its removal timer runs: no modal is left, but the
`keydown` listener of the modal is still registered, because `closeShareModal`
never touches the listeners; only the `Escape` key unregisters it. -/
theorem shareModal_listener_leak :
    (showShareModal ⟨[], [], [], 0⟩ sampleWorld).1 =
      ⟨[⟨0, "id-1700000000000-k3x9q2m1z", false⟩], [(0, "id-1700000000000-k3x9q2m1z")], [], 1⟩ ∧
    removeModal 0 (closeShareModal "id-1700000000000-k3x9q2m1z"
        (showShareModal ⟨[], [], [], 0⟩ sampleWorld).1) =
      ⟨[], [(0, "id-1700000000000-k3x9q2m1z")], [], 1⟩ ∧
    removeModal 0 (backdropClick 0 (showShareModal ⟨[], [], [], 0⟩ sampleWorld).1) =
      ⟨[], [(0, "id-1700000000000-k3x9q2m1z")], [], 1⟩ ∧
    removeModal 0 (keydown "Escape" (showShareModal ⟨[], [], [], 0⟩ sampleWorld).1) =
      ⟨[], [], [], 1⟩ ∧
    ∀ modalId page, (closeShareModal modalId page).keydownListeners = page.keydownListeners := by
  refine ⟨by rfl, by rfl, by rfl, by rfl, ?_⟩
  intro modalId page
  unfold closeShareModal
  split <;> rfl

/-! ## File names -/

theorem lastSegment_fold (l acc : List Char) (hacc : ∀ x ∈ acc, x ≠ '/' ∧ x ≠ '\\') :
    (∀ x ∈ l.foldl (fun acc c => if c = '/' ∨ c = '\\' then [] else acc ++ [c]) acc,
      x ≠ '/' ∧ x ≠ '\\') ∧
    (((∀ x ∈ l, x ≠ '/' ∧ x ≠ '\\') ∧
        l.foldl (fun acc c => if c = '/' ∨ c = '\\' then [] else acc ++ [c]) acc = acc ++ l) ∨
      ∃ pre c, (c = '/' ∨ c = '\\') ∧
        l = pre ++ c :: l.foldl (fun acc c => if c = '/' ∨ c = '\\' then [] else acc ++ [c]) acc) := by
  induction l generalizing acc with
  | nil => exact ⟨by simpa using hacc, Or.inl ⟨by simp, by simp⟩⟩
  | cons x xs ih =>
    rw [List.foldl_cons]
    by_cases hx : x = '/' ∨ x = '\\'
    · rw [if_pos hx]
      obtain ⟨h1, h2⟩ := ih [] (by simp)
      refine ⟨h1, Or.inr ?_⟩
      rcases h2 with ⟨_, h3⟩ | ⟨pre, c, hc, h3⟩
      · exact ⟨[], x, hx, by rw [h3]; simp⟩
      · exact ⟨x :: pre, c, hc, by rw [List.cons_append, ← h3]⟩
    · rw [if_neg hx]
      have hx2 : x ≠ '/' ∧ x ≠ '\\' := not_or.mp hx
      obtain ⟨h1, h2⟩ := ih (acc ++ [x]) (by
        intro y hy
        rcases List.mem_append.mp hy with hy | hy
        · exact hacc y hy
        · rw [List.mem_singleton.mp hy]; exact hx2)
      refine ⟨h1, ?_⟩
      rcases h2 with ⟨h3, h4⟩ | ⟨pre, c, hc, h3⟩
      · left
        refine ⟨?_, by rw [h4]; simp⟩
        intro y hy
        rcases List.mem_cons.mp hy with hy | hy
        · rw [hy]; exact hx2
        · exact h3 y hy
      · exact Or.inr ⟨x :: pre, c, hc, by rw [List.cons_append, ← h3]⟩

theorem getFileName_of_nonempty (p : String) (hp : p ≠ "") :
    (getFileName (some p)).data =
      p.data.foldl (fun acc c => if c = '/' ∨ c = '\\' then [] else acc ++ [c]) [] := by
  simp [getFileName, truthy, interp, hp]

/-- C24: for a non-empty path `getFileName` returns the last segment: the
result contains neither `/` nor `\`, the path ends with it, and either the path
has no separator and is returned whole, or the result is what follows the last
separator of the path; for an absent or empty path the result is `code.txt`. -/
theorem getFileName_last_segment (p : String) (hp : p ≠ "") :
    (∀ c ∈ (getFileName (some p)).data, c ≠ '/' ∧ c ≠ '\\') ∧
    (getFileName (some p)).data <:+ p.data ∧
    (((∀ c ∈ p.data, c ≠ '/' ∧ c ≠ '\\') ∧ getFileName (some p) = p) ∨
      ∃ pre c, (c = '/' ∨ c = '\\') ∧ p.data = pre ++ c :: (getFileName (some p)).data) ∧
    getFileName none = "code.txt" ∧ getFileName (some "") = "code.txt" := by
  obtain ⟨h1, h2⟩ := lastSegment_fold p.data [] (by simp)
  rw [← getFileName_of_nonempty p hp] at h1 h2
  have h3 : ((∀ c ∈ p.data, c ≠ '/' ∧ c ≠ '\\') ∧ getFileName (some p) = p) ∨
      ∃ pre c, (c = '/' ∨ c = '\\') ∧ p.data = pre ++ c :: (getFileName (some p)).data := by
    rcases h2 with ⟨h4, h5⟩ | h4
    · exact Or.inl ⟨h4, String.ext (by rw [h5]; simp)⟩
    · exact Or.inr h4
  refine ⟨h1, ?_, h3, rfl, rfl⟩
  rcases h3 with ⟨_, h5⟩ | ⟨pre, c, _, h5⟩
  · rw [h5]
  · exact ⟨pre ++ [c], by rw [h5]; simp⟩

/-- C24 at the path `src/utils\helper.js`: the result is `helper.js`. -/
theorem getFileName_last_segment_witness :
    "src/utils\\helper.js" ≠ "" ∧ getFileName (some "src/utils\\helper.js") = "helper.js" ∧
    (getFileName (some "src/utils\\helper.js")).data <:+ "src/utils\\helper.js".data :=
  ⟨by decide, by rfl, (getFileName_last_segment "src/utils\\helper.js" (by decide)).2.1⟩

/-! ## Identifier allocator: titles without a letter or digit, and idempotence -/

theorem spacesToHyphen_all_hyphens (l : List Char) (b : Bool)
    (h : ∀ c ∈ l, isJsSpace c = true ∨ c = '-') : ∀ c ∈ spacesToHyphen b l, c = '-' := by
  intro c hc
  rcases mem_spacesToHyphen l b c hc with h1 | ⟨h1, h2⟩
  · exact h1
  · rcases h c h1 with h3 | h3
    · rw [h2] at h3; cases h3
    · exact h3

theorem collapseHyphens_all_hyphens (l : List Char) (h : ∀ c ∈ l, c = '-') :
    collapseHyphens true l = [] ∧ (collapseHyphens false l = [] ∨ collapseHyphens false l = ['-']) := by
  induction l with
  | nil => simp [collapseHyphens]
  | cons x xs ih =>
    have hx : x = '-' := h x (List.mem_cons_self _ _)
    obtain ⟨h1, _⟩ := ih (fun c hc => h c (List.mem_cons_of_mem _ hc))
    subst hx
    simp [collapseHyphens, h1]

theorem cleanName_no_alnum (T : String) (h : ∀ c ∈ toLowerCase T.data, isLowerAlnum c = false) :
    cleanName T = "" := by
  have h1 : ∀ c ∈ stripInvalid (toLowerCase T.data), isJsSpace c = true ∨ c = '-' := by
    intro c hc
    have h2 := List.of_mem_filter hc
    have h3 := h c (List.mem_of_mem_filter hc)
    simpa [isKept, h3] using h2
  have h4 := collapseHyphens_all_hyphens _ (spacesToHyphen_all_hyphens _ false h1)
  unfold cleanName
  rcases h4.2 with h5 | h5 <;> rw [h5] <;> rfl

/-- C27: a non-empty title in which no character of `[a-z0-9]` is left after
lower-casing has an empty cleaned name: the identifier is the type prefix
followed by a hyphen, or the empty string when the prefix is empty, and the
clock and the random source are not used. -/
theorem generateSectionId_no_alnum (T P : String) (hT : T ≠ "")
    (h : ∀ c ∈ toLowerCase T.data, isLowerAlnum c = false) (w : World) :
    (P ≠ "" → generateSectionId (some T) P w = (P ++ "-", w)) ∧
    (P = "" → generateSectionId (some T) P w = ("", w)) := by
  rw [generateSectionId_of_nonempty T P hT w, cleanName_no_alnum T h]
  constructor
  · intro hP
    rw [if_neg hP, String.append_empty]
  · intro hP
    rw [if_pos hP]
    rfl

/-- C27 at the title `?! - ...`: the identifier is `info-` with the prefix
`info` and empty without a prefix. -/
theorem generateSectionId_no_alnum_witness :
    "?! - ..." ≠ "" ∧ (∀ c ∈ toLowerCase "?! - ...".data, isLowerAlnum c = false) ∧
    generateSectionId (some "?! - ...") "info" sampleWorld = ("info-", sampleWorld) ∧
    generateSectionId (some "?! - ...") "" sampleWorld = ("", sampleWorld) :=
  ⟨by decide, by decide,
    (generateSectionId_no_alnum "?! - ..." "info" (by decide) (by decide) sampleWorld).1 (by decide),
    (generateSectionId_no_alnum "?! - ..." "" (by decide) (by decide) sampleWorld).2 rfl⟩

theorem toLowerCase_fixed (l : List Char)
    (h : ∀ c ∈ l, isLowerAlnum c = true ∨ c = '-') : toLowerCase l = l := by
  induction l with
  | nil => rfl
  | cons x xs ih =>
    have hx : lowerChar x = [x] := by
      rcases h x (List.mem_cons_self _ _) with h1 | h1
      · simp only [isLowerAlnum, Bool.or_eq_true, Bool.and_eq_true, decide_eq_true_eq] at h1
        unfold lowerChar
        rw [if_neg (by omega), if_neg (by omega), if_neg (by omega)]
      · subst h1
        rfl
    unfold toLowerCase at ih ⊢
    rw [List.flatMap_cons, hx, ih (fun c hc => h c (List.mem_cons_of_mem _ hc))]
    rfl

theorem not_space_of_idChar (c : Char) (h : isLowerAlnum c = true ∨ c = '-') :
    isJsSpace c = false := by
  rcases h with h1 | h1
  · simp only [isLowerAlnum, Bool.or_eq_true, Bool.and_eq_true, decide_eq_true_eq] at h1
    simp only [isJsSpace, Bool.or_eq_false_iff, Bool.and_eq_false_imp, beq_eq_false_iff_ne,
      decide_eq_true_eq, decide_eq_false_iff_not, ne_eq]
    omega
  · subst h1
    rfl

theorem spacesToHyphen_fixed (l : List Char) (h : ∀ c ∈ l, isJsSpace c = false) :
    spacesToHyphen false l = l := by
  induction l with
  | nil => rfl
  | cons x xs ih =>
    rw [spacesToHyphen, h x (List.mem_cons_self _ _)]
    simp [ih (fun c hc => h c (List.mem_cons_of_mem _ hc))]

theorem collapseHyphens_fixed (l : List Char) (b : Bool) (h : List.Chain' NotBothHyphens l)
    (hb : b = true → l.head? ≠ some '-') : collapseHyphens b l = l := by
  induction l generalizing b with
  | nil => rfl
  | cons x xs ih =>
    rw [List.chain'_cons'] at h
    rw [collapseHyphens]
    by_cases hx : x = '-'
    · have hb2 : b = false := by
        cases b with
        | false => rfl
        | true => exact absurd (by simp [hx]) (hb rfl)
      rw [if_pos hx, hb2, ih true h.2 (fun _ hh => by
        cases xs with
        | nil => simp at hh
        | cons y ys =>
          simp only [List.head?_cons, Option.some.injEq] at hh
          exact h.1 y (by simp) ⟨hx, hh⟩)]
      simp [hx]
    · rw [if_neg hx, ih false h.2 (fun hh => by cases hh)]

theorem dropLeadingHyphen_fixed (l : List Char) (h : l.head? ≠ some '-') :
    dropLeadingHyphen l = l := by
  cases l with
  | nil => rfl
  | cons x xs =>
    rw [dropLeadingHyphen, if_neg (fun hx => h (by simp [hx]))]

theorem dropTrailingHyphen_fixed (l : List Char) (h : l.getLast? ≠ some '-') :
    dropTrailingHyphen l = l := by
  induction l using dropTrailingHyphen.induct with
  | case1 => rfl
  | case2 => simp at h
  | case3 c hc => simp [dropTrailingHyphen, hc]
  | case4 c d cs ih =>
    rw [dropTrailingHyphen, ih (by simpa [List.getLast?_cons_cons] using h)]

theorem cleanName_fixed (T : String) : cleanName (cleanName T) = cleanName T := by
  have hmem : ∀ c ∈ (cleanName T).data, isLowerAlnum c = true ∨ c = '-' := by
    intro c hc
    have h1 := mem_collapseHyphens _ _ _ (mem_trimHyphens _ _ hc)
    rcases mem_spacesToHyphen _ _ _ h1 with h2 | ⟨h2, h3⟩
    · exact Or.inr h2
    · have h4 := List.of_mem_filter h2
      simpa [isKept, h3] using h4
  obtain ⟨h1, h2, h3⟩ := cleaned_chain (spacesToHyphen false (stripInvalid (toLowerCase T.data)))
  have hstrip : stripInvalid (cleanName T).data = (cleanName T).data := by
    unfold stripInvalid
    rw [List.filter_eq_self]
    intro c hc
    rcases hmem c hc with h4 | h4
    · simp [isKept, h4]
    · simp [isKept, h4]
  apply String.ext
  show trimHyphens (collapseHyphens false (spacesToHyphen false
      (stripInvalid (toLowerCase (cleanName T).data)))) = (cleanName T).data
  rw [toLowerCase_fixed _ hmem, hstrip,
    spacesToHyphen_fixed _ (fun c hc => not_space_of_idChar c (hmem c hc))]
  show trimHyphens (collapseHyphens false (trimHyphens (collapseHyphens false
      (spacesToHyphen false (stripInvalid (toLowerCase T.data)))))) = _
  rw [collapseHyphens_fixed _ false h1 (fun hh => by cases hh)]
  unfold trimHyphens at h2 h3 ⊢
  rw [dropLeadingHyphen_fixed _ h2, dropTrailingHyphen_fixed _ h3]
  rfl

/-- C26: slugification is idempotent: when the identifier computed for a
non-empty title with an empty type prefix is itself non-empty, computing the
identifier of that identifier, again with an empty prefix, returns it
unchanged. -/
theorem generateSectionId_idempotent (T : String) (hT : T ≠ "") (w w1 : World)
    (hs : (generateSectionId (some T) "" w).1 ≠ "") :
    generateSectionId (some (generateSectionId (some T) "" w).1) "" w1 =
      ((generateSectionId (some T) "" w).1, w1) := by
  rw [generateSectionId_of_nonempty _ "" hs w1]
  rw [generateSectionId_of_nonempty T "" hT w]
  simp only [if_true, String.empty_append, cleanName_fixed]

/-- C26 at the title `Hello,  World!`: the identifier `hello-world` is its own
identifier. -/
theorem generateSectionId_idempotent_witness :
    "Hello,  World!" ≠ "" ∧ (generateSectionId (some "Hello,  World!") "" sampleWorld).1 ≠ "" ∧
    (generateSectionId (some "Hello,  World!") "" sampleWorld).1 = "hello-world" ∧
    generateSectionId (some (generateSectionId (some "Hello,  World!") "" sampleWorld).1) ""
      laterWorld = ((generateSectionId (some "Hello,  World!") "" sampleWorld).1, laterWorld) :=
  ⟨by decide, by decide, by rfl,
    generateSectionId_idempotent "Hello,  World!" (by decide) sampleWorld laterWorld (by decide)⟩

/-! ## Dispatcher: unknown types that carry an id -/

theorem renderComponent_missing_ignores_id (type : String) (data : Data) (id : Option String)
    (w : World) (hown : ComponentRenderers.entries.lookup type = none)
    (hproto : type ∉ objectPrototypeKeys) :
    renderComponent (Component.mk type data id) w = renderComponent (Component.mk type data none) w := by
  rw [renderComponent_of_missing (Component.mk type data id) w hown hproto,
    renderComponent_of_missing (Component.mk type data none) w hown hproto]

/-- C28, failing input: the type `toString` has no renderer in the registry,
yet a component of that type with the id `x` is not answered with the
unknown-type fragment: `renderComponent` returns the text `[object Object]`
wrapped in the container div that carries the id and the type, which differs
from what it returns for the same component without the id. -/
theorem renderComponent_inherited_type_with_id (w : World) :
    (ComponentRenderers.entries.lookup "toString").isNone = true ∧
    renderComponent { type := "toString", id := some "x" } w =
      (.ok (JsVal.str "<div id=\"x\" class=\"component-container\" data-component-type=\"toString\">[object Object]</div>"), w) ∧
    renderComponent { type := "toString" } w = (.ok (JsVal.str "[object Object]"), w) ∧
    (renderComponent { type := "toString", id := some "x" } w).1 ≠
      (renderComponent { type := "toString" } w).1 ∧
    (renderComponent { type := "toString", id := some "x" } w).1 ≠
      .ok (JsVal.str (unknownTypeFragment "toString")) := by
  refine ⟨rfl, rfl, rfl, ?_, ?_⟩
  · intro h
    have h1 : (renderComponent { type := "toString", id := some "x" } w).1 =
      .ok (JsVal.str "<div id=\"x\" class=\"component-container\" data-component-type=\"toString\">[object Object]</div>") := rfl
    have h2 : (renderComponent { type := "toString" } w).1 = .ok (JsVal.str "[object Object]") := rfl
    rw [h1, h2] at h
    injection h with h3
    injection h3 with h4
    exact absurd h4 (by decide)
  · intro h
    have h1 : (renderComponent { type := "toString", id := some "x" } w).1 =
      .ok (JsVal.str (wrapWithId "x" "toString" "[object Object]")) := rfl
    rw [h1] at h
    injection h with h3
    injection h3 with h4
    exact wrapWithId_ne_unknownTypeFragment _ _ _ _ h4

/-! ## Download path and fetch path -/

theorem normalizedPath_of_rooted (r : String)
    (h : startsWith r "/" = true ∨ startsWith r "http" = true) :
    readCodeFile.normalizedPath r = r := by
  have h1 : startsWith r "./" = false := by
    rcases r with ⟨l⟩
    cases l with
    | nil => rfl
    | cons c cs =>
      rcases h with h | h
      · have hc : '/' = c := by simpa [startsWith, List.isPrefixOf] using h
        subst hc
        rfl
      · have hc : 'h' = c := by
          have h2 : ('h' == c) = true := by
            simp only [startsWith, List.isPrefixOf] at h
            exact (Bool.and_eq_true _ _ ▸ h).1
          simpa using h2
        subst hc
        rfl
  unfold readCodeFile.normalizedPath
  simp only [h1]
  rcases h with h | h <;> simp [h]

theorem rooted_of_step (q : String) :
    startsWith (if !startsWith q "/" && !startsWith q "http" then "/" ++ q else q) "/" = true ∨
    startsWith (if !startsWith q "/" && !startsWith q "http" then "/" ++ q else q) "http"
      = true := by
  cases h1 : startsWith q "/" with
  | true => exact Or.inl (by simpa using h1)
  | false =>
    cases h2 : startsWith q "http" with
    | true => exact Or.inr (by simpa using h2)
    | false =>
      left
      simp only [Bool.not_false, Bool.and_self, if_true]
      rw [startsWith, String.data_append]
      exact List.isPrefixOf_iff_prefix.mpr (List.prefix_append _ _)

theorem normalizedPath_rooted (p : String) :
    startsWith (readCodeFile.normalizedPath p) "/" = true ∨
    startsWith (readCodeFile.normalizedPath p) "http" = true :=
  rooted_of_step (if startsWith p "./" then String.mk (p.data.drop 2) else p)

/-- C29: for a non-empty path `downloadCodeFile` clicks a link whose `href` is
the path that `readCodeFile` passes to `fetch` (shown both as the value of
`normalizedPath` and by a `fetch` that answers with the path it was given),
and normalising a normalised path leaves it unchanged. -/
theorem downloadCodeFile_href (p : String) (hp : p ≠ "") (codeId : String) (page : ToastPage)
    (w : World) :
    (∃ link, (downloadCodeFile (some p) codeId page w).1 = some link ∧
      link.href = readCodeFile.normalizedPath p ∧
      readCodeFile (fun path => FetchOutcome.response 200 "OK" (.ok path)) p = link.href) ∧
    readCodeFile.normalizedPath (readCodeFile.normalizedPath p) = readCodeFile.normalizedPath p ∧
    downloadCodeFile.downloadPath (downloadCodeFile.downloadPath p) =
      downloadCodeFile.downloadPath p := by
  have hidem := normalizedPath_of_rooted _ (normalizedPath_rooted p)
  refine ⟨⟨DownloadLink.mk (downloadCodeFile.downloadPath p) (getFileName (some p)), ?_, rfl, ?_⟩,
    hidem, hidem⟩
  · simp [downloadCodeFile, truthy, interp, hp, showToast]
  · simp [readCodeFile]
    rfl

/-- C29 at the path `./src/a.js`: both functions use `/src/a.js`. -/
theorem downloadCodeFile_href_witness :
    "./src/a.js" ≠ "" ∧ readCodeFile.normalizedPath "./src/a.js" = "/src/a.js" ∧
    (∃ link, (downloadCodeFile (some "./src/a.js") "id-1" ⟨0, [], [], 0⟩ sampleWorld).1 = some link ∧
      link.href = readCodeFile.normalizedPath "./src/a.js" ∧
      readCodeFile (fun path => FetchOutcome.response 200 "OK" (.ok path)) "./src/a.js"
        = link.href) :=
  ⟨by decide, by decide,
    (downloadCodeFile_href "./src/a.js" (by decide) "id-1" ⟨0, [], [], 0⟩ sampleWorld).1⟩

/-! ## Video embed and share button of the info box -/

set_option maxRecDepth 100000 in
theorem video_markup (data : Data) (w : World) :
    ∃ html w1, ComponentRenderers.video data w = (.ok html, w1) ∧
      ("<iframe 
                        class=\"absolute inset-0 w-full h-full\"
                        src=\"https://www.youtube.com/embed/" ++ interp data.videoId ++
        "?rel=0&modestbranding=1\"").data <:+: html.data ∧
      ∃ cls, ("<h3 class=\"text-xl font-semibold " ++ cls ++ "\">" ++ interp data.title ++ "</h3>").data
        <:+: html.data := by
  refine ⟨_, _, rfl, ?_, propText [("orange", "text-orange-700 dark:text-orange-300"),
    ("navy", "text-blue-800 dark:text-blue-300"),
    ("blue", "text-blue-700 dark:text-blue-300")] (data.theme.getD "orange"), ?_⟩
  · apply infix_append_left
    apply infix_append_left
    apply infix_of_suffix_of_start
    · apply suffix_append_both
      apply suffix_append_right
      decide
    · decide
  · apply infix_append_left
    apply infix_append_left
    apply infix_append_left
    apply infix_append_left
    apply infix_append_left
    apply infix_append_left
    apply infix_append_left
    apply infix_append_left
    apply infix_of_suffix_of_start
    · apply suffix_append_both
      apply suffix_append_both
      apply suffix_append_both
      apply suffix_append_right
      decide
    · decide

/-- C25: for a video record with title `T` and video id `V` the renderer
returns markup that contains an `iframe` whose `src` is
`https://www.youtube.com/embed/` followed by `V` and `?rel=0&modestbranding=1`,
and an `h3` heading whose text is `T`; `V` is inserted as it is. -/
theorem video_iframe_and_heading (data : Data) (T V : String) (hT : data.title = some T)
    (hV : data.videoId = some V) (w : World) :
    ∃ html w1, ComponentRenderers.video data w = (.ok html, w1) ∧
      ("<iframe 
                        class=\"absolute inset-0 w-full h-full\"
                        src=\"https://www.youtube.com/embed/" ++ V ++
        "?rel=0&modestbranding=1\"").data <:+: html.data ∧
      ∃ cls, ("<h3 class=\"text-xl font-semibold " ++ cls ++ "\">" ++ T ++ "</h3>").data
        <:+: html.data := by
  have h := video_markup data w
  rw [hT, hV] at h
  exact h

/-- C25 at the record with title `Intro` and video id `abc123`. -/
theorem video_iframe_and_heading_witness :
    ∃ html w1,
      ComponentRenderers.video { title := some "Intro", videoId := some "abc123" } sampleWorld
        = (.ok html, w1) ∧
      ("<iframe 
                        class=\"absolute inset-0 w-full h-full\"
                        src=\"https://www.youtube.com/embed/" ++ "abc123" ++
        "?rel=0&modestbranding=1\"").data <:+: html.data ∧
      ∃ cls, ("<h3 class=\"text-xl font-semibold " ++ cls ++ "\">" ++ "Intro" ++ "</h3>").data
        <:+: html.data :=
  video_iframe_and_heading { title := some "Intro", videoId := some "abc123" } "Intro" "abc123"
    rfl rfl sampleWorld

set_option maxRecDepth 100000 in
/-- C23: the markup of an info box is a fixed opening, the share slot and a
fixed closing, where opening and closing do not depend on the `shared` flag and
the share slot holds the button that calls `shareSection` with the id of the
info section exactly when `shared` is `true`; with `shared` false or absent the
slot is empty.  For the box with title `Note` and content `text` the markup
contains a call of `shareSection` with `shared` true and none otherwise. -/
theorem info_share_button (data : Data) (w : World) :
    (∃ opening, ∀ shared : Option Bool,
      ComponentRenderers.info { data with shared := shared } w =
        (.ok (opening ++ (if shared = some true then "
                        <button onclick=\"shareSection('" ++ (generateSectionId data.title "info" w).1 ++ "', '" ++ interp data.title ++ "')\" 
                                class=\"ml-4 p-2 opacity-60 hover:opacity-100 transition-opacity hover:text-orange-600\" 
                                title=\"Share this section\">
                            <i class=\"fas fa-share-alt\"></i>
                        </button>
                    " else "") ++ "
                </div>
            </div>
        "), (generateSectionId data.title "info" w).2)) ∧
    (∀ html, (ComponentRenderers.info
        { title := some "Note", content := some "text", shared := some true } w).1 = .ok html →
      includesChars "<button onclick=\"shareSection('info-note'".data html.data = true) ∧
    (∀ html, (ComponentRenderers.info
        { title := some "Note", content := some "text", shared := some false } w).1 = .ok html →
      includesChars "shareSection".data html.data = false) ∧
    (∀ html, (ComponentRenderers.info
        { title := some "Note", content := some "text" } w).1 = .ok html →
      includesChars "shareSection".data html.data = false) := by
  refine ⟨⟨(let title := data.title
      let content := data.content
      let type := data.type.getD "default"
      let infoId := (generateSectionId data.title "info" w).1
      let typeStyles : List (String × String) := [
        ("default", "bg-gray-50 border-gray-200 text-gray-800 dark:bg-gray-800 dark:border-gray-700 dark:text-gray-200"),
        ("primary", "bg-orange-50 border-orange-200 text-orange-800 dark:bg-orange-900/20 dark:border-orange-800 dark:text-orange-200"),
        ("success", "bg-green-50 border-green-200 text-green-800 dark:bg-green-900/20 dark:border-green-800 dark:text-green-200"),
        ("warning", "bg-yellow-50 border-yellow-200 text-yellow-800 dark:bg-yellow-900/20 dark:border-yellow-800 dark:text-yellow-200"),
        ("error", "bg-red-50 border-red-200 text-red-800 dark:bg-red-900/20 dark:border-red-800 dark:text-red-200"),
        ("navy", "bg-blue-50 border-blue-200 text-blue-800 dark:bg-blue-900/20 dark:border-blue-800 dark:text-blue-200")]
      let icons : List (String × String) := [
        ("default", "fas fa-info-circle"),
        ("primary", "fas fa-lightbulb"),
        ("success", "fas fa-check-circle"),
        ("warning", "fas fa-exclamation-triangle"),
        ("error", "fas fa-times-circle"),
        ("navy", "fas fa-anchor")]
      "
            <div id=\"" ++ infoId ++ "\" class=\"border-l-4 p-6 mb-6 " ++ propText typeStyles type ++ " rounded-r-lg shadow-sm\">
                <div class=\"flex items-start justify-between\">
                    <div class=\"flex items-start flex-1\">
                        <i class=\"" ++ propText icons type ++ " text-xl mr-4 mt-1\"></i>
                        <div class=\"flex-1\">
                            <h3 class=\"font-semibold text-lg mb-2\">" ++ interp title ++ "</h3>
                            <div class=\"prose prose-sm max-w-none\">" ++ interp content ++ "</div>
                        </div>
                    </div>
                    "), ?_⟩, ?_, ?_, ?_⟩
  · intro shared
    rcases shared with _ | _ | _
    · rfl
    · rfl
    · rfl
  · intro html h
    injection h with h1
    rw [← h1]
    rfl
  · intro html h
    injection h with h1
    rw [← h1]
    rfl
  · intro html h
    injection h with h1
    rw [← h1]
    rfl

/-! ## Referential transparency of the renderers -/

theorem moduleHeader_fixed (data : Data) (T : String) (hT : data.title = some T) (hne : T ≠ "")
    (w w1 : World) :
    (ComponentRenderers.moduleHeader data w).1 = (ComponentRenderers.moduleHeader data w1).1 ∧
    (ComponentRenderers.moduleHeader data w).2 = w := by
  simp only [ComponentRenderers.moduleHeader, hT, generateSectionId_of_nonempty T _ hne]
  exact ⟨trivial, trivial⟩

theorem info_fixed (data : Data) (T : String) (hT : data.title = some T) (hne : T ≠ "")
    (w w1 : World) :
    (ComponentRenderers.info data w).1 = (ComponentRenderers.info data w1).1 ∧
    (ComponentRenderers.info data w).2 = w := by
  simp only [ComponentRenderers.info, hT, generateSectionId_of_nonempty T _ hne]
  exact ⟨trivial, trivial⟩

theorem material_fixed (data : Data) (T : String) (hT : data.title = some T) (hne : T ≠ "")
    (w w1 : World) :
    (ComponentRenderers.material data w).1 = (ComponentRenderers.material data w1).1 ∧
    (ComponentRenderers.material data w).2 = w := by
  simp only [ComponentRenderers.material, hT, generateSectionId_of_nonempty T _ hne]
  exact ⟨trivial, trivial⟩

theorem video_fixed (data : Data) (T : String) (hT : data.title = some T) (hne : T ≠ "")
    (w w1 : World) :
    (ComponentRenderers.video data w).1 = (ComponentRenderers.video data w1).1 ∧
    (ComponentRenderers.video data w).2 = w := by
  simp only [ComponentRenderers.video, hT, generateSectionId_of_nonempty T _ hne]
  exact ⟨trivial, trivial⟩

theorem command_fixed (data : Data) (T : String) (hT : data.title = some T) (hne : T ≠ "")
    (w w1 : World) :
    (ComponentRenderers.command data w).1 = (ComponentRenderers.command data w1).1 ∧
    (ComponentRenderers.command data w).2 = w := by
  simp only [ComponentRenderers.command, hT, generateSectionId_of_nonempty T _ hne]
  cases data.commands <;> exact ⟨rfl, rfl⟩

theorem cardSection_fixed (data : Data) (T : String) (hT : data.title = some T) (hne : T ≠ "")
    (w w1 : World) :
    (ComponentRenderers.cardSection data w).1 = (ComponentRenderers.cardSection data w1).1 ∧
    (ComponentRenderers.cardSection data w).2 = w := by
  simp only [ComponentRenderers.cardSection, hT, generateSectionId_of_nonempty T _ hne]
  cases data.cards <;> exact ⟨rfl, rfl⟩

theorem accordionSection_fixed (data : Data) (T : String) (hT : data.title = some T)
    (hne : T ≠ "") (w w1 : World) :
    (ComponentRenderers.accordionSection data w).1 =
      (ComponentRenderers.accordionSection data w1).1 ∧
    (ComponentRenderers.accordionSection data w).2 = w := by
  simp only [ComponentRenderers.accordionSection, hT, generateSectionId_of_nonempty T _ hne]
  cases data.items <;> exact ⟨rfl, rfl⟩

theorem table_fixed (data : Data) (T : String) (hT : data.title = some T) (hne : T ≠ "")
    (w w1 : World) :
    (ComponentRenderers.table data w).1 = (ComponentRenderers.table data w1).1 ∧
    (ComponentRenderers.table data w).2 = w := by
  simp only [ComponentRenderers.table, hT, generateSectionId_of_nonempty T _ hne]
  cases data.headers <;> cases data.rows <;> exact ⟨rfl, rfl⟩

theorem ne_of_includes (needle : List Char) (s t : String)
    (hs : includesChars needle s.data = true) (ht : includesChars needle t.data = false) :
    s ≠ t := by
  intro h
  rw [h, ht] at hs
  cases hs

set_option maxRecDepth 100000 in
/-- C22, counterexample: a code component with the title `Example` and the
file path `src/a.js`, rendered twice in a row where the clock advances between
the calls, gives two different markups: the first carries the element id
`id-1800000000007-zzzzzzzzz`, the second `id-1800000000008-zzzzzzzzz`. -/
theorem code_rendered_twice_differs :
    truthy (some "Example") = true ∧
    (∃ first second,
      (ComponentRenderers.code { title := some "Example", filePath := some "src/a.js" }
        laterWorld).1 = .ok first ∧
      (ComponentRenderers.code { title := some "Example", filePath := some "src/a.js" }
        (ComponentRenderers.code { title := some "Example", filePath := some "src/a.js" }
          laterWorld).2).1 = .ok second ∧
      includesChars "<code id=\"id-1800000000007-zzzzzzzzz\"".data first.data = true ∧
      includesChars "<code id=\"id-1800000000007-zzzzzzzzz\"".data second.data = false ∧
      includesChars "<code id=\"id-1800000000008-zzzzzzzzz\"".data second.data = true ∧
      first ≠ second) := by
  refine ⟨rfl, _, _, rfl, rfl, by decide!, by decide!, by decide!, ?_⟩
  exact ne_of_includes "<code id=\"id-1800000000007-zzzzzzzzz\"".data _ _
    (by decide!) (by decide!)

/-- C22, as amended: every renderer of the registry other than `code`, given a
record with a non-empty title, returns the same outcome in any two states of
the clock, the random source and the allocation counter, and leaves that state
unchanged, so rendering the same record twice yields identical markup.  The
`code` renderer depends on that state only through the identifier
`generateId` hands out for its code element. -/
theorem renderers_referentially_transparent (type : String) (renderer : Renderer)
    (hreg : (type, renderer) ∈ ComponentRenderers.entries) (hcode : type ≠ "code")
    (data : Data) (T : String) (hT : data.title = some T) (hne : T ≠ "") (w w1 : World) :
    (renderer data w).1 = (renderer data w1).1 ∧ (renderer data w).2 = w ∧
    ((generateId w).1 = (generateId w1).1 →
      (ComponentRenderers.code data w).1 = (ComponentRenderers.code data w1).1) := by
  have hcodeId : (generateId w).1 = (generateId w1).1 →
      (ComponentRenderers.code data w).1 = (ComponentRenderers.code data w1).1 := by
    intro hid
    simp only [ComponentRenderers.code, hT, generateSectionId_of_nonempty T _ hne]
    split
    · rfl
    · simp only [hid]
  have key : (renderer data w).1 = (renderer data w1).1 ∧ (renderer data w).2 = w := by
    simp only [ComponentRenderers.entries, List.mem_cons, List.mem_singleton, Prod.mk.injEq,
      List.not_mem_nil, or_false] at hreg
    rcases hreg with h | h | h | h | h | h | h | h | h
    · rw [h.2]; exact moduleHeader_fixed data T hT hne w w1
    · rw [h.2]; exact info_fixed data T hT hne w w1
    · rw [h.2]; exact material_fixed data T hT hne w w1
    · exact absurd h.1 hcode
    · rw [h.2]; exact command_fixed data T hT hne w w1
    · rw [h.2]; exact cardSection_fixed data T hT hne w w1
    · rw [h.2]; exact accordionSection_fixed data T hT hne w w1
    · rw [h.2]; exact video_fixed data T hT hne w w1
    · rw [h.2]; exact table_fixed data T hT hne w w1
  exact ⟨key.1, key.2, hcodeId⟩

/-- C22, as amended, at the info renderer and the record with title `Note`. -/
theorem renderers_referentially_transparent_witness :
    ("info", ComponentRenderers.info) ∈ ComponentRenderers.entries ∧ "info" ≠ "code" ∧
    "Note" ≠ "" ∧
    (ComponentRenderers.info { title := some "Note", content := some "text" } sampleWorld).1 =
      (ComponentRenderers.info { title := some "Note", content := some "text" } laterWorld).1 ∧
    (ComponentRenderers.info { title := some "Note", content := some "text" } sampleWorld).2 =
      sampleWorld :=
  ⟨by simp [ComponentRenderers.entries], by decide, by decide,
    (renderers_referentially_transparent "info" ComponentRenderers.info
      (by simp [ComponentRenderers.entries]) (by decide)
      { title := some "Note", content := some "text" } "Note" rfl (by decide)
      sampleWorld laterWorld).1,
    (renderers_referentially_transparent "info" ComponentRenderers.info
      (by simp [ComponentRenderers.entries]) (by decide)
      { title := some "Note", content := some "text" } "Note" rfl (by decide)
      sampleWorld laterWorld).2.1⟩

/-! ## Bookmarks -/

theorem indexOf_spec (m : String) (l : List String) :
    (indexOf m l = none ∧ m ∉ l) ∨
    (∃ i, indexOf m l = some i ∧ m ∈ l ∧ l.eraseIdx i = l.erase m) := by
  induction l with
  | nil => exact Or.inl ⟨rfl, by simp⟩
  | cons y ys ih =>
    by_cases hy : y = m
    · right
      refine ⟨0, by simp [indexOf, hy], by simp [hy], ?_⟩
      subst hy
      simp
    · rcases ih with ⟨h1, h2⟩ | ⟨i, h1, h2, h3⟩
      · left
        refine ⟨by simp [indexOf, hy, h1], ?_⟩
        simp only [List.mem_cons, not_or]
        exact ⟨fun h => hy h.symm, h2⟩
      · right
        refine ⟨i + 1, by simp [indexOf, hy, h1], List.mem_cons_of_mem _ h2, ?_⟩
        rw [List.eraseIdx_cons_succ, h3, List.erase_cons_tail]
        simpa using hy

theorem filter_ne_erase (m : String) (l : List String) :
    (l.erase m).filter (fun x => x ≠ m) = l.filter (fun x => x ≠ m) := by
  induction l with
  | nil => rfl
  | cons y ys ih =>
    by_cases hy : y = m
    · subst hy
      simp
    · rw [List.erase_cons_tail (by simpa using hy)]
      simp only [List.filter_cons, hy, ih]

theorem getItem_setItem (key value : String) (storage : List (String × String)) :
    getItem key (setItem key value storage) = some value := by
  induction storage with
  | nil => simp [setItem, getItem, List.lookup]
  | cons kv rest ih =>
    obtain ⟨k, v⟩ := kv
    unfold getItem at ih ⊢
    rw [setItem]
    split
    · simp [List.lookup]
    · rename_i hk
      have hk2 : (key == k) = false := by simpa using fun h => hk h.symm
      simp [List.lookup, hk2, ih]

theorem toggleBookmark_bookmarks (m : String) (st : BookmarkState) :
    (toggleBookmark m st).2.bookmarks =
      (if m ∈ st.bookmarks then st.bookmarks.erase m else st.bookmarks ++ [m]) ∧
    (toggleBookmark m st).2.localStorage =
      setItem "bookmarks" (jsonStringify (toggleBookmark m st).2.bookmarks) st.localStorage := by
  rcases indexOf_spec m st.bookmarks with ⟨h1, h2⟩ | ⟨i, h1, h2, h3⟩
  · rw [if_neg h2]
    cases hi : st.icon <;> simp [toggleBookmark, h1, hi]
  · rw [if_pos h2]
    cases hi : st.icon <;> simp [toggleBookmark, h1, hi, h3]

/-- C30, counterexample: in the list `["m1", "m1"]` the id `m1` occurs twice;
`toggleBookmark("m1")` splices out the first occurrence only, so `m1` is
bookmarked before and after the call. -/
theorem toggleBookmark_duplicate :
    (toggleBookmark "m1" ⟨["m1", "m1"], [], some true⟩).2.bookmarks = ["m1"] ∧
    "m1" ∈ ["m1", "m1"] ∧
    "m1" ∈ (toggleBookmark "m1" ⟨["m1", "m1"], [], some true⟩).2.bookmarks := by
  decide

/-- C30, as amended: when the id `m` occurs at most once in the bookmark list,
`toggleBookmark(m)` flips the membership of `m`, keeps the other ids with their
relative order, and stores the JSON text of the new list under the key
`bookmarks`; toggling twice gives a list with the same members as the original
one.  The list and the storage are updated also when the update of the icon
throws. -/
theorem toggleBookmark_flip (m : String) (st : BookmarkState)
    (hcount : st.bookmarks.count m ≤ 1) :
    (m ∈ (toggleBookmark m st).2.bookmarks ↔ m ∉ st.bookmarks) ∧
    (toggleBookmark m st).2.bookmarks.filter (fun x => x ≠ m) =
      st.bookmarks.filter (fun x => x ≠ m) ∧
    getItem "bookmarks" (toggleBookmark m st).2.localStorage =
      some (jsonStringify (toggleBookmark m st).2.bookmarks) ∧
    (∀ x, x ∈ (toggleBookmark m (toggleBookmark m st).2).2.bookmarks ↔ x ∈ st.bookmarks) := by
  obtain ⟨hb, hs⟩ := toggleBookmark_bookmarks m st
  obtain ⟨hb2, _⟩ := toggleBookmark_bookmarks m (toggleBookmark m st).2
  have hgone : m ∈ st.bookmarks → m ∉ st.bookmarks.erase m := by
    intro _ hmem
    have h1 := List.count_erase_self m st.bookmarks
    have h2 : 0 < (st.bookmarks.erase m).count m := List.count_pos_iff.mpr hmem
    omega
  refine ⟨?_, ?_, ?_, ?_⟩
  · rw [hb]
    by_cases hm : m ∈ st.bookmarks
    · rw [if_pos hm]
      exact ⟨fun h => absurd h (hgone hm), fun h => absurd hm h⟩
    · rw [if_neg hm]
      exact ⟨fun _ => hm, fun _ => by simp⟩
  · rw [hb]
    by_cases hm : m ∈ st.bookmarks
    · rw [if_pos hm, filter_ne_erase]
    · rw [if_neg hm]
      simp
  · rw [hs]
    exact getItem_setItem _ _ _
  · intro x
    rw [hb2, hb]
    by_cases hm : m ∈ st.bookmarks
    · rw [if_pos hm, if_neg (hgone hm)]
      by_cases hx : x = m
      · subst hx
        simp [hm]
      · simp [List.mem_erase_of_ne hx, hx]
    · rw [if_neg hm, if_pos (by simp), List.erase_append_right _ hm]
      simp

/-- C30, as amended, at the list `["a", "m1", "b"]` and the id `m1`: the new
list is `["a", "b"]`, the storage holds `["a","b"]`, and a second toggle gives
`["a", "b", "m1"]`. -/
theorem toggleBookmark_flip_witness :
    (["a", "m1", "b"] : List String).count "m1" ≤ 1 ∧
    (toggleBookmark "m1" ⟨["a", "m1", "b"], [("theme", "dark")], some true⟩).2 =
      ⟨["a", "b"], [("theme", "dark"), ("bookmarks", "[\"a\",\"b\"]")], some false⟩ ∧
    (toggleBookmark "m1"
      (toggleBookmark "m1" ⟨["a", "m1", "b"], [("theme", "dark")], some true⟩).2).2.bookmarks =
      ["a", "b", "m1"] ∧
    ("m1" ∈ (toggleBookmark "m1"
        ⟨["a", "m1", "b"], [("theme", "dark")], some true⟩).2.bookmarks ↔
      "m1" ∉ ["a", "m1", "b"]) :=
  ⟨by decide, by decide, by decide,
    (toggleBookmark_flip "m1" ⟨["a", "m1", "b"], [("theme", "dark")], some true⟩ (by decide)).1⟩

/-! ## Toast lifecycle -/

theorem attached_map (X : String) (k : Nat) (es : List PageNode) (f : PageNode → PageNode)
    (hf : ∀ e, (f e).node = e.node ∧ (f e).id = e.id) (h : ToastAttached X k es) :
    ToastAttached X k (es.map f) := by
  obtain ⟨⟨e, he, hk⟩, h2⟩ := h
  refine ⟨⟨f e, List.mem_map_of_mem f he, by rw [(hf e).1]; exact hk⟩, ?_⟩
  intro e1 he1
  obtain ⟨e0, he0, hfe⟩ := List.mem_map.mp he1
  rw [← hfe, (hf e0).1, (hf e0).2]
  exact h2 e0 he0

theorem detached_map (X : String) (k : Nat) (es : List PageNode) (f : PageNode → PageNode)
    (hf : ∀ e, (f e).node = e.node ∧ (f e).id = e.id) (h : ToastDetached X k es) :
    ToastDetached X k (es.map f) := by
  intro e1 he1
  obtain ⟨e0, he0, hfe⟩ := List.mem_map.mp he1
  rw [← hfe, (hf e0).1, (hf e0).2]
  exact h e0 he0

theorem attached_filter (X : String) (k j : Nat) (es : List PageNode) (hj : j ≠ k)
    (h : ToastAttached X k es) : ToastAttached X k (es.filter (fun e => e.node ≠ j)) := by
  obtain ⟨⟨e, he, hk⟩, h2⟩ := h
  refine ⟨⟨e, List.mem_filter.mpr ⟨he, by simpa [hk] using fun h => hj h.symm⟩, hk⟩, ?_⟩
  intro e1 he1
  exact h2 e1 (List.mem_of_mem_filter he1)

theorem detached_filter (X : String) (k j : Nat) (es : List PageNode)
    (h : ToastDetached X k es) : ToastDetached X k (es.filter (fun e => e.node ≠ j)) :=
  fun e1 he1 => h e1 (List.mem_of_mem_filter he1)

theorem detached_of_filter (X : String) (k : Nat) (es : List PageNode)
    (h : ToastAttached X k es ∨ ToastDetached X k es) :
    ToastDetached X k (es.filter (fun e => e.node ≠ k)) := by
  rcases h with h | h
  · intro e he
    have h1 : e.node ≠ k := by simpa using (List.mem_filter.mp he).2
    exact ⟨h1, fun hid => h1 ((h.2 e (List.mem_of_mem_filter he)).mp hid)⟩
  · exact detached_filter X k k es h

theorem closeToast_cases (Y : String) (q : ToastPage) :
    ((∀ e ∈ q.elements, e.id ≠ Y) ∧ closeToast Y q = q) ∨
    (∃ toast ∈ q.elements, toast.id = Y ∧ closeToast Y q =
      { q with
        elements := q.elements.map
          (fun e => if e.node = toast.node then { e with offscreen := true } else e),
        timers := q.timers ++
          [ToastTimer.mk (q.clock + 300) (ToastCallback.removeNode toast.node)] }) := by
  unfold closeToast
  cases h : q.elements.find? (fun e => e.id = Y) with
  | none =>
    left
    refine ⟨?_, rfl⟩
    intro e he
    have h1 := List.find?_eq_none.mp h e he
    simpa using h1
  | some toast =>
    right
    exact ⟨toast, List.mem_of_find?_eq_some h, by simpa using List.find?_some h, rfl⟩

theorem runCallback_clock (cb : ToastCallback) (q : ToastPage) :
    (runCallback cb q).clock = q.clock := by
  cases cb with
  | slideIn j => rfl
  | removeNode j => rfl
  | autoClose Y =>
    rcases closeToast_cases Y q with ⟨_, h⟩ | ⟨toast, _, _, h⟩
    · rw [runCallback, h]
    · rw [runCallback, h]

theorem runCallback_elements (cb : ToastCallback) (q : ToastPage) :
    (∃ f : PageNode → PageNode, (∀ e, (f e).node = e.node ∧ (f e).id = e.id) ∧
      (runCallback cb q).elements = q.elements.map f) ∨
    (∃ j, cb = ToastCallback.removeNode j ∧
      (runCallback cb q).elements = q.elements.filter (fun e => e.node ≠ j)) := by
  cases cb with
  | slideIn j =>
    left
    refine ⟨fun e => if e.node = j then { e with offscreen := false } else e, ?_, rfl⟩
    intro e
    by_cases h : e.node = j <;> simp [h]
  | removeNode j => exact Or.inr ⟨j, rfl, rfl⟩
  | autoClose Y =>
    left
    rcases closeToast_cases Y q with ⟨_, h⟩ | ⟨toast, _, _, h⟩
    · exact ⟨fun e => e, fun e => ⟨rfl, rfl⟩, by rw [runCallback, h, List.map_id']⟩
    · refine ⟨fun e => if e.node = toast.node then { e with offscreen := true } else e, ?_,
        by rw [runCallback, h]⟩
      intro e
      by_cases h : e.node = toast.node <;> simp [h]

theorem runCallback_timers (cb : ToastCallback) (q : ToastPage) :
    ((∀ Y, cb = ToastCallback.autoClose Y → ∀ e ∈ q.elements, e.id ≠ Y) ∧
      (runCallback cb q).timers = q.timers) ∨
    (∃ toast ∈ q.elements, cb = ToastCallback.autoClose toast.id ∧
      (runCallback cb q).timers = q.timers ++
        [ToastTimer.mk (q.clock + 300) (ToastCallback.removeNode toast.node)]) := by
  cases cb with
  | slideIn j => exact Or.inl ⟨fun Y h => ToastCallback.noConfusion h, rfl⟩
  | removeNode j => exact Or.inl ⟨fun Y h => ToastCallback.noConfusion h, rfl⟩
  | autoClose Y =>
    rcases closeToast_cases Y q with ⟨h0, h⟩ | ⟨toast, hmem, hid, h⟩
    · left
      refine ⟨?_, by rw [runCallback, h]⟩
      intro Z hZ
      injection hZ with hZ
      rw [← hZ]
      exact h0
    · right
      exact ⟨toast, hmem, by rw [hid], by rw [runCallback, h]⟩

theorem runCallback_timers_mono (cb : ToastCallback) (q : ToastPage) (t : ToastTimer)
    (ht : t ∈ q.timers) : t ∈ (runCallback cb q).timers := by
  rcases runCallback_timers cb q with ⟨_, h⟩ | ⟨_, _, _, h⟩
  · rw [h]; exact ht
  · rw [h]; exact List.mem_append_left _ ht

theorem runCallback_detached (X : String) (k : Nat) (cb : ToastCallback) (q : ToastPage)
    (h : ToastDetached X k q.elements) : ToastDetached X k (runCallback cb q).elements := by
  rcases runCallback_elements cb q with ⟨f, hf, he⟩ | ⟨j, _, he⟩
  · rw [he]; exact detached_map X k _ f hf h
  · rw [he]; exact detached_filter X k j _ h

theorem runCallback_attached (X : String) (k : Nat) (cb : ToastCallback) (q : ToastPage)
    (hcb : cb ≠ ToastCallback.removeNode k) (h : ToastAttached X k q.elements) :
    ToastAttached X k (runCallback cb q).elements := by
  rcases runCallback_elements cb q with ⟨f, hf, he⟩ | ⟨j, hj, he⟩
  · rw [he]; exact attached_map X k _ f hf h
  · rw [he]
    exact attached_filter X k j _ (fun hjk => hcb (by rw [hj, hjk])) h

theorem runCallback_sound (X : String) (k : Nat) (cb : ToastCallback) (q : ToastPage)
    (h : ToastAttached X k q.elements ∨ ToastDetached X k q.elements) :
    ToastAttached X k (runCallback cb q).elements ∨
      ToastDetached X k (runCallback cb q).elements := by
  rcases h with h | h
  · by_cases hcb : cb = ToastCallback.removeNode k
    · right
      rw [hcb]
      exact detached_of_filter X k _ (Or.inl h)
    · exact Or.inl (runCallback_attached X k cb q hcb h)
  · exact Or.inr (runCallback_detached X k cb q h)

theorem fold_inv (Q : ToastPage → Prop) (l : List ToastTimer) (q : ToastPage) (h0 : Q q)
    (hstep : ∀ t ∈ l, ∀ r, Q r → Q (runCallback t.callback r)) :
    Q (l.foldl (fun p t => runCallback t.callback p) q) := by
  induction l generalizing q with
  | nil => exact h0
  | cons t ts ih =>
    rw [List.foldl_cons]
    exact ih _ (hstep t (List.mem_cons_self _ _) q h0)
      (fun t1 h1 => hstep t1 (List.mem_cons_of_mem _ h1))

theorem fold_timers_mono (l : List ToastTimer) (q : ToastPage) (t : ToastTimer)
    (ht : t ∈ q.timers) : t ∈ (l.foldl (fun p t => runCallback t.callback p) q).timers :=
  fold_inv (fun r => t ∈ r.timers) l q ht
    (fun t1 _ r hr => runCallback_timers_mono t1.callback r t hr)

theorem fold_clock (l : List ToastTimer) (q : ToastPage) :
    (l.foldl (fun p t => runCallback t.callback p) q).clock = q.clock :=
  fold_inv (fun r => r.clock = q.clock) l q rfl
    (fun t1 _ r hr => by
      show (runCallback t1.callback r).clock = q.clock
      rw [runCallback_clock]
      exact hr)

theorem safe_step (X : String) (k c0 : Nat) (cb : ToastCallback) (r : ToastPage)
    (hcb : cb ≠ ToastCallback.removeNode k)
    (hclose : cb = ToastCallback.autoClose X → r.clock = c0 + 5000)
    (h : ToastSafe X k c0 r) : ToastSafe X k c0 (runCallback cb r) := by
  obtain ⟨h1, h2, h3⟩ := h
  refine ⟨runCallback_attached X k cb r hcb h1, ?_, ?_⟩
  · rw [runCallback_clock]
    rcases runCallback_timers cb r with ⟨_, ht⟩ | ⟨toast, hmem, hcbeq, ht⟩
    · rw [ht]; exact h2
    · rw [ht]
      intro t htm hta
      rcases List.mem_append.mp htm with htm | htm
      · exact h2 t htm hta
      · rw [List.mem_singleton.mp htm] at hta
        cases hta
  · rcases runCallback_timers cb r with ⟨_, ht⟩ | ⟨toast, hmem, hcbeq, ht⟩
    · rw [ht]; exact h3
    · rw [ht]
      intro t htm hta
      rcases List.mem_append.mp htm with htm | htm
      · exact h3 t htm hta
      · rw [List.mem_singleton.mp htm] at hta ⊢
        injection hta with hnode
        have hid : toast.id = X := (h1.2 toast hmem).mpr hnode
        have hc := hclose (by rw [hcbeq, hid])
        show r.clock + 300 = c0 + 5300
        omega

theorem fold_close_adds (X : String) (k : Nat) (l : List ToastTimer) (r : ToastPage)
    (hl : ∀ t ∈ l, t.callback ≠ ToastCallback.removeNode k)
    (h : ToastAttached X k r.elements)
    (hex : ∃ t ∈ l, t.callback = ToastCallback.autoClose X) :
    ∃ t ∈ (l.foldl (fun p t => runCallback t.callback p) r).timers,
      t.callback = ToastCallback.removeNode k := by
  induction l generalizing r with
  | nil =>
    obtain ⟨t, ht, _⟩ := hex
    cases ht
  | cons t ts ih =>
    rw [List.foldl_cons]
    by_cases htc : t.callback = ToastCallback.autoClose X
    · rcases runCallback_timers t.callback r with ⟨hno, _⟩ | ⟨toast, hmem, hcbeq, ht⟩
      · obtain ⟨e, he, hek⟩ := h.1
        exact absurd ((h.2 e he).mpr hek) (hno X htc e he)
      · have hid : toast.id = X := by
          rw [htc] at hcbeq
          injection hcbeq with h0
          exact h0.symm
        have hnode : toast.node = k := (h.2 toast hmem).mp hid
        refine ⟨ToastTimer.mk (r.clock + 300) (ToastCallback.removeNode toast.node),
          fold_timers_mono ts _ _ (by rw [ht]; simp), by rw [hnode]⟩
    · obtain ⟨t1, ht1, hc1⟩ := hex
      have ht1s : t1 ∈ ts := by
        rcases List.mem_cons.mp ht1 with h0 | h0
        · rw [h0] at hc1
          exact absurd hc1 htc
        · exact h0
      exact ih (runCallback t.callback r) (fun t2 h2 => hl t2 (List.mem_cons_of_mem _ h2))
        (runCallback_attached X k t.callback r (hl t (List.mem_cons_self _ _)) h)
        ⟨t1, ht1s, hc1⟩

theorem fold_remove (X : String) (k : Nat) (l : List ToastTimer) (r : ToastPage)
    (h : ToastAttached X k r.elements ∨ ToastDetached X k r.elements)
    (hex : ∃ t ∈ l, t.callback = ToastCallback.removeNode k) :
    ToastDetached X k (l.foldl (fun p t => runCallback t.callback p) r).elements := by
  induction l generalizing r with
  | nil =>
    obtain ⟨t, ht, _⟩ := hex
    cases ht
  | cons t ts ih =>
    rw [List.foldl_cons]
    by_cases htc : t.callback = ToastCallback.removeNode k
    · apply fold_inv (fun q => ToastDetached X k q.elements)
      · rw [htc]
        exact detached_of_filter X k _ h
      · intro t1 _ q hq
        exact runCallback_detached X k t1.callback q hq
    · obtain ⟨t1, ht1, hc1⟩ := hex
      have ht1s : t1 ∈ ts := by
        rcases List.mem_cons.mp ht1 with h0 | h0
        · rw [h0] at hc1
          exact absurd hc1 htc
        · exact h0
      exact ih (runCallback t.callback r) (runCallback_sound X k t.callback r h) ⟨t1, ht1s, hc1⟩

theorem tick_eq (p : ToastPage) :
    tick p = (p.timers.filter (fun t => t.due ≤ p.clock + 1)).foldl
      (fun q t => runCallback t.callback q)
      { p with clock := p.clock + 1, timers := p.timers.filter (fun t => ¬ t.due ≤ p.clock + 1) } :=
  rfl

theorem tick_clock (p : ToastPage) : (tick p).clock = p.clock + 1 := by
  rw [tick_eq, fold_clock]

theorem tick_detached (X : String) (k : Nat) (p : ToastPage)
    (h : ToastDetached X k p.elements) : ToastDetached X k (tick p).elements := by
  rw [tick_eq]
  exact fold_inv (fun q => ToastDetached X k q.elements) _ _ h
    (fun t1 _ q hq => runCallback_detached X k t1.callback q hq)

theorem tick_detach (X : String) (k c0 : Nat) (p : ToastPage) (h : ToastLive X k c0 p)
    (hc : p.clock + 1 = c0 + 5300) : ToastDetached X k (tick p).elements := by
  obtain ⟨⟨h1, h2, h3⟩, h4, h5⟩ := h
  obtain ⟨t, ht, htc⟩ := h5 (by omega)
  rw [tick_eq]
  refine fold_remove X k (p.timers.filter (fun t => t.due ≤ p.clock + 1))
    { p with clock := p.clock + 1, timers := p.timers.filter (fun t => ¬ t.due ≤ p.clock + 1) }
    (Or.inl h1) ⟨t, List.mem_filter.mpr ⟨ht, ?_⟩, htc⟩
  have := h3 t ht htc
  simp only [decide_eq_true_eq]
  omega

theorem tick_live (X : String) (k c0 : Nat) (p : ToastPage) (h : ToastLive X k c0 p)
    (hc : p.clock + 1 < c0 + 5300) : ToastLive X k c0 (tick p) := by
  obtain ⟨⟨h1, h2, h3⟩, h4, h5⟩ := h
  have hstart : ToastSafe X k c0
      { p with clock := p.clock + 1,
               timers := p.timers.filter (fun t => ¬ t.due ≤ p.clock + 1) } := by
    refine ⟨h1, ?_, ?_⟩
    · intro t ht htc
      obtain ⟨hm, hd⟩ := List.mem_filter.mp ht
      have h6 := h2 t hm htc
      simp only [decide_eq_true_eq] at hd
      exact ⟨h6.1, by show p.clock + 1 < c0 + 5000; omega⟩
    · intro t ht htc
      exact h3 t (List.mem_of_mem_filter ht) htc
  have hfold := fold_inv (fun q => ToastSafe X k c0 q ∧ q.clock = p.clock + 1)
    (p.timers.filter (fun t => t.due ≤ p.clock + 1))
    { p with clock := p.clock + 1, timers := p.timers.filter (fun t => ¬ t.due ≤ p.clock + 1) }
    ⟨hstart, rfl⟩ (by
      intro t ht q hq
      obtain ⟨hm, hd⟩ := List.mem_filter.mp ht
      simp only [decide_eq_true_eq] at hd
      refine ⟨safe_step X k c0 t.callback q ?_ ?_ hq.1, by rw [runCallback_clock]; exact hq.2⟩
      · intro htc
        have := h3 t hm htc
        omega
      · intro htc
        have := h2 t hm htc
        rw [hq.2]
        omega)
  rw [← tick_eq] at hfold
  refine ⟨hfold.1, ?_, ?_⟩
  · intro hlt
    rw [hfold.2] at hlt
    obtain ⟨t, ht, htc⟩ := h4 (by omega)
    refine ⟨t, ?_, htc⟩
    rw [tick_eq]
    apply fold_timers_mono
    refine List.mem_filter.mpr ⟨ht, ?_⟩
    have := h2 t ht htc
    simp only [decide_eq_true_eq]
    omega
  · intro hge
    rw [hfold.2] at hge
    by_cases hp : c0 + 5000 ≤ p.clock
    · obtain ⟨t, ht, htc⟩ := h5 hp
      refine ⟨t, ?_, htc⟩
      rw [tick_eq]
      apply fold_timers_mono
      refine List.mem_filter.mpr ⟨ht, ?_⟩
      have := h3 t ht htc
      simp only [decide_eq_true_eq]
      omega
    · obtain ⟨t, ht, htc⟩ := h4 (by omega)
      rw [tick_eq]
      refine fold_close_adds X k (p.timers.filter (fun t => t.due ≤ p.clock + 1))
        { p with clock := p.clock + 1,
                 timers := p.timers.filter (fun t => ¬ t.due ≤ p.clock + 1) }
        ?_ h1 ⟨t, List.mem_filter.mpr ⟨ht, ?_⟩, htc⟩
      · intro t1 ht1 htc1
        obtain ⟨hm, hd⟩ := List.mem_filter.mp ht1
        simp only [decide_eq_true_eq] at hd
        have := h3 t1 hm htc1
        omega
      · have := h2 t ht htc
        simp only [decide_eq_true_eq]
        omega

theorem advance_live (X : String) (k c0 : Nat) (n : Nat) (p : ToastPage)
    (h : ToastLive X k c0 p) (hc : p.clock + n < c0 + 5300) :
    ToastLive X k c0 (advance n p) ∧ (advance n p).clock = p.clock + n := by
  induction n generalizing p with
  | zero => exact ⟨h, rfl⟩
  | succ n ih =>
    have h1 := tick_live X k c0 p h (by omega)
    obtain ⟨h2, h3⟩ := ih (tick p) h1 (by rw [tick_clock]; omega)
    exact ⟨h2, by
      show (advance n (tick p)).clock = p.clock + (n + 1)
      rw [h3, tick_clock]
      omega⟩

theorem advance_detached (X : String) (k : Nat) (n : Nat) (p : ToastPage)
    (h : ToastDetached X k p.elements) : ToastDetached X k (advance n p).elements := by
  induction n generalizing p with
  | zero => exact h
  | succ n ih => exact ih (tick p) (tick_detached X k p h)

theorem advance_add (a b : Nat) (p : ToastPage) :
    advance (a + b) p = advance b (advance a p) := by
  induction a generalizing p with
  | zero =>
    rw [Nat.zero_add]
    rfl
  | succ a ih =>
    have h : a + 1 + b = (a + b) + 1 := by omega
    rw [h]
    exact ih (tick p)

theorem advance_clock (n : Nat) (p : ToastPage) : (advance n p).clock = p.clock + n := by
  induction n generalizing p with
  | zero => rfl
  | succ n ih =>
    show (advance n (tick p)).clock = p.clock + (n + 1)
    rw [ih, tick_clock]
    omega

theorem showToast_page (message : String) (type : Option String) (page : ToastPage)
    (w : World) :
    ∃ e, e.node = page.created ∧ e.id = (generateId w).1 ∧
      (showToast message type page w).1 =
        { clock := page.clock,
          elements := page.elements ++ [e],
          timers := page.timers ++
            [ToastTimer.mk (page.clock + 100) (ToastCallback.slideIn page.created),
             ToastTimer.mk (page.clock + 5000) (ToastCallback.autoClose (generateId w).1)],
          created := page.created + 1 } :=
  ⟨_, rfl, rfl, rfl⟩

theorem showToast_live (message : String) (type : Option String) (page : ToastPage)
    (w : World)
    (hnodes : ∀ e ∈ page.elements, e.id ≠ (generateId w).1 ∧ e.node ≠ page.created)
    (htimers : ∀ t ∈ page.timers,
      t.callback ≠ ToastCallback.autoClose (generateId w).1 ∧
      t.callback ≠ ToastCallback.removeNode page.created) :
    ToastLive (generateId w).1 page.created page.clock (showToast message type page w).1 ∧
    (showToast message type page w).1.clock = page.clock := by
  obtain ⟨e, he1, he2, hp⟩ := showToast_page message type page w
  rw [hp]
  refine ⟨⟨⟨⟨⟨e, by simp, he1⟩, ?_⟩, ?_, ?_⟩, ?_, ?_⟩, rfl⟩
  · intro e1 he1m
    rcases List.mem_append.mp he1m with h | h
    · exact ⟨fun h1 => absurd h1 (hnodes e1 h).1, fun h1 => absurd h1 (hnodes e1 h).2⟩
    · rw [List.mem_singleton.mp h]
      exact ⟨fun _ => he1, fun _ => he2⟩
  · intro t ht htc
    rcases List.mem_append.mp ht with h | h
    · exact absurd htc (htimers t h).1
    · simp only [List.mem_cons, List.mem_singleton, List.not_mem_nil, or_false] at h
      rcases h with h | h
      · rw [h] at htc
        cases htc
      · rw [h]
        exact ⟨rfl, by show page.clock < page.clock + 5000; omega⟩
  · intro t ht htc
    rcases List.mem_append.mp ht with h | h
    · exact absurd htc (htimers t h).2
    · simp only [List.mem_cons, List.mem_singleton, List.not_mem_nil, or_false] at h
      rcases h with h | h
      · rw [h] at htc
        cases htc
      · rw [h] at htc
        cases htc
  · intro _
    exact ⟨ToastTimer.mk (page.clock + 5000) (ToastCallback.autoClose (generateId w).1),
      by simp, rfl⟩
  · intro h
    exact absurd h (by show ¬ page.clock + 5000 ≤ page.clock; omega)

/-- C21: a toast created by `showToast` on a page where no attached element and
no pending timer refers to its id or its element, with every timer run at the
millisecond it is due and nothing else acting on the page, is attached at every
time from its creation until 5300 ms later, so throughout the first five
seconds and in particular after one second, and is detached from then on, in
particular after six seconds: the closing timer runs at 5000 ms and the
removal 300 ms after it. -/
theorem toast_lifecycle (message : String) (type : Option String) (page : ToastPage)
    (w : World)
    (hnodes : ∀ e ∈ page.elements, e.id ≠ (generateId w).1 ∧ e.node ≠ page.created)
    (htimers : ∀ t ∈ page.timers,
      t.callback ≠ ToastCallback.autoClose (generateId w).1 ∧
      t.callback ≠ ToastCallback.removeNode page.created) :
    (∀ n, n < 5300 →
      ∃ e ∈ (advance n (showToast message type page w).1).elements,
        e.node = page.created ∧ e.id = (generateId w).1) ∧
    (∀ n, 5300 ≤ n →
      ∀ e ∈ (advance n (showToast message type page w).1).elements,
        e.node ≠ page.created ∧ e.id ≠ (generateId w).1) ∧
    (∀ n, (advance n (showToast message type page w).1).clock = page.clock + n) := by
  obtain ⟨hlive, hclock⟩ := showToast_live message type page w hnodes htimers
  refine ⟨?_, ?_, ?_⟩
  · intro n hn
    obtain ⟨h1, _⟩ := advance_live _ _ _ n _ hlive (by rw [hclock]; omega)
    obtain ⟨e, he, hk⟩ := h1.1.1.1
    exact ⟨e, he, hk, (h1.1.1.2 e he).mpr hk⟩
  · intro n hn
    obtain ⟨m, hm⟩ : ∃ m, n = 5299 + (1 + m) := ⟨n - 5300, by omega⟩
    obtain ⟨h1, h2⟩ := advance_live _ _ _ 5299 _ hlive (by rw [hclock]; omega)
    have h3 := tick_detach _ _ _ _ h1 (by rw [h2, hclock])
    rw [hm, advance_add, advance_add]
    exact advance_detached _ _ m _ h3
  · intro n
    rw [advance_clock, hclock]

/-- C21 on a page that already shows an older toast: the new toast is attached
after one second and after 4999 ms, and detached after six seconds. -/
theorem toast_lifecycle_witness :
    (∃ e ∈ (advance 1000 (showToast "Download started!" (some "success")
        ⟨1000, [⟨0, "id-old", "", "", false⟩], [⟨2000, ToastCallback.autoClose "id-old"⟩], 1⟩
        sampleWorld).1).elements, e.node = 1 ∧ e.id = "id-1700000000000-k3x9q2m1z") ∧
    (∃ e ∈ (advance 4999 (showToast "Download started!" (some "success")
        ⟨1000, [⟨0, "id-old", "", "", false⟩], [⟨2000, ToastCallback.autoClose "id-old"⟩], 1⟩
        sampleWorld).1).elements, e.node = 1 ∧ e.id = "id-1700000000000-k3x9q2m1z") ∧
    (∀ e ∈ (advance 6000 (showToast "Download started!" (some "success")
        ⟨1000, [⟨0, "id-old", "", "", false⟩], [⟨2000, ToastCallback.autoClose "id-old"⟩], 1⟩
        sampleWorld).1).elements, e.node ≠ 1 ∧ e.id ≠ "id-1700000000000-k3x9q2m1z") :=
  ⟨(toast_lifecycle "Download started!" (some "success")
      ⟨1000, [⟨0, "id-old", "", "", false⟩], [⟨2000, ToastCallback.autoClose "id-old"⟩], 1⟩
      sampleWorld (by decide) (by decide)).1 1000 (by decide),
    (toast_lifecycle "Download started!" (some "success")
      ⟨1000, [⟨0, "id-old", "", "", false⟩], [⟨2000, ToastCallback.autoClose "id-old"⟩], 1⟩
      sampleWorld (by decide) (by decide)).1 4999 (by decide),
    (toast_lifecycle "Download started!" (some "success")
      ⟨1000, [⟨0, "id-old", "", "", false⟩], [⟨2000, ToastCallback.autoClose "id-old"⟩], 1⟩
      sampleWorld (by decide) (by decide)).2.1 6000 (by decide)⟩

end TestWebsite
